import Mathlib

/-! ## gsclient-go: the synchronous operation orchestrators

A shallow embedding of the resource operations of the gridscale client
(`network.go`, `storage.go`, `template.go`, `sshkey.go`, `label.go`,
`snapshot.go`, `paas.go`, `objectstorage.go`, `serverisoimage.go`,
`servernetwork.go`, `serverip.go`, `serverstorage.go`).

Every operation is a function from a `World` to a result and a new `World`.
A `World` is the state of the provider's backend together with the trace of
the calls the client made to the request executor, the completion waiter and
the pollers.  The code that those calls run (`Request.execute`,
`waitForRequestCompleted`, `retryWithTimeout`, `waitFor404Status`,
`waitFor200Status`, `isValidUUID`, the `api...Base` constants) is declared
in files that are not part of the sources at hand; it is taken as a
parameter, the structure `Env`.  The poll loop and the power-state transitions
of `server.go`, which are not among the sources either, have in addition a
definition that follows the text of the specification.
-/

namespace Gsclient

/-! ## Go values -/

/-- A non-nil Go `error`.  `nil` is `none` of `Option GoError`. -/
inductive GoError where
  /-- The value of `errors.New(text)`. -/
  | errorsNew (text : String)
  /-- The value of `fmt.Errorf(format, args...)`. -/
  | fmtErrorf (format : String) (args : List String)
  /-- An error made by the request executor, a waiter or a poller. -/
  | requestError (statusCode : Int) (description : String)
deriving DecidableEq, Inhabited

/-- Go's `time.Duration`. -/
abbrev Duration := Int

/-- The type `GSTime` (a wrapper of `time.Time`), as the instant it denotes. -/
structure GSTime where
  unixNano : Int := 0
deriving DecidableEq, Inhabited

/-- Go's `float64`, as its IEEE 754 bit pattern.  No arithmetic is done on it. -/
structure Float64 where
  bits : Nat := 0
deriving DecidableEq, Inhabited

/-- A value of Go's `interface{}` as `encoding/json` decodes it. -/
inductive AnyValue where
  | nil
  | bool (b : Bool)
  | float64 (f : Float64)
  | string (s : String)
  | slice (xs : List AnyValue)
  | map (entries : List (String × AnyValue))
deriving Inhabited

/-- `http.MethodGet`. -/
def MethodGet : String := "GET"

/-- `http.MethodPost`. -/
def MethodPost : String := "POST"

/-- `http.MethodPatch`. -/
def MethodPatch : String := "PATCH"

/-- `http.MethodDelete`. -/
def MethodDelete : String := "DELETE"

/-! ## network.go: data -/

/-- NetworkVlan is JSON struct of a relation between a network and a VLAN. -/
structure NetworkVlan where
  Vlan : Int := 0
  TenantName : String := ""
  TenantUUID : String := ""
deriving Inhabited

/-- NetworkServer is JSON struct of a relation between a network and a server. -/
structure NetworkServer where
  ObjectUUID : String := ""
  Mac : String := ""
  Bootdevice : Bool := false
  CreateTime : GSTime := {}
  L3security : List String := []
  ObjectName : String := ""
  NetworkUUID : String := ""
  Ordering : Int := 0
deriving Inhabited

/-- NetworkRelations is JSON struct of a list of a network's relations. -/
structure NetworkRelations where
  Vlans : List NetworkVlan := []
  Servers : List NetworkServer := []
deriving Inhabited

/-- NetworkProperties is JSON struct of a network's properties. -/
structure NetworkProperties where
  LocationCountry : String := ""
  LocationUUID : String := ""
  PublicNet : Bool := false
  ObjectUUID : String := ""
  NetworkType : String := ""
  Name : String := ""
  Status : String := ""
  CreateTime : GSTime := {}
  L2Security : Bool := false
  ChangeTime : GSTime := {}
  LocationIata : String := ""
  LocationName : String := ""
  DeleteBlock : Bool := false
  Labels : List String := []
  Relations : NetworkRelations := {}
deriving Inhabited

/-- NetworkList is JSON struct of a list of networks.  The Go map is given by
an enumeration of its entries. -/
structure NetworkList where
  List : List (String × NetworkProperties) := []
deriving Inhabited

/-- DeletedNetworkList is JSON struct of a list of deleted networks. -/
structure DeletedNetworkList where
  List : List (String × NetworkProperties) := []
deriving Inhabited

/-- Network is JSON struct of a single network. -/
structure Network where
  Properties : NetworkProperties := {}
deriving Inhabited

/-- NetworkCreateRequest is JSON of a request for creating a network. -/
structure NetworkCreateRequest where
  Name : String := ""
  Labels : List String := []
  LocationUUID : String := ""
  L2Security : Bool := false
deriving Inhabited

/-- NetworkCreateResponse is JSON of a response for creating a network. -/
structure NetworkCreateResponse where
  ObjectUUID : String := ""
  RequestUUID : String := ""
deriving Inhabited

/-- NetworkUpdateRequest is JSON of a request for updating a network. -/
structure NetworkUpdateRequest where
  Name : String := ""
  L2Security : Bool := false
deriving Inhabited

/-! ## Types declared outside the sources at hand -/

/-- The type `CreateResponse`, the response of the create operations of
storage, template, SSH key and label.  Its declaration is in a file that is not
among the sources; the operations read its field `RequestUUID`. -/
structure CreateResponse where
  ObjectUUID : String := ""
  RequestUUID : String := ""
deriving Inhabited

/-- The type `storageType`: a struct around one string (`storageType{"storage"}`). -/
structure storageType where
  value : String := ""
deriving Inhabited

/-- The type `passwordType`: a struct around one string (`passwordType{"plain"}`). -/
structure passwordType where
  value : String := ""
deriving Inhabited

/-- The type `FirewallRuleProperties`, with the fields the tests of the firewall set. -/
structure FirewallRuleProperties where
  Protocol : String := ""
  DstPort : String := ""
  SrcPort : String := ""
  Order : Int := 0
deriving Inhabited

/-- The type `FirewallRules`, with the field the tests of the firewall set. -/
structure FirewallRules where
  RulesV6In : List FirewallRuleProperties := []
deriving Inhabited

/-! ## storage.go: data -/

/-- StorageServerRelation JSON struct of a relation between a storage and a server. -/
structure StorageServerRelation where
  Bootdevice : Bool := false
  Target : Int := 0
  Controller : Int := 0
  Bus : Int := 0
  ObjectUUID : String := ""
  Lun : Int := 0
  CreateTime : GSTime := {}
  ObjectName : String := ""
deriving Inhabited

/-- StorageSnapshotRelation JSON struct of a relation between a storage and a snapshot. -/
structure StorageSnapshotRelation where
  LastUsedTemplate : String := ""
  ObjectUUID : String := ""
  StorageUUID : String := ""
  SchedulesSnapshotName : String := ""
  SchedulesSnapshotUUID : String := ""
  ObjectCapacity : Int := 0
  CreateTime : GSTime := {}
  ObjectName : String := ""
deriving Inhabited

/-- StorageAndSnapshotScheduleRelation JSON struct of a relation between a storage
and a snapshot schedule. -/
structure StorageAndSnapshotScheduleRelation where
  RunInterval : Int := 0
  KeepSnapshots : Int := 0
  ObjectName : String := ""
  NextRuntime : GSTime := {}
  ObjectUUID : String := ""
  Name : String := ""
  CreateTime : GSTime := {}
deriving Inhabited

/-- StorageRelations JSON struct of a list of a storage's relations. -/
structure StorageRelations where
  Servers : List StorageServerRelation := []
  SnapshotSchedules : List StorageAndSnapshotScheduleRelation := []
deriving Inhabited

/-- StorageProperties JSON struct of properties of a storage. -/
structure StorageProperties where
  ChangeTime : GSTime := {}
  LocationIata : String := ""
  Status : String := ""
  LicenseProductNo : Int := 0
  LocationCountry : String := ""
  UsageInMinutes : Int := 0
  LastUsedTemplate : String := ""
  CurrentPrice : Float64 := {}
  Capacity : Int := 0
  LocationUUID : String := ""
  StorageType : String := ""
  ParentUUID : String := ""
  Name : String := ""
  LocationName : String := ""
  ObjectUUID : String := ""
  Snapshots : List StorageSnapshotRelation := []
  Relations : StorageRelations := {}
  Labels : List String := []
  CreateTime : GSTime := {}
deriving Inhabited

/-- StorageList JSON struct of a list of storages. -/
structure StorageList where
  List : List (String × StorageProperties) := []
deriving Inhabited

/-- DeletedStorageList JSON struct of a list of storages. -/
structure DeletedStorageList where
  List : List (String × StorageProperties) := []
deriving Inhabited

/-- Storage JSON struct of a single storage. -/
structure Storage where
  Properties : StorageProperties := {}
deriving Inhabited

/-- StorageTemplate JSON struct of a storage template. -/
structure StorageTemplate where
  Sshkeys : List String := []
  TemplateUUID : String := ""
  Password : String := ""
  PasswordType : Option passwordType := none
  Hostname : String := ""
deriving Inhabited

/-- StorageCreateRequest JSON struct of a request for creating a storage. -/
structure StorageCreateRequest where
  Capacity : Int := 0
  LocationUUID : String := ""
  Name : String := ""
  StorageType : Option storageType := none
  Template : Option StorageTemplate := none
  Labels : List String := []
deriving Inhabited

/-- StorageUpdateRequest JSON struct of a request for updating a storage. -/
structure StorageUpdateRequest where
  Name : String := ""
  Labels : List String := []
  Capacity : Int := 0
deriving Inhabited

/-! ## template.go: data -/

/-- TemplateProperties JSOn struct of properties of a template. -/
structure TemplateProperties where
  Status : String := ""
  Ostype : String := ""
  LocationUUID : String := ""
  Version : String := ""
  LocationIata : String := ""
  ChangeTime : GSTime := {}
  Private : Bool := false
  ObjectUUID : String := ""
  LicenseProductNo : Int := 0
  CreateTime : GSTime := {}
  UsageInMinutes : Int := 0
  Capacity : Int := 0
  LocationName : String := ""
  Distro : String := ""
  Description : String := ""
  CurrentPrice : Float64 := {}
  LocationCountry : String := ""
  Name : String := ""
  Labels : List String := []
deriving Inhabited

/-- TemplateList JSON struct of a list of templates. -/
structure TemplateList where
  List : List (String × TemplateProperties) := []
deriving Inhabited

/-- DeletedTemplateList JSON struct of a list of deleted templates. -/
structure DeletedTemplateList where
  List : List (String × TemplateProperties) := []
deriving Inhabited

/-- Template JSON struct of a single template. -/
structure Template where
  Properties : TemplateProperties := {}
deriving Inhabited

/-- TemplateCreateRequest JSON struct of a request for creating a template. -/
structure TemplateCreateRequest where
  Name : String := ""
  SnapshotUUID : String := ""
  Labels : List String := []
deriving Inhabited

/-- TemplateUpdateRequest JSON struct of a request for updating a template. -/
structure TemplateUpdateRequest where
  Name : String := ""
  Labels : List String := []
deriving Inhabited

/-! ## sshkey.go: data -/

/-- SshkeyProperties JSON struct of properties of a single SSH-key. -/
structure SshkeyProperties where
  Name : String := ""
  ObjectUUID : String := ""
  Status : String := ""
  CreateTime : GSTime := {}
  ChangeTime : GSTime := {}
  Sshkey : String := ""
  Labels : List String := []
  UserUUID : String := ""
deriving Inhabited

/-- SshkeyList JSON struct of a list of SSH-keys. -/
structure SshkeyList where
  List : List (String × SshkeyProperties) := []
deriving Inhabited

/-- Sshkey JSON struct of a single SSH-key. -/
structure Sshkey where
  Properties : SshkeyProperties := {}
deriving Inhabited

/-- SshkeyCreateRequest JSON struct of a request for creating a SSH-key. -/
structure SshkeyCreateRequest where
  Name : String := ""
  Sshkey : String := ""
  Labels : List String := []
deriving Inhabited

/-- SshkeyUpdateRequest JSON struct of a request for updating a SSH-key. -/
structure SshkeyUpdateRequest where
  Name : String := ""
  Sshkey : String := ""
  Labels : List String := []
deriving Inhabited

/-! ## label.go: data -/

/-- LabelProperties JSON struct of properties of a label. -/
structure LabelProperties where
  Label : String := ""
  CreateTime : GSTime := {}
  ChangeTime : GSTime := {}
  Relations : List AnyValue := []
  Status : String := ""
deriving Inhabited

/-- LabelList JSON struct of a list of labels. -/
structure LabelList where
  List : List (String × LabelProperties) := []
deriving Inhabited

/-- Label JSON struct of a single label. -/
structure Label where
  Properties : LabelProperties := {}
deriving Inhabited

/-- LabelCreateRequest JSON struct of a request for creating a label. -/
structure LabelCreateRequest where
  Label : String := ""
deriving Inhabited

/-! ## snapshot.go: data -/

/-- StorageSnapshotProperties JSON struct of properties of a storage snapshot. -/
structure StorageSnapshotProperties where
  Labels : List String := []
  ObjectUUID : String := ""
  Name : String := ""
  Status : String := ""
  LocationCountry : String := ""
  UsageInMinutes : Int := 0
  LocationUUID : String := ""
  ChangeTime : GSTime := {}
  LicenseProductNo : Int := 0
  CurrentPrice : Float64 := {}
  CreateTime : GSTime := {}
  Capacity : Int := 0
  LocationName : String := ""
  LocationIata : String := ""
  ParentUUID : String := ""
deriving Inhabited

/-- StorageSnapshotList is JSON structure of a list of storage snapshots. -/
structure StorageSnapshotList where
  List : List (String × StorageSnapshotProperties) := []
deriving Inhabited

/-- DeletedStorageSnapshotList is JSON structure of a list of deleted storage snapshots. -/
structure DeletedStorageSnapshotList where
  List : List (String × StorageSnapshotProperties) := []
deriving Inhabited

/-- StorageSnapshot is JSON structure of a single storage snapshot. -/
structure StorageSnapshot where
  Properties : StorageSnapshotProperties := {}
deriving Inhabited

/-- StorageSnapshotCreateRequest JSON struct of a request for creating a storage snapshot. -/
structure StorageSnapshotCreateRequest where
  Name : String := ""
  Labels : List String := []
deriving Inhabited

/-- StorageSnapshotCreateResponse JSON struct of a response for creating a storage snapshot. -/
structure StorageSnapshotCreateResponse where
  RequestUUID : String := ""
  ObjectUUID : String := ""
deriving Inhabited

/-- StorageSnapshotUpdateRequest JSON struct of a request for updating a storage snapshot. -/
structure StorageSnapshotUpdateRequest where
  Name : String := ""
  Labels : List String := []
deriving Inhabited

/-- StorageRollbackRequest JSON struct of a request for rolling back. -/
structure StorageRollbackRequest where
  Rollback : Bool := false
deriving Inhabited

/-- The anonymous struct of the field `S3auth` of `StorageSnapshotExportToS3Request`. -/
structure S3auth where
  Host : String := ""
  AccessKey : String := ""
  SecretKey : String := ""
deriving Inhabited

/-- The anonymous struct of the field `S3data` of `StorageSnapshotExportToS3Request`. -/
structure S3data where
  Host : String := ""
  Bucket : String := ""
  Filename : String := ""
  Private : Bool := false
deriving Inhabited

/-- StorageSnapshotExportToS3Request JSON struct of a request for exporting a storage
snapshot to S3. -/
structure StorageSnapshotExportToS3Request where
  S3auth : S3auth := {}
  S3data : S3data := {}
deriving Inhabited

/-! ## paas.go: data -/

/-- Credential is JSON struct of credential.  The Go field `Type` is `Type_` here. -/
structure Credential where
  Username : String := ""
  Password : String := ""
  Type_ : String := ""
deriving Inhabited

/-- ResourceLimit is JSON struct of resource limit. -/
structure ResourceLimit where
  Resource : String := ""
  Limit : Int := 0
deriving Inhabited

/-- PaaSServiceProperties is the properties of a single PaaS service. -/
structure PaaSServiceProperties where
  ObjectUUID : String := ""
  Labels : List String := []
  Credentials : List Credential := []
  CreateTime : GSTime := {}
  ListenPorts : List (String × List (String × Int)) := []
  SecurityZoneUUID : String := ""
  ServiceTemplateUUID : String := ""
  UsageInMinutes : Int := 0
  CurrentPrice : Float64 := {}
  ChangeTime : GSTime := {}
  Status : String := ""
  Name : String := ""
  ResourceLimits : List ResourceLimit := []
  Parameters : List (String × AnyValue) := []
deriving Inhabited

/-- PaaSServices is the JSON struct of a list of PaaS services. -/
structure PaaSServices where
  List : List (String × PaaSServiceProperties) := []
deriving Inhabited

/-- DeletedPaaSServices is the JSON struct of a list of deleted PaaS services. -/
structure DeletedPaaSServices where
  List : List (String × PaaSServiceProperties) := []
deriving Inhabited

/-- PaaSService is the JSON struct of a single PaaS service. -/
structure PaaSService where
  Properties : PaaSServiceProperties := {}
deriving Inhabited

/-- PaaSServiceCreateRequest is JSON struct of a request for creating a PaaS service. -/
structure PaaSServiceCreateRequest where
  Name : String := ""
  PaaSServiceTemplateUUID : String := ""
  Labels : List String := []
  PaaSSecurityZoneUUID : String := ""
  ResourceLimits : List ResourceLimit := []
  Parameters : List (String × AnyValue) := []
deriving Inhabited

/-- PaaSServiceCreateResponse is JSON struct of a response for creating a PaaS service. -/
structure PaaSServiceCreateResponse where
  RequestUUID : String := ""
  ListenPorts : List (String × List (String × Int)) := []
  PaaSServiceUUID : String := ""
  Credentials : List Credential := []
  ObjectUUID : String := ""
  ResourceLimits : List ResourceLimit := []
  Parameters : List (String × AnyValue) := []
deriving Inhabited

/-- Parameter JSON of a parameter.  The Go field `Type` is `Type_` here. -/
structure Parameter where
  Required : Bool := false
  Empty : Bool := false
  Description : String := ""
  Max : Int := 0
  Min : Int := 0
  Default : AnyValue := AnyValue.nil
  Type_ : String := ""
  Allowed : List String := []
  Regex : String := ""
deriving Inhabited

/-- Resource JSON of a resource. -/
structure Resource where
  Memory : Int := 0
  Connections : Int := 0
deriving Inhabited

/-- PaaSTemplateProperties is JSON struct of properties of a PaaS template. -/
structure PaaSTemplateProperties where
  Name : String := ""
  ObjectUUID : String := ""
  Category : String := ""
  ProductNo : Int := 0
  Labels : List String := []
  Resources : Resource := {}
  Status : String := ""
  ParametersSchema : List (String × Parameter) := []
deriving Inhabited

/-- PaaSTemplates is JSON struct of a list of PaaS templates: the map
`paas_service_templates`, as its entries in the order of enumeration. -/
structure PaaSTemplates where
  List : List (String × PaaSTemplateProperties) := []
deriving Inhabited

/-- PaaSTemplate is JSON struct for a single PaaS template. -/
structure PaaSTemplate where
  Properties : PaaSTemplateProperties := {}
deriving Inhabited

/-- PaaSServiceUpdateRequest JSON of a request for updating a PaaS service. -/
structure PaaSServiceUpdateRequest where
  Name : String := ""
  Labels : List String := []
  Parameters : List (String × AnyValue) := []
  ResourceLimits : List ResourceLimit := []
deriving Inhabited

/-- PaaSMetricValue JSON of a metric value. -/
structure PaaSMetricValue where
  Value : Float64 := {}
  Unit : String := ""
deriving Inhabited

/-- PaaSMetricProperties JSON of properties of a PaaS metric. -/
structure PaaSMetricProperties where
  BeginTime : GSTime := {}
  EndTime : GSTime := {}
  PaaSServiceUUID : String := ""
  CoreUsage : PaaSMetricValue := {}
  StorageSize : PaaSMetricValue := {}
deriving Inhabited

/-- PaaSServiceMetrics JSON of a list of PaaS metrics. -/
structure PaaSServiceMetrics where
  List : List PaaSMetricProperties := []
deriving Inhabited

/-- PaaSServiceMetric JSON of a single PaaS metric. -/
structure PaaSServiceMetric where
  Properties : PaaSMetricProperties := {}
deriving Inhabited

/-- ServiceObject JSON struct of a service object. -/
structure ServiceObject where
  ObjectUUID : String := ""
deriving Inhabited

/-- PaaSRelationService JSON struct of a relation between a PaaS service and a service. -/
structure PaaSRelationService where
  Services : List ServiceObject := []
deriving Inhabited

/-- PaaSSecurityZoneProperties JSOn struct of properties of a PaaS security zone. -/
structure PaaSSecurityZoneProperties where
  LocationCountry : String := ""
  CreateTime : GSTime := {}
  LocationIata : String := ""
  ObjectUUID : String := ""
  Labels : List String := []
  LocationName : String := ""
  Status : String := ""
  LocationUUID : String := ""
  ChangeTime : GSTime := {}
  Name : String := ""
  Relation : PaaSRelationService := {}
deriving Inhabited

/-- PaaSSecurityZones JSON struct of a list of PaaS security zones. -/
structure PaaSSecurityZones where
  List : List (String × PaaSSecurityZoneProperties) := []
deriving Inhabited

/-- PaaSSecurityZone JSON struct of a single PaaS security zone. -/
structure PaaSSecurityZone where
  Properties : PaaSSecurityZoneProperties := {}
deriving Inhabited

/-- PaaSSecurityZoneCreateRequest JSON struct of a request for creating a PaaS security zone. -/
structure PaaSSecurityZoneCreateRequest where
  Name : String := ""
  LocationUUID : String := ""
deriving Inhabited

/-- PaaSSecurityZoneCreateResponse JSON struct of a response for creating a PaaS security zone. -/
structure PaaSSecurityZoneCreateResponse where
  RequestUUID : String := ""
  PaaSSecurityZoneUUID : String := ""
  ObjectUUID : String := ""
deriving Inhabited

/-- PaaSSecurityZoneUpdateRequest JSON struct of a request for updating a PaaS security zone. -/
structure PaaSSecurityZoneUpdateRequest where
  Name : String := ""
  LocationUUID : String := ""
  PaaSSecurityZoneUUID : String := ""
deriving Inhabited

/-! ## objectstorage.go: data -/

/-- ObjectStorageAccessKeyProperties is JSON struct of properties of an object storage
access key. -/
structure ObjectStorageAccessKeyProperties where
  SecretKey : String := ""
  AccessKey : String := ""
  User : String := ""
deriving Inhabited

/-- ObjectStorageAccessKeyList is JSON structure of a list of Object Storage Access Keys. -/
structure ObjectStorageAccessKeyList where
  List : List ObjectStorageAccessKeyProperties := []
deriving Inhabited

/-- ObjectStorageAccessKey is JSON structure of a single Object Storage Access Key. -/
structure ObjectStorageAccessKey where
  Properties : ObjectStorageAccessKeyProperties := {}
deriving Inhabited

/-- The anonymous struct of the field `AccessKey` of `ObjectStorageAccessKeyCreateResponse`. -/
structure CreatedAccessKey where
  SecretKey : String := ""
  AccessKey : String := ""
deriving Inhabited

/-- ObjectStorageAccessKeyCreateResponse is JSON struct of a response for creating an
object storage access key. -/
structure ObjectStorageAccessKeyCreateResponse where
  AccessKey : CreatedAccessKey := {}
  RequestUUID : String := ""
deriving Inhabited

/-- The anonymous struct of the field `Usage` of `ObjectStorageBucketProperties`. -/
structure BucketUsage where
  SizeKb : Int := 0
  NumObjects : Int := 0
deriving Inhabited

/-- ObjectStorageBucketProperties is JSON struct of properties of a bucket. -/
structure ObjectStorageBucketProperties where
  Name : String := ""
  Usage : BucketUsage := {}
deriving Inhabited

/-- ObjectStorageBucketList is JSON struct of a list of buckets. -/
structure ObjectStorageBucketList where
  List : List ObjectStorageBucketProperties := []
deriving Inhabited

/-- ObjectStorageBucket is JSON struct of a single bucket. -/
structure ObjectStorageBucket where
  Properties : ObjectStorageBucketProperties := {}
deriving Inhabited

/-! ## serverisoimage.go: data -/

/-- ServerIsoImageRelationProperties JSON struct of properties of a relation between a
server and an ISO-Image. -/
structure ServerIsoImageRelationProperties where
  ObjectUUID : String := ""
  ObjectName : String := ""
  Private : Bool := false
  CreateTime : GSTime := {}
  Bootdevice : Bool := false
deriving Inhabited

/-- ServerIsoImageRelationList JSON struct of a list of relations between a server and
ISO-Images. -/
structure ServerIsoImageRelationList where
  List : List ServerIsoImageRelationProperties := []
deriving Inhabited

/-- ServerIsoImageRelation JSON struct of a single relation between a server and an
ISO-Image. -/
structure ServerIsoImageRelation where
  Properties : ServerIsoImageRelationProperties := {}
deriving Inhabited

/-- ServerIsoImageRelationCreateRequest JSON struct of a request for creating a relation
between a server and an ISO-Image. -/
structure ServerIsoImageRelationCreateRequest where
  ObjectUUID : String := ""
deriving Inhabited

/-- ServerIsoImageRelationUpdateRequest JSON struct of a request for updating a relation
between a server and an ISO-Image. -/
structure ServerIsoImageRelationUpdateRequest where
  BootDevice : Bool := false
  Name : String := ""
deriving Inhabited

/-! ## servernetwork.go: data -/

/-- ServerNetworkRelationProperties JSON struct of properties of a relation between a
server and a network. -/
structure ServerNetworkRelationProperties where
  L2security : Bool := false
  ServerUUID : String := ""
  CreateTime : GSTime := {}
  PublicNet : Bool := false
  FirewallTemplateUUID : String := ""
  ObjectName : String := ""
  Mac : String := ""
  BootDevice : Bool := false
  PartnerUUID : String := ""
  Ordering : Int := 0
  Firewall : FirewallRules := {}
  NetworkType : String := ""
  NetworkUUID : String := ""
  ObjectUUID : String := ""
  L3security : List String := []
deriving Inhabited

/-- ServerNetworkRelationList JSON struct of a list of relations between a server and
networks. -/
structure ServerNetworkRelationList where
  List : List ServerNetworkRelationProperties := []
deriving Inhabited

/-- ServerNetworkRelation JSON struct of a single relation between a server and a network. -/
structure ServerNetworkRelation where
  Properties : ServerNetworkRelationProperties := {}
deriving Inhabited

/-- ServerNetworkRelationCreateRequest JSON struct of a request for creating a relation
between a server and a network. -/
structure ServerNetworkRelationCreateRequest where
  ObjectUUID : String := ""
  Ordering : Int := 0
  BootDevice : Bool := false
  L3security : List String := []
  Firewall : Option FirewallRules := none
  FirewallTemplateUUID : String := ""
deriving Inhabited

/-- ServerNetworkRelationUpdateRequest JSON struct of a request for updating a relation
between a server and a network. -/
structure ServerNetworkRelationUpdateRequest where
  Ordering : Int := 0
  BootDevice : Bool := false
  L3security : List String := []
  Firewall : Option FirewallRules := none
  FirewallTemplateUUID : String := ""
deriving Inhabited

/-! ## serverip.go: data -/

/-- ServerIPRelationProperties JSON struct of properties of a relation between a server
and a IP address. -/
structure ServerIPRelationProperties where
  ServerUUID : String := ""
  CreateTime : GSTime := {}
  Prefix : String := ""
  Family : Int := 0
  ObjectUUID : String := ""
  IP : String := ""
deriving Inhabited

/-- ServerIPRelationList JSON struct of a list of relations between a server and IP
addresses. -/
structure ServerIPRelationList where
  List : List ServerIPRelationProperties := []
deriving Inhabited

/-- ServerIPRelation JSON struct of a single relation between a server and a IP address. -/
structure ServerIPRelation where
  Properties : ServerIPRelationProperties := {}
deriving Inhabited

/-- ServerIPRelationCreateRequest JSON struct of request for creating a relation between
a server and a IP address. -/
structure ServerIPRelationCreateRequest where
  ObjectUUID : String := ""
deriving Inhabited

/-! ## serverstorage.go: data -/

/-- ServerStorageRelationProperties JSON struct of properties of a relation between a
server and a storage. -/
structure ServerStorageRelationProperties where
  ObjectUuid : String := ""
  ObjectName : String := ""
  Capacity : Int := 0
  StorageType : String := ""
  Target : Int := 0
  Lun : Int := 0
  Controller : Int := 0
  CreateTime : String := ""
  BootDevice : Bool := false
  Bus : Int := 0
  LastUsedTemplate : String := ""
  LicenseProductNo : Int := 0
  ServerUuid : String := ""
deriving Inhabited

/-- ServerStorageRelationList JSON struct of a list of relations between a server and
storages. -/
structure ServerStorageRelationList where
  List : List ServerStorageRelationProperties := []
deriving Inhabited

/-- ServerStorageRelationSingle JSON struct of a single relation between a server and a
storage. -/
structure ServerStorageRelationSingle where
  Properties : ServerStorageRelationProperties := {}
deriving Inhabited

/-- ServerStorageRelationCreateRequest JSON struct of a request for creating a relation
between a server and a storage. -/
structure ServerStorageRelationCreateRequest where
  ObjectUuid : String := ""
  BootDevice : Bool := false
deriving Inhabited

/-- ServerStorageRelationUpdateRequest JSON struct of a request for updating a relation
between a server and a storage. -/
structure ServerStorageRelationUpdateRequest where
  Ordering : Int := 0
  BootDevice : Bool := false
  L3security : List String := []
deriving Inhabited

/-! ## server.go: data

The file `server.go` is not among the sources at hand; its tests are.
-/

/-- Modelled from the spec: the type `ServerRelations` of `server.go`, with the field
that the mock server of the tests sets. -/
structure ServerRelations where
  IsoImages : List ServerIsoImageRelationProperties := []
deriving Inhabited

/-- Modelled from the spec: the type `ServerProperties` of `server.go`, the resource
snapshot of a server, with the fields that the mock server of the tests sets.
`Power` is the power flag that the power-state transitions poll, and `Status` the
status string. -/
structure ServerProperties where
  ObjectUUID : String := ""
  Name : String := ""
  Memory : Int := 0
  Cores : Int := 0
  HardwareProfile : String := ""
  Status : String := ""
  LocationUUID : String := ""
  Power : Bool := false
  CurrentPrice : Float64 := {}
  AvailabilityZone : String := ""
  AutoRecovery : Bool := false
  Legacy : Bool := false
  ConsoleToken : String := ""
  UsageInMinutesMemory : Int := 0
  UsageInMinutesCores : Int := 0
  Labels : List String := []
  Relations : ServerRelations := {}
  CreateTime : GSTime := {}
deriving Inhabited

/-- Modelled from the spec: the type `Server` of `server.go`, a single server. -/
structure Server where
  Properties : ServerProperties := {}
deriving Inhabited

/-- Modelled from the spec: the body of a request for the power state of a server,
the power flag that the server is asked to reach. -/
structure ServerPowerUpdateRequest where
  Power : Bool := false
deriving Inhabited

/-! ## Requests, responses and the world -/

/-- The value of the field `body interface{}` of a `Request`: one of the request
structs the operations put there. -/
inductive Body where
  | networkCreateRequest (b : NetworkCreateRequest)
  | networkUpdateRequest (b : NetworkUpdateRequest)
  | storageCreateRequest (b : StorageCreateRequest)
  | storageUpdateRequest (b : StorageUpdateRequest)
  | templateCreateRequest (b : TemplateCreateRequest)
  | templateUpdateRequest (b : TemplateUpdateRequest)
  | sshkeyCreateRequest (b : SshkeyCreateRequest)
  | sshkeyUpdateRequest (b : SshkeyUpdateRequest)
  | labelCreateRequest (b : LabelCreateRequest)
  | storageSnapshotCreateRequest (b : StorageSnapshotCreateRequest)
  | storageSnapshotUpdateRequest (b : StorageSnapshotUpdateRequest)
  | storageRollbackRequest (b : StorageRollbackRequest)
  | storageSnapshotExportToS3Request (b : StorageSnapshotExportToS3Request)
  | paaSServiceCreateRequest (b : PaaSServiceCreateRequest)
  | paaSServiceUpdateRequest (b : PaaSServiceUpdateRequest)
  | paaSSecurityZoneCreateRequest (b : PaaSSecurityZoneCreateRequest)
  | paaSSecurityZoneUpdateRequest (b : PaaSSecurityZoneUpdateRequest)
  | serverIsoImageRelationCreateRequest (b : ServerIsoImageRelationCreateRequest)
  | serverIsoImageRelationUpdateRequest (b : ServerIsoImageRelationUpdateRequest)
  | serverNetworkRelationCreateRequest (b : ServerNetworkRelationCreateRequest)
  | serverNetworkRelationUpdateRequest (b : ServerNetworkRelationUpdateRequest)
  | serverIPRelationCreateRequest (b : ServerIPRelationCreateRequest)
  | serverStorageRelationCreateRequest (b : ServerStorageRelationCreateRequest)
  | serverStorageRelationUpdateRequest (b : ServerStorageRelationUpdateRequest)
  | serverPowerUpdateRequest (b : ServerPowerUpdateRequest)

/-- The struct `Request`, with the fields the operations set.  A `body` that is
not set is `none`. -/
structure Request where
  uri : String := ""
  method : String := ""
  body : Option Body := none

/-- What the backend answered, decoded: one of the response structs that the
operations hand to the executor as `output`, or nothing. -/
inductive Payload where
  | empty
  | network (p : Network)
  | networkList (p : NetworkList)
  | deletedNetworkList (p : DeletedNetworkList)
  | networkCreateResponse (p : NetworkCreateResponse)
  | createResponse (p : CreateResponse)
  | storage (p : Storage)
  | storageList (p : StorageList)
  | deletedStorageList (p : DeletedStorageList)
  | template (p : Template)
  | templateList (p : TemplateList)
  | deletedTemplateList (p : DeletedTemplateList)
  | sshkey (p : Sshkey)
  | sshkeyList (p : SshkeyList)
  | labelList (p : LabelList)
  | storageSnapshot (p : StorageSnapshot)
  | storageSnapshotList (p : StorageSnapshotList)
  | deletedStorageSnapshotList (p : DeletedStorageSnapshotList)
  | storageSnapshotCreateResponse (p : StorageSnapshotCreateResponse)
  | paaSService (p : PaaSService)
  | paaSServices (p : PaaSServices)
  | deletedPaaSServices (p : DeletedPaaSServices)
  | paaSServiceCreateResponse (p : PaaSServiceCreateResponse)
  | paaSTemplates (p : PaaSTemplates)
  | paaSServiceMetrics (p : PaaSServiceMetrics)
  | paaSSecurityZone (p : PaaSSecurityZone)
  | paaSSecurityZones (p : PaaSSecurityZones)
  | paaSSecurityZoneCreateResponse (p : PaaSSecurityZoneCreateResponse)
  | objectStorageAccessKey (p : ObjectStorageAccessKey)
  | objectStorageAccessKeyList (p : ObjectStorageAccessKeyList)
  | objectStorageAccessKeyCreateResponse (p : ObjectStorageAccessKeyCreateResponse)
  | objectStorageBucketList (p : ObjectStorageBucketList)
  | serverIsoImageRelation (p : ServerIsoImageRelation)
  | serverIsoImageRelationList (p : ServerIsoImageRelationList)
  | serverNetworkRelation (p : ServerNetworkRelation)
  | serverNetworkRelationList (p : ServerNetworkRelationList)
  | serverIPRelation (p : ServerIPRelation)
  | serverIPRelationList (p : ServerIPRelationList)
  | serverStorageRelationSingle (p : ServerStorageRelationSingle)
  | serverStorageRelationList (p : ServerStorageRelationList)
  | server (p : Server)

/-- The types an operation passes to the executor as `output`: the executor
writes into `output` what the answer holds for that type, and leaves it as it
is when the answer holds nothing for it. -/
class Decodable (α : Type) where
  decode : Payload → Option α

/-- The argument `nil` for `output`: nothing is decoded. -/
instance : Decodable Unit := ⟨fun _ => none⟩

/-- A call the client makes to the code outside the operations. -/
inductive Event where
  /-- The call `r.execute(*c, output)` of the request executor. -/
  | execute (r : Request)
  /-- The call `c.waitForRequestCompleted(id)` of the completion waiter. -/
  | waitForRequestCompleted (id : String)
  /-- The call `retryWithTimeout(targetFunc, timeout, delay)`. -/
  | retryWithTimeout (timeout delay : Duration)
  /-- The call `c.waitFor404Status(uri, method)`. -/
  | waitFor404Status (uri method : String)
  /-- The call `c.waitFor200Status(uri, method)`. -/
  | waitFor200Status (uri method : String)

/-- The state of the backend and the calls made so far, oldest first. -/
structure World (σ : Type) where
  backend : σ
  trace : List Event

/-- The client's configuration, with the fields the operations read. -/
structure Config where
  sync : Bool
  requestCheckTimeoutSecs : Duration
  delayInterval : Duration
deriving DecidableEq, Inhabited

/-- The struct `Client`. -/
structure Client where
  cfg : Config
deriving DecidableEq, Inhabited

/-- The code and the constants that the operations use and that are declared
outside the sources at hand.  The executor, the completion waiter and the two
status pollers act on the backend; `retryWithTimeout` runs the function it is
given, which acts on the world. -/
structure Env (σ : Type) where
  /-- The function `isValidUUID`. -/
  isValidUUID : String → Bool
  /-- Go's `path.Join`. -/
  pathJoin : List String → String
  apiNetworkBase : String
  apiStorageBase : String
  apiTemplateBase : String
  apiSshkeyBase : String
  apiLabelBase : String
  apiPaaSBase : String
  apiObjectStorageBase : String
  apiServerBase : String
  apiDeletedBase : String
  apiLocationBase : String
  /-- The status of a resource that is ready. -/
  resourceActiveStatus : String
  /-- The method `Request.execute`: the error and the decoded answer. -/
  execute : Client → Request → σ → (Option GoError × Payload) × σ
  /-- The method `Client.waitForRequestCompleted`. -/
  waitForRequestCompleted : Client → String → σ → Option GoError × σ
  /-- The function `retryWithTimeout`. -/
  retryWithTimeout : (World σ → (Bool × Option GoError) × World σ) → Duration → Duration →
    World σ → Option GoError × World σ
  /-- The method `Client.waitFor404Status`. -/
  waitFor404Status : Client → String → String → σ → Option GoError × σ
  /-- The method `Client.waitFor200Status`. -/
  waitFor200Status : Client → String → String → σ → Option GoError × σ

/-- Adds a call to the trace. -/
def World.log {σ : Type} (w : World σ) (e : Event) : World σ :=
  { backend := w.backend, trace := w.trace ++ [e] }

/-- The call `r.execute(*c, &output)`: recorded, run by the executor on the
backend, and the answer decoded into `output`. -/
def Request.execute {σ α : Type} [Decodable α] (r : Request) (env : Env σ) (c : Client)
    (output : α) (w : World σ) : (α × Option GoError) × World σ :=
  let res := env.execute c r w.backend
  (((Decodable.decode res.1.2).getD output, res.1.1),
    { backend := res.2, trace := w.trace ++ [Event.execute r] })

/-- The call `c.waitForRequestCompleted(id)`: recorded and run on the backend. -/
def Client.waitForRequestCompleted {σ : Type} (c : Client) (env : Env σ) (id : String)
    (w : World σ) : Option GoError × World σ :=
  let res := env.waitForRequestCompleted c id w.backend
  (res.1, { backend := res.2, trace := w.trace ++ [Event.waitForRequestCompleted id] })

/-- The call `retryWithTimeout(targetFunc, timeout, delay)`: recorded, then run. -/
def retryWithTimeout {σ : Type} (env : Env σ)
    (targetFunc : World σ → (Bool × Option GoError) × World σ) (timeout delay : Duration)
    (w : World σ) : Option GoError × World σ :=
  env.retryWithTimeout targetFunc timeout delay (w.log (Event.retryWithTimeout timeout delay))

/-- The call `c.waitFor404Status(uri, method)`: recorded and run on the backend. -/
def Client.waitFor404Status {σ : Type} (c : Client) (env : Env σ) (uri method : String)
    (w : World σ) : Option GoError × World σ :=
  let res := env.waitFor404Status c uri method w.backend
  (res.1, { backend := res.2, trace := w.trace ++ [Event.waitFor404Status uri method] })

/-- The call `c.waitFor200Status(uri, method)`: recorded and run on the backend. -/
def Client.waitFor200Status {σ : Type} (c : Client) (env : Env σ) (uri method : String)
    (w : World σ) : Option GoError × World σ :=
  let res := env.waitFor200Status c uri method w.backend
  (res.1, { backend := res.2, trace := w.trace ++ [Event.waitFor200Status uri method] })

/-- The call `r.execute(*c, nil)`: only the error comes back. -/
def Request.executeNil {σ : Type} (r : Request) (env : Env σ) (c : Client) (w : World σ) :
    Option GoError × World σ :=
  let res := r.execute env c () w
  (res.1.2, res.2)

instance : Decodable Network := ⟨fun p => match p with | .network x => some x | _ => none⟩
instance : Decodable NetworkList := ⟨fun p => match p with | .networkList x => some x | _ => none⟩
instance : Decodable DeletedNetworkList :=
  ⟨fun p => match p with | .deletedNetworkList x => some x | _ => none⟩
instance : Decodable NetworkCreateResponse :=
  ⟨fun p => match p with | .networkCreateResponse x => some x | _ => none⟩
instance : Decodable CreateResponse :=
  ⟨fun p => match p with | .createResponse x => some x | _ => none⟩
instance : Decodable Storage := ⟨fun p => match p with | .storage x => some x | _ => none⟩
instance : Decodable StorageList := ⟨fun p => match p with | .storageList x => some x | _ => none⟩
instance : Decodable DeletedStorageList :=
  ⟨fun p => match p with | .deletedStorageList x => some x | _ => none⟩
instance : Decodable Template := ⟨fun p => match p with | .template x => some x | _ => none⟩
instance : Decodable TemplateList :=
  ⟨fun p => match p with | .templateList x => some x | _ => none⟩
instance : Decodable DeletedTemplateList :=
  ⟨fun p => match p with | .deletedTemplateList x => some x | _ => none⟩
instance : Decodable Sshkey := ⟨fun p => match p with | .sshkey x => some x | _ => none⟩
instance : Decodable SshkeyList := ⟨fun p => match p with | .sshkeyList x => some x | _ => none⟩
instance : Decodable LabelList := ⟨fun p => match p with | .labelList x => some x | _ => none⟩
instance : Decodable StorageSnapshot :=
  ⟨fun p => match p with | .storageSnapshot x => some x | _ => none⟩
instance : Decodable StorageSnapshotList :=
  ⟨fun p => match p with | .storageSnapshotList x => some x | _ => none⟩
instance : Decodable DeletedStorageSnapshotList :=
  ⟨fun p => match p with | .deletedStorageSnapshotList x => some x | _ => none⟩
instance : Decodable StorageSnapshotCreateResponse :=
  ⟨fun p => match p with | .storageSnapshotCreateResponse x => some x | _ => none⟩
instance : Decodable PaaSService := ⟨fun p => match p with | .paaSService x => some x | _ => none⟩
instance : Decodable PaaSServices :=
  ⟨fun p => match p with | .paaSServices x => some x | _ => none⟩
instance : Decodable DeletedPaaSServices :=
  ⟨fun p => match p with | .deletedPaaSServices x => some x | _ => none⟩
instance : Decodable PaaSServiceCreateResponse :=
  ⟨fun p => match p with | .paaSServiceCreateResponse x => some x | _ => none⟩
instance : Decodable PaaSServiceMetrics :=
  ⟨fun p => match p with | .paaSServiceMetrics x => some x | _ => none⟩
instance : Decodable PaaSSecurityZone :=
  ⟨fun p => match p with | .paaSSecurityZone x => some x | _ => none⟩
instance : Decodable PaaSTemplates :=
  ⟨fun p => match p with | .paaSTemplates x => some x | _ => none⟩
instance : Decodable PaaSSecurityZones :=
  ⟨fun p => match p with | .paaSSecurityZones x => some x | _ => none⟩
instance : Decodable PaaSSecurityZoneCreateResponse :=
  ⟨fun p => match p with | .paaSSecurityZoneCreateResponse x => some x | _ => none⟩
instance : Decodable ObjectStorageAccessKey :=
  ⟨fun p => match p with | .objectStorageAccessKey x => some x | _ => none⟩
instance : Decodable ObjectStorageAccessKeyList :=
  ⟨fun p => match p with | .objectStorageAccessKeyList x => some x | _ => none⟩
instance : Decodable ObjectStorageAccessKeyCreateResponse :=
  ⟨fun p => match p with | .objectStorageAccessKeyCreateResponse x => some x | _ => none⟩
instance : Decodable ObjectStorageBucketList :=
  ⟨fun p => match p with | .objectStorageBucketList x => some x | _ => none⟩
instance : Decodable ServerIsoImageRelation :=
  ⟨fun p => match p with | .serverIsoImageRelation x => some x | _ => none⟩
instance : Decodable ServerIsoImageRelationList :=
  ⟨fun p => match p with | .serverIsoImageRelationList x => some x | _ => none⟩
instance : Decodable ServerNetworkRelation :=
  ⟨fun p => match p with | .serverNetworkRelation x => some x | _ => none⟩
instance : Decodable ServerNetworkRelationList :=
  ⟨fun p => match p with | .serverNetworkRelationList x => some x | _ => none⟩
instance : Decodable ServerIPRelation :=
  ⟨fun p => match p with | .serverIPRelation x => some x | _ => none⟩
instance : Decodable ServerIPRelationList :=
  ⟨fun p => match p with | .serverIPRelationList x => some x | _ => none⟩
instance : Decodable ServerStorageRelationSingle :=
  ⟨fun p => match p with | .serverStorageRelationSingle x => some x | _ => none⟩
instance : Decodable ServerStorageRelationList :=
  ⟨fun p => match p with | .serverStorageRelationList x => some x | _ => none⟩
instance : Decodable Server :=
  ⟨fun p => match p with | .server x => some x | _ => none⟩

/-! ## network.go: operations -/

/-- GetNetwork get a specific network based on given id. -/
def Client.GetNetwork {σ : Type} (c : Client) (env : Env σ) (id : String) (w : World σ) :
    (Network × Option GoError) × World σ :=
  if !env.isValidUUID id then
    (({}, some (GoError.errorsNew "'id' is invalid")), w)
  else
    let r : Request := { uri := env.pathJoin [env.apiNetworkBase, id], method := MethodGet }
    let response : Network := {}
    r.execute env c response w

/-- CreateNetwork creates a network. -/
def Client.CreateNetwork {σ : Type} (c : Client) (env : Env σ) (body : NetworkCreateRequest)
    (w : World σ) : (NetworkCreateResponse × Option GoError) × World σ :=
  let r : Request :=
    { uri := env.apiNetworkBase, method := MethodPost, body := some (Body.networkCreateRequest body) }
  let response : NetworkCreateResponse := {}
  match r.execute env c response w with
  | ((_, some err), w1) => (({}, some err), w1)
  | ((response, none), w1) =>
    if c.cfg.sync then
      match c.waitForRequestCompleted env response.RequestUUID w1 with
      | (err, w2) => ((response, err), w2)
    else
      ((response, none), w1)

/-- The function waitForNetworkActive allows to wait until the network's status is active. -/
def Client.waitForNetworkActive {σ : Type} (c : Client) (env : Env σ) (id : String)
    (w : World σ) : Option GoError × World σ :=
  retryWithTimeout env
    (fun w0 =>
      match c.GetNetwork env id w0 with
      | ((net, err), w1) => ((net.Properties.Status != env.resourceActiveStatus, err), w1))
    c.cfg.requestCheckTimeoutSecs c.cfg.delayInterval w

/-- The function waitForNetworkDeleted allows to wait until the network is deleted. -/
def Client.waitForNetworkDeleted {σ : Type} (c : Client) (env : Env σ) (id : String)
    (w : World σ) : Option GoError × World σ :=
  if !env.isValidUUID id then
    (some (GoError.errorsNew "'id' is invalid"), w)
  else
    let uri := env.pathJoin [env.apiNetworkBase, id]
    let method := MethodGet
    c.waitFor404Status env uri method w

/-- DeleteNetwork deletes a specific network based on given id. -/
def Client.DeleteNetwork {σ : Type} (c : Client) (env : Env σ) (id : String) (w : World σ) :
    Option GoError × World σ :=
  if !env.isValidUUID id then
    (some (GoError.errorsNew "'id' is invalid"), w)
  else
    let r : Request := { uri := env.pathJoin [env.apiNetworkBase, id], method := MethodDelete }
    if c.cfg.sync then
      match r.executeNil env c w with
      | (some err, w1) => (some err, w1)
      | (none, w1) => c.waitForNetworkDeleted env id w1
    else
      r.executeNil env c w

/-- UpdateNetwork updates a specific network based on given id. -/
def Client.UpdateNetwork {σ : Type} (c : Client) (env : Env σ) (id : String)
    (body : NetworkUpdateRequest) (w : World σ) : Option GoError × World σ :=
  if !env.isValidUUID id then
    (some (GoError.errorsNew "'id' is invalid"), w)
  else
    let r : Request :=
      { uri := env.pathJoin [env.apiNetworkBase, id], method := MethodPatch,
        body := some (Body.networkUpdateRequest body) }
    if c.cfg.sync then
      match r.executeNil env c w with
      | (some err, w1) => (some err, w1)
      | (none, w1) => c.waitForNetworkActive env id w1
    else
      r.executeNil env c w

/-- GetNetworkList gets a list of available networks. -/
def Client.GetNetworkList {σ : Type} (c : Client) (env : Env σ) (w : World σ) :
    (List Network × Option GoError) × World σ :=
  let r : Request := { uri := env.apiNetworkBase, method := MethodGet }
  let response : NetworkList := {}
  let networks : List Network := []
  match r.execute env c response w with
  | ((response, err), w1) =>
    ((response.List.foldl (fun networks entry => networks ++ [{ Properties := entry.2 }]) networks, err),
      w1)

/-- The loop of `GetNetworkPublic` over the networks, which returns at the first
network whose `PublicNet` is set. -/
def Client.GetNetworkPublic.loop : List Network → Network × Option GoError
  | [] => ({}, some (GoError.fmtErrorf "Public Network not found" []))
  | network :: networks =>
    if network.Properties.PublicNet then
      ({ Properties := network.Properties }, none)
    else
      Client.GetNetworkPublic.loop networks

/-- GetNetworkPublic gets public network. -/
def Client.GetNetworkPublic {σ : Type} (c : Client) (env : Env σ) (w : World σ) :
    (Network × Option GoError) × World σ :=
  match c.GetNetworkList env w with
  | ((_, some err), w1) => (({}, some err), w1)
  | ((networks, none), w1) => (Client.GetNetworkPublic.loop networks, w1)

/-- GetNetworksByLocation gets a list of networks by location. -/
def Client.GetNetworksByLocation {σ : Type} (c : Client) (env : Env σ) (id : String) (w : World σ) :
    (List Network × Option GoError) × World σ :=
  if !env.isValidUUID id then
    (([], some (GoError.errorsNew "'id' is invalid")), w)
  else
    let r : Request := { uri := env.pathJoin [env.apiLocationBase, id, "networks"], method := MethodGet }
    let response : NetworkList := {}
    let networks : List Network := []
    match r.execute env c response w with
    | ((response, err), w1) =>
      ((response.List.foldl (fun networks entry => networks ++ [{ Properties := entry.2 }]) networks, err),
        w1)

/-- GetDeletedNetworks gets a list of deleted networks. -/
def Client.GetDeletedNetworks {σ : Type} (c : Client) (env : Env σ) (w : World σ) :
    (List Network × Option GoError) × World σ :=
  let r : Request := { uri := env.pathJoin [env.apiDeletedBase, "networks"], method := MethodGet }
  let response : DeletedNetworkList := {}
  let networks : List Network := []
  match r.execute env c response w with
  | ((response, err), w1) =>
    ((response.List.foldl (fun networks entry => networks ++ [{ Properties := entry.2 }]) networks, err),
      w1)

/-! ## storage.go: operations -/

/-- GetStorage get a storage. -/
def Client.GetStorage {σ : Type} (c : Client) (env : Env σ) (id : String) (w : World σ) :
    (Storage × Option GoError) × World σ :=
  if !env.isValidUUID id then
    (({}, some (GoError.errorsNew "'id' is invalid")), w)
  else
    let r : Request := { uri := env.pathJoin [env.apiStorageBase, id], method := MethodGet }
    let response : Storage := {}
    r.execute env c response w

/-- CreateStorage create a storage. -/
def Client.CreateStorage {σ : Type} (c : Client) (env : Env σ) (body : StorageCreateRequest)
    (w : World σ) : (CreateResponse × Option GoError) × World σ :=
  let r : Request :=
    { uri := env.apiStorageBase, method := MethodPost, body := some (Body.storageCreateRequest body) }
  let response : CreateResponse := {}
  match r.execute env c response w with
  | ((_, some err), w1) => (({}, some err), w1)
  | ((response, none), w1) =>
    if c.cfg.sync then
      match c.waitForRequestCompleted env response.RequestUUID w1 with
      | (err, w2) => ((response, err), w2)
    else
      ((response, none), w1)

/-- The function waitForStorageActive allows to wait until the storage's status is active. -/
def Client.waitForStorageActive {σ : Type} (c : Client) (env : Env σ) (id : String)
    (w : World σ) : Option GoError × World σ :=
  retryWithTimeout env
    (fun w0 =>
      match c.GetStorage env id w0 with
      | ((storage, err), w1) =>
        ((storage.Properties.Status != env.resourceActiveStatus, err), w1))
    c.cfg.requestCheckTimeoutSecs c.cfg.delayInterval w

/-- The function waitForStorageDeleted allows to wait until the storage is deleted. -/
def Client.waitForStorageDeleted {σ : Type} (c : Client) (env : Env σ) (id : String)
    (w : World σ) : Option GoError × World σ :=
  if !env.isValidUUID id then
    (some (GoError.errorsNew "'id' is invalid"), w)
  else
    let uri := env.pathJoin [env.apiStorageBase, id]
    let method := MethodGet
    c.waitFor404Status env uri method w

/-- DeleteStorage delete a storage. -/
def Client.DeleteStorage {σ : Type} (c : Client) (env : Env σ) (id : String) (w : World σ) :
    Option GoError × World σ :=
  if !env.isValidUUID id then
    (some (GoError.errorsNew "'id' is invalid"), w)
  else
    let r : Request := { uri := env.pathJoin [env.apiStorageBase, id], method := MethodDelete }
    if c.cfg.sync then
      match r.executeNil env c w with
      | (some err, w1) => (some err, w1)
      | (none, w1) => c.waitForStorageDeleted env id w1
    else
      r.executeNil env c w

/-- UpdateStorage update a storage. -/
def Client.UpdateStorage {σ : Type} (c : Client) (env : Env σ) (id : String)
    (body : StorageUpdateRequest) (w : World σ) : Option GoError × World σ :=
  if !env.isValidUUID id then
    (some (GoError.errorsNew "'id' is invalid"), w)
  else
    let r : Request :=
      { uri := env.pathJoin [env.apiStorageBase, id], method := MethodPatch,
        body := some (Body.storageUpdateRequest body) }
    if c.cfg.sync then
      match r.executeNil env c w with
      | (some err, w1) => (some err, w1)
      | (none, w1) => c.waitForStorageActive env id w1
    else
      r.executeNil env c w

/-- GetStorageList gets a list of available storages. -/
def Client.GetStorageList {σ : Type} (c : Client) (env : Env σ) (w : World σ) :
    (List Storage × Option GoError) × World σ :=
  let r : Request := { uri := env.apiStorageBase, method := MethodGet }
  let response : StorageList := {}
  let storages : List Storage := []
  match r.execute env c response w with
  | ((response, err), w1) =>
    ((response.List.foldl (fun storages entry => storages ++ [{ Properties := entry.2 }]) storages, err),
      w1)

/-- GetStoragesByLocation gets a list of storages by location. -/
def Client.GetStoragesByLocation {σ : Type} (c : Client) (env : Env σ) (id : String) (w : World σ) :
    (List Storage × Option GoError) × World σ :=
  if !env.isValidUUID id then
    (([], some (GoError.errorsNew "'id' is invalid")), w)
  else
    let r : Request := { uri := env.pathJoin [env.apiLocationBase, id, "storages"], method := MethodGet }
    let response : StorageList := {}
    let storages : List Storage := []
    match r.execute env c response w with
    | ((response, err), w1) =>
      ((response.List.foldl (fun storages entry => storages ++ [{ Properties := entry.2 }]) storages, err),
        w1)

/-- GetDeletedStorages gets a list of deleted storages. -/
def Client.GetDeletedStorages {σ : Type} (c : Client) (env : Env σ) (w : World σ) :
    (List Storage × Option GoError) × World σ :=
  let r : Request := { uri := env.pathJoin [env.apiDeletedBase, "storages"], method := MethodGet }
  let response : DeletedStorageList := {}
  let storages : List Storage := []
  match r.execute env c response w with
  | ((response, err), w1) =>
    ((response.List.foldl (fun storages entry => storages ++ [{ Properties := entry.2 }]) storages, err),
      w1)

/-! ## template.go: operations -/

/-- GetTemplate gets a template. -/
def Client.GetTemplate {σ : Type} (c : Client) (env : Env σ) (id : String) (w : World σ) :
    (Template × Option GoError) × World σ :=
  if !env.isValidUUID id then
    (({}, some (GoError.errorsNew "'id' is invalid")), w)
  else
    let r : Request := { uri := env.pathJoin [env.apiTemplateBase, id], method := MethodGet }
    let response : Template := {}
    r.execute env c response w

/-- CreateTemplate creates a template. -/
def Client.CreateTemplate {σ : Type} (c : Client) (env : Env σ) (body : TemplateCreateRequest)
    (w : World σ) : (CreateResponse × Option GoError) × World σ :=
  let r : Request :=
    { uri := env.apiTemplateBase, method := MethodPost,
      body := some (Body.templateCreateRequest body) }
  let response : CreateResponse := {}
  match r.execute env c response w with
  | ((_, some err), w1) => (({}, some err), w1)
  | ((response, none), w1) =>
    if c.cfg.sync then
      match c.waitForRequestCompleted env response.RequestUUID w1 with
      | (err, w2) => ((response, err), w2)
    else
      ((response, none), w1)

/-- The function waitForTemplateActive allows to wait until the template's status is active. -/
def Client.waitForTemplateActive {σ : Type} (c : Client) (env : Env σ) (id : String)
    (w : World σ) : Option GoError × World σ :=
  retryWithTimeout env
    (fun w0 =>
      match c.GetTemplate env id w0 with
      | ((template, err), w1) =>
        ((template.Properties.Status != env.resourceActiveStatus, err), w1))
    c.cfg.requestCheckTimeoutSecs c.cfg.delayInterval w

/-- The function waitForTemplateDeleted allows to wait until the template is deleted. -/
def Client.waitForTemplateDeleted {σ : Type} (c : Client) (env : Env σ) (id : String)
    (w : World σ) : Option GoError × World σ :=
  if !env.isValidUUID id then
    (some (GoError.errorsNew "'id' is invalid"), w)
  else
    let uri := env.pathJoin [env.apiTemplateBase, id]
    let method := MethodGet
    c.waitFor404Status env uri method w

/-- UpdateTemplate updates a template. -/
def Client.UpdateTemplate {σ : Type} (c : Client) (env : Env σ) (id : String)
    (body : TemplateUpdateRequest) (w : World σ) : Option GoError × World σ :=
  if !env.isValidUUID id then
    (some (GoError.errorsNew "'id' is invalid"), w)
  else
    let r : Request :=
      { uri := env.pathJoin [env.apiTemplateBase, id], method := MethodPatch,
        body := some (Body.templateUpdateRequest body) }
    if c.cfg.sync then
      match r.executeNil env c w with
      | (some err, w1) => (some err, w1)
      | (none, w1) => c.waitForTemplateActive env id w1
    else
      r.executeNil env c w

/-- DeleteTemplate deletes a template. -/
def Client.DeleteTemplate {σ : Type} (c : Client) (env : Env σ) (id : String) (w : World σ) :
    Option GoError × World σ :=
  if !env.isValidUUID id then
    (some (GoError.errorsNew "'id' is invalid"), w)
  else
    let r : Request := { uri := env.pathJoin [env.apiTemplateBase, id], method := MethodDelete }
    if c.cfg.sync then
      match r.executeNil env c w with
      | (some err, w1) => (some err, w1)
      | (none, w1) => c.waitForTemplateDeleted env id w1
    else
      r.executeNil env c w

/-- GetTemplateList gets a list of templates. -/
def Client.GetTemplateList {σ : Type} (c : Client) (env : Env σ) (w : World σ) :
    (List Template × Option GoError) × World σ :=
  let r : Request := { uri := env.apiTemplateBase, method := MethodGet }
  let response : TemplateList := {}
  let templates : List Template := []
  match r.execute env c response w with
  | ((response, err), w1) =>
    ((response.List.foldl (fun templates entry => templates ++ [{ Properties := entry.2 }]) templates, err),
      w1)

/-- The loop of `GetTemplateByName` over the templates: the first template whose name
is `name`, with no error; when the loop ends, the zero template and the error. -/
def Client.GetTemplateByName.loop (name : String) : List Template → Template × Option GoError
  | [] => ({}, some (GoError.fmtErrorf "Template %v not found" [name]))
  | template :: templates =>
    if template.Properties.Name == name then
      ({ Properties := template.Properties }, none)
    else
      Client.GetTemplateByName.loop name templates

/-- GetTemplateByName gets a template by its name. -/
def Client.GetTemplateByName {σ : Type} (c : Client) (env : Env σ) (name : String)
    (w : World σ) : (Template × Option GoError) × World σ :=
  if name == "" then
    (({}, some (GoError.errorsNew "'name' is required")), w)
  else
    match c.GetTemplateList env w with
    | ((_, some err), w1) => (({}, some err), w1)
    | ((templates, none), w1) => (Client.GetTemplateByName.loop name templates, w1)

/-- GetTemplatesByLocation gets a list of templates by location. -/
def Client.GetTemplatesByLocation {σ : Type} (c : Client) (env : Env σ) (id : String) (w : World σ) :
    (List Template × Option GoError) × World σ :=
  if !env.isValidUUID id then
    (([], some (GoError.errorsNew "'id' is invalid")), w)
  else
    let r : Request := { uri := env.pathJoin [env.apiLocationBase, id, "templates"], method := MethodGet }
    let response : TemplateList := {}
    let templates : List Template := []
    match r.execute env c response w with
    | ((response, err), w1) =>
      ((response.List.foldl (fun templates entry => templates ++ [{ Properties := entry.2 }]) templates, err),
        w1)

/-- GetDeletedTemplates gets a list of deleted templates. -/
def Client.GetDeletedTemplates {σ : Type} (c : Client) (env : Env σ) (w : World σ) :
    (List Template × Option GoError) × World σ :=
  let r : Request := { uri := env.pathJoin [env.apiDeletedBase, "templates"], method := MethodGet }
  let response : DeletedTemplateList := {}
  let templates : List Template := []
  match r.execute env c response w with
  | ((response, err), w1) =>
    ((response.List.foldl (fun templates entry => templates ++ [{ Properties := entry.2 }]) templates, err),
      w1)

/-! ## sshkey.go: operations -/

/-- GetSshkey gets a ssh key. -/
def Client.GetSshkey {σ : Type} (c : Client) (env : Env σ) (id : String) (w : World σ) :
    (Sshkey × Option GoError) × World σ :=
  if !env.isValidUUID id then
    (({}, some (GoError.errorsNew "'id' is invalid")), w)
  else
    let r : Request := { uri := env.pathJoin [env.apiSshkeyBase, id], method := MethodGet }
    let response : Sshkey := {}
    r.execute env c response w

/-- CreateSshkey creates a ssh key. -/
def Client.CreateSshkey {σ : Type} (c : Client) (env : Env σ) (body : SshkeyCreateRequest)
    (w : World σ) : (CreateResponse × Option GoError) × World σ :=
  let r : Request :=
    { uri := env.apiSshkeyBase, method := "POST", body := some (Body.sshkeyCreateRequest body) }
  let response : CreateResponse := {}
  match r.execute env c response w with
  | ((_, some err), w1) => (({}, some err), w1)
  | ((response, none), w1) =>
    if c.cfg.sync then
      match c.waitForRequestCompleted env response.RequestUUID w1 with
      | (err, w2) => ((response, err), w2)
    else
      ((response, none), w1)

/-- The function waitForSSHKeyActive allows to wait until the SSH-Key's status is active. -/
def Client.waitForSSHKeyActive {σ : Type} (c : Client) (env : Env σ) (id : String)
    (w : World σ) : Option GoError × World σ :=
  retryWithTimeout env
    (fun w0 =>
      match c.GetSshkey env id w0 with
      | ((key, err), w1) => ((key.Properties.Status != env.resourceActiveStatus, err), w1))
    c.cfg.requestCheckTimeoutSecs c.cfg.delayInterval w

/-- The function waitForSSHKeyDeleted allows to wait until the SSH-Key is deleted. -/
def Client.waitForSSHKeyDeleted {σ : Type} (c : Client) (env : Env σ) (id : String)
    (w : World σ) : Option GoError × World σ :=
  if !env.isValidUUID id then
    (some (GoError.errorsNew "'id' is invalid"), w)
  else
    let uri := env.pathJoin [env.apiSshkeyBase, id]
    let method := MethodGet
    c.waitFor404Status env uri method w

/-- DeleteSshkey deletes a ssh key. -/
def Client.DeleteSshkey {σ : Type} (c : Client) (env : Env σ) (id : String) (w : World σ) :
    Option GoError × World σ :=
  if !env.isValidUUID id then
    (some (GoError.errorsNew "'id' is invalid"), w)
  else
    let r : Request := { uri := env.pathJoin [env.apiSshkeyBase, id], method := MethodDelete }
    if c.cfg.sync then
      match r.executeNil env c w with
      | (some err, w1) => (some err, w1)
      | (none, w1) => c.waitForSSHKeyDeleted env id w1
    else
      r.executeNil env c w

/-- UpdateSshkey updates a ssh key. -/
def Client.UpdateSshkey {σ : Type} (c : Client) (env : Env σ) (id : String)
    (body : SshkeyUpdateRequest) (w : World σ) : Option GoError × World σ :=
  if !env.isValidUUID id then
    (some (GoError.errorsNew "'id' is invalid"), w)
  else
    let r : Request :=
      { uri := env.pathJoin [env.apiSshkeyBase, id], method := MethodPatch,
        body := some (Body.sshkeyUpdateRequest body) }
    if c.cfg.sync then
      match r.executeNil env c w with
      | (some err, w1) => (some err, w1)
      | (none, w1) => c.waitForSSHKeyActive env id w1
    else
      r.executeNil env c w

/-- GetSshkeyList gets a list of ssh keys. -/
def Client.GetSshkeyList {σ : Type} (c : Client) (env : Env σ) (w : World σ) :
    (List Sshkey × Option GoError) × World σ :=
  let r : Request := { uri := env.apiSshkeyBase, method := MethodGet }
  let response : SshkeyList := {}
  let sshKeys : List Sshkey := []
  match r.execute env c response w with
  | ((response, err), w1) =>
    ((response.List.foldl (fun sshKeys entry => sshKeys ++ [{ Properties := entry.2 }]) sshKeys, err),
      w1)

/-! ## label.go: operations -/

/-- GetLabelList gets a list of available labels.  The loop over the map
`response.List` appends one label for each entry, in the order of enumeration. -/
def Client.GetLabelList {σ : Type} (c : Client) (env : Env σ) (w : World σ) :
    (List Label × Option GoError) × World σ :=
  let r : Request := { uri := env.apiLabelBase, method := MethodGet }
  let response : LabelList := {}
  let labels : List Label := []
  match r.execute env c response w with
  | ((response, err), w1) =>
    ((response.List.foldl (fun labels entry => labels ++ [{ Properties := entry.2 }]) labels, err),
      w1)

/-- CreateLabel creates a new label. -/
def Client.CreateLabel {σ : Type} (c : Client) (env : Env σ) (body : LabelCreateRequest)
    (w : World σ) : (CreateResponse × Option GoError) × World σ :=
  let r : Request :=
    { uri := env.apiLabelBase, method := MethodPost, body := some (Body.labelCreateRequest body) }
  let response : CreateResponse := {}
  match r.execute env c response w with
  | ((_, some err), w1) => (({}, some err), w1)
  | ((response, none), w1) =>
    if c.cfg.sync then
      match c.waitForRequestCompleted env response.RequestUUID w1 with
      | (err, w2) => ((response, err), w2)
    else
      ((response, none), w1)

/-- The function isLabelInSlice check if a label in a lice of labels. -/
def isLabelInSlice (a : String) : List Label → Bool
  | [] => false
  | b :: list => if b.Properties.Label == a then true else isLabelInSlice a list

/-- The function waitForLabelDeleted allows to wait until the label is deleted. -/
def Client.waitForLabelDeleted {σ : Type} (c : Client) (env : Env σ) (label : String)
    (w : World σ) : Option GoError × World σ :=
  if label == "" then
    (some (GoError.errorsNew "'label' is required"), w)
  else
    retryWithTimeout env
      (fun w0 =>
        match c.GetLabelList env w0 with
        | ((labels, err), w1) => ((isLabelInSlice label labels, err), w1))
      c.cfg.requestCheckTimeoutSecs c.cfg.delayInterval w

/-- DeleteLabel deletes a label. -/
def Client.DeleteLabel {σ : Type} (c : Client) (env : Env σ) (label : String) (w : World σ) :
    Option GoError × World σ :=
  if label == "" then
    (some (GoError.errorsNew "'label' is required"), w)
  else
    let r : Request := { uri := env.pathJoin [env.apiLabelBase, label], method := MethodDelete }
    if c.cfg.sync then
      match r.executeNil env c w with
      | (some err, w1) => (some err, w1)
      | (none, w1) => c.waitForLabelDeleted env label w1
    else
      r.executeNil env c w

/-! ## snapshot.go: operations -/

/-- GetStorageSnapshot gets a specific storage's snapshot based on given storage id and
snapshot id. -/
def Client.GetStorageSnapshot {σ : Type} (c : Client) (env : Env σ)
    (storageID snapshotID : String) (w : World σ) :
    (StorageSnapshot × Option GoError) × World σ :=
  if !env.isValidUUID storageID || !env.isValidUUID snapshotID then
    (({}, some (GoError.errorsNew "'storageID' or 'snapshotID' is invalid")), w)
  else
    let r : Request :=
      { uri := env.pathJoin [env.apiStorageBase, storageID, "snapshots", snapshotID],
        method := MethodGet }
    let response : StorageSnapshot := {}
    r.execute env c response w

/-- CreateStorageSnapshot creates a new storage's snapshot. -/
def Client.CreateStorageSnapshot {σ : Type} (c : Client) (env : Env σ) (id : String)
    (body : StorageSnapshotCreateRequest) (w : World σ) :
    (StorageSnapshotCreateResponse × Option GoError) × World σ :=
  if !env.isValidUUID id then
    (({}, some (GoError.errorsNew "'id' is invalid")), w)
  else
    let r : Request :=
      { uri := env.pathJoin [env.apiStorageBase, id, "snapshots"], method := MethodPost,
        body := some (Body.storageSnapshotCreateRequest body) }
    let response : StorageSnapshotCreateResponse := {}
    match r.execute env c response w with
    | ((_, some err), w1) => (({}, some err), w1)
    | ((response, none), w1) =>
      if c.cfg.sync then
        match c.waitForRequestCompleted env response.RequestUUID w1 with
        | (err, w2) => ((response, err), w2)
      else
        ((response, none), w1)

/-- The function waitForSnapshotActive allows to wait until the snapshot's status is
active. -/
def Client.waitForSnapshotActive {σ : Type} (c : Client) (env : Env σ)
    (storageID snapshotID : String) (w : World σ) : Option GoError × World σ :=
  retryWithTimeout env
    (fun w0 =>
      match c.GetStorageSnapshot env storageID snapshotID w0 with
      | ((snapshot, err), w1) =>
        ((snapshot.Properties.Status != env.resourceActiveStatus, err), w1))
    c.cfg.requestCheckTimeoutSecs c.cfg.delayInterval w

/-- The function waitForSnapshotDeleted allows to wait until the snapshot is deleted. -/
def Client.waitForSnapshotDeleted {σ : Type} (c : Client) (env : Env σ)
    (storageID snapshotID : String) (w : World σ) : Option GoError × World σ :=
  if !env.isValidUUID storageID || !env.isValidUUID snapshotID then
    (some (GoError.errorsNew "'storageID' or 'snapshotID' is invalid"), w)
  else
    let uri := env.pathJoin [env.apiStorageBase, storageID, "snapshots", snapshotID]
    let method := MethodGet
    c.waitFor404Status env uri method w

/-- UpdateStorageSnapshot updates a specific storage's snapshot. -/
def Client.UpdateStorageSnapshot {σ : Type} (c : Client) (env : Env σ)
    (storageID snapshotID : String) (body : StorageSnapshotUpdateRequest) (w : World σ) :
    Option GoError × World σ :=
  if !env.isValidUUID storageID || !env.isValidUUID snapshotID then
    (some (GoError.errorsNew "'storageID' or 'snapshotID' is invalid"), w)
  else
    let r : Request :=
      { uri := env.pathJoin [env.apiStorageBase, storageID, "snapshots", snapshotID],
        method := MethodPatch, body := some (Body.storageSnapshotUpdateRequest body) }
    if c.cfg.sync then
      match r.executeNil env c w with
      | (some err, w1) => (some err, w1)
      | (none, w1) => c.waitForSnapshotActive env storageID snapshotID w1
    else
      r.executeNil env c w

/-- DeleteStorageSnapshot deletes a specific storage's snapshot. -/
def Client.DeleteStorageSnapshot {σ : Type} (c : Client) (env : Env σ)
    (storageID snapshotID : String) (w : World σ) : Option GoError × World σ :=
  if !env.isValidUUID storageID || !env.isValidUUID snapshotID then
    (some (GoError.errorsNew "'storageID' or 'snapshotID' is invalid"), w)
  else
    let r : Request :=
      { uri := env.pathJoin [env.apiStorageBase, storageID, "snapshots", snapshotID],
        method := MethodDelete }
    if c.cfg.sync then
      match r.executeNil env c w with
      | (some err, w1) => (some err, w1)
      | (none, w1) => c.waitForSnapshotDeleted env storageID snapshotID w1
    else
      r.executeNil env c w

/-- RollbackStorage rollbacks a storage. -/
def Client.RollbackStorage {σ : Type} (c : Client) (env : Env σ)
    (storageID snapshotID : String) (body : StorageRollbackRequest) (w : World σ) :
    Option GoError × World σ :=
  if !env.isValidUUID storageID || !env.isValidUUID snapshotID then
    (some (GoError.errorsNew "'storageID' or 'snapshotID' is invalid"), w)
  else
    let r : Request :=
      { uri := env.pathJoin [env.apiStorageBase, storageID, "snapshots", snapshotID, "rollback"],
        method := MethodPatch, body := some (Body.storageRollbackRequest body) }
    if c.cfg.sync then
      match r.executeNil env c w with
      | (some err, w1) => (some err, w1)
      | (none, w1) => c.waitForSnapshotActive env storageID snapshotID w1
    else
      r.executeNil env c w

/-- ExportStorageSnapshotToS3 export a storage's snapshot to S3. -/
def Client.ExportStorageSnapshotToS3 {σ : Type} (c : Client) (env : Env σ)
    (storageID snapshotID : String) (body : StorageSnapshotExportToS3Request) (w : World σ) :
    Option GoError × World σ :=
  if !env.isValidUUID storageID || !env.isValidUUID snapshotID then
    (some (GoError.errorsNew "'storageID' and 'snapshotID' is invalid"), w)
  else
    let r : Request :=
      { uri :=
          env.pathJoin [env.apiStorageBase, storageID, "snapshots", snapshotID, "export_to_s3"],
        method := MethodPatch, body := some (Body.storageSnapshotExportToS3Request body) }
    if c.cfg.sync then
      match r.executeNil env c w with
      | (some err, w1) => (some err, w1)
      | (none, w1) => c.waitForSnapshotActive env storageID snapshotID w1
    else
      r.executeNil env c w

/-- GetStorageSnapshotList gets a list of storage snapshots. -/
def Client.GetStorageSnapshotList {σ : Type} (c : Client) (env : Env σ) (id : String) (w : World σ) :
    (List StorageSnapshot × Option GoError) × World σ :=
  if !env.isValidUUID id then
    (([], some (GoError.errorsNew "'id' is invalid")), w)
  else
    let r : Request := { uri := env.pathJoin [env.apiStorageBase, id, "snapshots"], method := MethodGet }
    let response : StorageSnapshotList := {}
    let snapshots : List StorageSnapshot := []
    match r.execute env c response w with
    | ((response, err), w1) =>
      ((response.List.foldl (fun snapshots entry => snapshots ++ [{ Properties := entry.2 }]) snapshots, err),
        w1)

/-- GetSnapshotsByLocation gets a list of storage snapshots by location. -/
def Client.GetSnapshotsByLocation {σ : Type} (c : Client) (env : Env σ) (id : String) (w : World σ) :
    (List StorageSnapshot × Option GoError) × World σ :=
  if !env.isValidUUID id then
    (([], some (GoError.errorsNew "'id' is invalid")), w)
  else
    let r : Request := { uri := env.pathJoin [env.apiLocationBase, id, "snapshots"], method := MethodGet }
    let response : StorageSnapshotList := {}
    let snapshots : List StorageSnapshot := []
    match r.execute env c response w with
    | ((response, err), w1) =>
      ((response.List.foldl (fun snapshots entry => snapshots ++ [{ Properties := entry.2 }]) snapshots, err),
        w1)

/-- GetDeletedSnapshots gets a list of deleted storage snapshots. -/
def Client.GetDeletedSnapshots {σ : Type} (c : Client) (env : Env σ) (w : World σ) :
    (List StorageSnapshot × Option GoError) × World σ :=
  let r : Request := { uri := env.pathJoin [env.apiDeletedBase, "snapshots"], method := MethodGet }
  let response : DeletedStorageSnapshotList := {}
  let snapshots : List StorageSnapshot := []
  match r.execute env c response w with
  | ((response, err), w1) =>
    ((response.List.foldl (fun snapshots entry => snapshots ++ [{ Properties := entry.2 }]) snapshots, err),
      w1)

/-! ## paas.go: operations -/

/-- CreatePaaSService creates a new PaaS service. -/
def Client.CreatePaaSService {σ : Type} (c : Client) (env : Env σ)
    (body : PaaSServiceCreateRequest) (w : World σ) :
    (PaaSServiceCreateResponse × Option GoError) × World σ :=
  let r : Request :=
    { uri := env.pathJoin [env.apiPaaSBase, "services"], method := MethodPost,
      body := some (Body.paaSServiceCreateRequest body) }
  let response : PaaSServiceCreateResponse := {}
  match r.execute env c response w with
  | ((_, some err), w1) => (({}, some err), w1)
  | ((response, none), w1) =>
    if c.cfg.sync then
      match c.waitForRequestCompleted env response.RequestUUID w1 with
      | (err, w2) => ((response, err), w2)
    else
      ((response, none), w1)

/-- GetPaaSService returns a specific PaaS Service based on given id. -/
def Client.GetPaaSService {σ : Type} (c : Client) (env : Env σ) (id : String) (w : World σ) :
    (PaaSService × Option GoError) × World σ :=
  if !env.isValidUUID id then
    (({}, some (GoError.errorsNew "'id' is invalid")), w)
  else
    let r : Request :=
      { uri := env.pathJoin [env.apiPaaSBase, "services", id], method := MethodGet }
    let response : PaaSService := {}
    r.execute env c response w

/-- The function waitForPaaSServiceActive allows to wait until the PaaS service's status
is active. -/
def Client.waitForPaaSServiceActive {σ : Type} (c : Client) (env : Env σ) (id : String)
    (w : World σ) : Option GoError × World σ :=
  retryWithTimeout env
    (fun w0 =>
      match c.GetPaaSService env id w0 with
      | ((paas, err), w1) => ((paas.Properties.Status != env.resourceActiveStatus, err), w1))
    c.cfg.requestCheckTimeoutSecs c.cfg.delayInterval w

/-- The function waitForPaaSServiceDeleted allows to wait until the PaaS service is
deleted. -/
def Client.waitForPaaSServiceDeleted {σ : Type} (c : Client) (env : Env σ) (id : String)
    (w : World σ) : Option GoError × World σ :=
  if !env.isValidUUID id then
    (some (GoError.errorsNew "'id' is invalid"), w)
  else
    let uri := env.pathJoin [env.apiPaaSBase, "services", id]
    let method := MethodGet
    c.waitFor404Status env uri method w

/-- UpdatePaaSService updates a specific PaaS Service based on a given id. -/
def Client.UpdatePaaSService {σ : Type} (c : Client) (env : Env σ) (id : String)
    (body : PaaSServiceUpdateRequest) (w : World σ) : Option GoError × World σ :=
  if !env.isValidUUID id then
    (some (GoError.errorsNew "'id' is invalid"), w)
  else
    let r : Request :=
      { uri := env.pathJoin [env.apiPaaSBase, "services", id], method := MethodPatch,
        body := some (Body.paaSServiceUpdateRequest body) }
    if c.cfg.sync then
      match r.executeNil env c w with
      | (some err, w1) => (some err, w1)
      | (none, w1) => c.waitForPaaSServiceActive env id w1
    else
      r.executeNil env c w

/-- DeletePaaSService deletes a PaaS service. -/
def Client.DeletePaaSService {σ : Type} (c : Client) (env : Env σ) (id : String)
    (w : World σ) : Option GoError × World σ :=
  if !env.isValidUUID id then
    (some (GoError.errorsNew "'id' is invalid"), w)
  else
    let r : Request :=
      { uri := env.pathJoin [env.apiPaaSBase, "services", id], method := MethodDelete }
    if c.cfg.sync then
      match r.executeNil env c w with
      | (some err, w1) => (some err, w1)
      | (none, w1) => c.waitForPaaSServiceDeleted env id w1
    else
      r.executeNil env c w

/-- CreatePaaSSecurityZone creates a new PaaS security zone. -/
def Client.CreatePaaSSecurityZone {σ : Type} (c : Client) (env : Env σ)
    (body : PaaSSecurityZoneCreateRequest) (w : World σ) :
    (PaaSSecurityZoneCreateResponse × Option GoError) × World σ :=
  let r : Request :=
    { uri := env.pathJoin [env.apiPaaSBase, "security_zones"], method := MethodPost,
      body := some (Body.paaSSecurityZoneCreateRequest body) }
  let response : PaaSSecurityZoneCreateResponse := {}
  match r.execute env c response w with
  | ((_, some err), w1) => (({}, some err), w1)
  | ((response, none), w1) =>
    if c.cfg.sync then
      match c.waitForRequestCompleted env response.RequestUUID w1 with
      | (err, w2) => ((response, err), w2)
    else
      ((response, none), w1)

/-- GetPaaSSecurityZone get a specific PaaS Security Zone based on given id. -/
def Client.GetPaaSSecurityZone {σ : Type} (c : Client) (env : Env σ) (id : String)
    (w : World σ) : (PaaSSecurityZone × Option GoError) × World σ :=
  if !env.isValidUUID id then
    (({}, some (GoError.errorsNew "'id' is invalid")), w)
  else
    let r : Request :=
      { uri := env.pathJoin [env.apiPaaSBase, "security_zones", id], method := MethodGet }
    let response : PaaSSecurityZone := {}
    r.execute env c response w

/-- The function waitForSecurityZoneActive allows to wait until the security zone's
status is active. -/
def Client.waitForSecurityZoneActive {σ : Type} (c : Client) (env : Env σ) (id : String)
    (w : World σ) : Option GoError × World σ :=
  retryWithTimeout env
    (fun w0 =>
      match c.GetPaaSSecurityZone env id w0 with
      | ((secZone, err), w1) =>
        ((secZone.Properties.Status != env.resourceActiveStatus, err), w1))
    c.cfg.requestCheckTimeoutSecs c.cfg.delayInterval w

/-- The function waitForSecurityZoneDeleted allows to wait until the security zone is
deleted. -/
def Client.waitForSecurityZoneDeleted {σ : Type} (c : Client) (env : Env σ) (id : String)
    (w : World σ) : Option GoError × World σ :=
  if !env.isValidUUID id then
    (some (GoError.errorsNew "'id' is invalid"), w)
  else
    let uri := env.pathJoin [env.apiPaaSBase, "security_zones", id]
    let method := MethodGet
    c.waitFor404Status env uri method w

/-- UpdatePaaSSecurityZone update a specific PaaS security zone based on given id. -/
def Client.UpdatePaaSSecurityZone {σ : Type} (c : Client) (env : Env σ) (id : String)
    (body : PaaSSecurityZoneUpdateRequest) (w : World σ) : Option GoError × World σ :=
  if !env.isValidUUID id then
    (some (GoError.errorsNew "'id' is invalid"), w)
  else
    let r : Request :=
      { uri := env.pathJoin [env.apiPaaSBase, "security_zones", id], method := MethodPatch,
        body := some (Body.paaSSecurityZoneUpdateRequest body) }
    if c.cfg.sync then
      match r.executeNil env c w with
      | (some err, w1) => (some err, w1)
      | (none, w1) => c.waitForSecurityZoneActive env id w1
    else
      r.executeNil env c w

/-- DeletePaaSSecurityZone delete a specific PaaS Security Zone based on given id. -/
def Client.DeletePaaSSecurityZone {σ : Type} (c : Client) (env : Env σ) (id : String)
    (w : World σ) : Option GoError × World σ :=
  if !env.isValidUUID id then
    (some (GoError.errorsNew "'id' is invalid"), w)
  else
    let r : Request :=
      { uri := env.pathJoin [env.apiPaaSBase, "security_zones", id], method := MethodDelete }
    if c.cfg.sync then
      match r.executeNil env c w with
      | (some err, w1) => (some err, w1)
      | (none, w1) => c.waitForSecurityZoneDeleted env id w1
    else
      r.executeNil env c w

/-- GetPaaSServiceList returns a list of PaaS Services. -/
def Client.GetPaaSServiceList {σ : Type} (c : Client) (env : Env σ) (w : World σ) :
    (List PaaSService × Option GoError) × World σ :=
  let r : Request := { uri := env.pathJoin [env.apiPaaSBase, "services"], method := MethodGet }
  let response : PaaSServices := {}
  let paasServices : List PaaSService := []
  match r.execute env c response w with
  | ((response, err), w1) =>
    ((response.List.foldl (fun paasServices entry => paasServices ++ [{ Properties := entry.2 }]) paasServices, err),
      w1)

/-- GetPaaSServiceMetrics get a specific PaaS Service's metrics based on a given id. -/
def Client.GetPaaSServiceMetrics {σ : Type} (c : Client) (env : Env σ) (id : String)
    (w : World σ) : (List PaaSServiceMetric × Option GoError) × World σ :=
  if !env.isValidUUID id then
    (([], some (GoError.errorsNew "'id' is invalid")), w)
  else
    let r : Request :=
      { uri := env.pathJoin [env.apiPaaSBase, "services", id, "metrics"], method := MethodGet }
    let response : PaaSServiceMetrics := {}
    let metrics : List PaaSServiceMetric := []
    match r.execute env c response w with
    | ((response, err), w1) =>
      ((response.List.foldl (fun metrics properties => metrics ++ [{ Properties := properties }])
          metrics,
        err), w1)

/-- GetPaaSTemplateList returns a list of PaaS service templates. -/
def Client.GetPaaSTemplateList {σ : Type} (c : Client) (env : Env σ) (w : World σ) :
    (List PaaSTemplate × Option GoError) × World σ :=
  let r : Request := { uri := env.pathJoin [env.apiPaaSBase, "service_templates"], method := MethodGet }
  let response : PaaSTemplates := {}
  let paasTemplates : List PaaSTemplate := []
  match r.execute env c response w with
  | ((response, err), w1) =>
    ((response.List.foldl
        (fun paasTemplates entry =>
          let paasTemplate : PaaSTemplate := { Properties := entry.2 }
          paasTemplates ++ [paasTemplate])
        paasTemplates,
      err), w1)

/-- GetPaaSSecurityZoneList get available security zones. -/
def Client.GetPaaSSecurityZoneList {σ : Type} (c : Client) (env : Env σ) (w : World σ) :
    (List PaaSSecurityZone × Option GoError) × World σ :=
  let r : Request := { uri := env.pathJoin [env.apiPaaSBase, "security_zones"], method := MethodGet }
  let response : PaaSSecurityZones := {}
  let securityZones : List PaaSSecurityZone := []
  match r.execute env c response w with
  | ((response, err), w1) =>
    ((response.List.foldl (fun securityZones entry => securityZones ++ [{ Properties := entry.2 }]) securityZones, err),
      w1)

/-- GetDeletedPaaSServices returns a list of deleted PaaS Services. -/
def Client.GetDeletedPaaSServices {σ : Type} (c : Client) (env : Env σ) (w : World σ) :
    (List PaaSService × Option GoError) × World σ :=
  let r : Request := { uri := env.pathJoin [env.apiDeletedBase, "paas_services"], method := MethodGet }
  let response : DeletedPaaSServices := {}
  let paasServices : List PaaSService := []
  match r.execute env c response w with
  | ((response, err), w1) =>
    ((response.List.foldl (fun paasServices entry => paasServices ++ [{ Properties := entry.2 }]) paasServices, err),
      w1)

/-! ## objectstorage.go: operations -/

/-- Go's `unicode.IsSpace`. -/
def unicodeIsSpace (ch : Char) : Bool :=
  ch.val == 0x09 || ch.val == 0x0A || ch.val == 0x0B || ch.val == 0x0C || ch.val == 0x0D ||
  ch.val == 0x20 || ch.val == 0x85 || ch.val == 0xA0 || ch.val == 0x1680 ||
  (0x2000 ≤ ch.val && ch.val ≤ 0x200A) || ch.val == 0x2028 || ch.val == 0x2029 ||
  ch.val == 0x202F || ch.val == 0x205F || ch.val == 0x3000

/-- Go's `strings.TrimSpace`: the string without its leading and trailing white space. -/
def stringsTrimSpace (s : String) : String :=
  String.mk ((s.data.dropWhile unicodeIsSpace).reverse.dropWhile unicodeIsSpace).reverse

/-- GetObjectStorageAccessKeyList gets a list of available object storage access keys. -/
def Client.GetObjectStorageAccessKeyList {σ : Type} (c : Client) (env : Env σ)
    (w : World σ) : (List ObjectStorageAccessKey × Option GoError) × World σ :=
  let r : Request :=
    { uri := env.pathJoin [env.apiObjectStorageBase, "access_keys"], method := MethodGet }
  let response : ObjectStorageAccessKeyList := {}
  let accessKeys : List ObjectStorageAccessKey := []
  match r.execute env c response w with
  | ((response, err), w1) =>
    ((response.List.foldl
        (fun accessKeys properties => accessKeys ++ [{ Properties := properties }]) accessKeys,
      err), w1)

/-- GetObjectStorageAccessKey gets a specific object storage access key based on given
id. -/
def Client.GetObjectStorageAccessKey {σ : Type} (c : Client) (env : Env σ) (id : String)
    (w : World σ) : (ObjectStorageAccessKey × Option GoError) × World σ :=
  if stringsTrimSpace id == "" then
    (({}, some (GoError.errorsNew "'id' is required")), w)
  else
    let r : Request :=
      { uri := env.pathJoin [env.apiObjectStorageBase, "access_keys", id],
        method := MethodGet }
    let response : ObjectStorageAccessKey := {}
    r.execute env c response w

/-- CreateObjectStorageAccessKey creates an object storage access key. -/
def Client.CreateObjectStorageAccessKey {σ : Type} (c : Client) (env : Env σ) (w : World σ) :
    (ObjectStorageAccessKeyCreateResponse × Option GoError) × World σ :=
  let r : Request :=
    { uri := env.pathJoin [env.apiObjectStorageBase, "access_keys"], method := MethodPost }
  let response : ObjectStorageAccessKeyCreateResponse := {}
  match r.execute env c response w with
  | ((_, some err), w1) => (({}, some err), w1)
  | ((response, none), w1) =>
    if c.cfg.sync then
      match c.waitForRequestCompleted env response.RequestUUID w1 with
      | (err, w2) => ((response, err), w2)
    else
      ((response, none), w1)

/-- The function waitForObjectStorageAccessKeyDeleted allows to wait until the object
storage's access key is deleted. -/
def Client.waitForObjectStorageAccessKeyDeleted {σ : Type} (c : Client) (env : Env σ)
    (id : String) (w : World σ) : Option GoError × World σ :=
  if stringsTrimSpace id == "" then
    (some (GoError.errorsNew "'id' is required"), w)
  else
    let uri := env.pathJoin [env.apiObjectStorageBase, "access_keys", id]
    let method := MethodGet
    c.waitFor404Status env uri method w

/-- DeleteObjectStorageAccessKey deletes a specific object storage access key based on
given id. -/
def Client.DeleteObjectStorageAccessKey {σ : Type} (c : Client) (env : Env σ) (id : String)
    (w : World σ) : Option GoError × World σ :=
  if stringsTrimSpace id == "" then
    (some (GoError.errorsNew "'id' is required"), w)
  else
    let r : Request :=
      { uri := env.pathJoin [env.apiObjectStorageBase, "access_keys", id],
        method := MethodDelete }
    if c.cfg.sync then
      match r.executeNil env c w with
      | (some err, w1) => (some err, w1)
      | (none, w1) => c.waitForObjectStorageAccessKeyDeleted env id w1
    else
      r.executeNil env c w

/-- GetObjectStorageBucketList gets a list of object storage buckets. -/
def Client.GetObjectStorageBucketList {σ : Type} (c : Client) (env : Env σ)
    (w : World σ) : (List ObjectStorageBucket × Option GoError) × World σ :=
  let r : Request :=
    { uri := env.pathJoin [env.apiObjectStorageBase, "buckets"], method := MethodGet }
  let response : ObjectStorageBucketList := {}
  let buckets : List ObjectStorageBucket := []
  match r.execute env c response w with
  | ((response, err), w1) =>
    ((response.List.foldl (fun buckets properties => buckets ++ [{ Properties := properties }])
        buckets,
      err), w1)

/-! ## serverisoimage.go: operations -/

/-- GetServerIsoImageList gets a list of a specific server's ISO images. -/
def Client.GetServerIsoImageList {σ : Type} (c : Client) (env : Env σ) (id : String)
    (w : World σ) : (List ServerIsoImageRelationProperties × Option GoError) × World σ :=
  if !env.isValidUUID id then
    (([], some (GoError.errorsNew "'id' is invalid")), w)
  else
    let r : Request :=
      { uri := env.pathJoin [env.apiServerBase, id, "isoimages"], method := MethodGet }
    let response : ServerIsoImageRelationList := {}
    match r.execute env c response w with
    | ((response, err), w1) => ((response.List, err), w1)

/-- GetServerIsoImage gets an ISO image of a specific server. -/
def Client.GetServerIsoImage {σ : Type} (c : Client) (env : Env σ)
    (serverID isoImageID : String) (w : World σ) :
    (ServerIsoImageRelationProperties × Option GoError) × World σ :=
  if !env.isValidUUID serverID || !env.isValidUUID isoImageID then
    (({}, some (GoError.errorsNew "'id' is invalid")), w)
  else
    let r : Request :=
      { uri := env.pathJoin [env.apiServerBase, serverID, "isoimages", isoImageID],
        method := MethodGet }
    let response : ServerIsoImageRelation := {}
    match r.execute env c response w with
    | ((response, err), w1) => ((response.Properties, err), w1)

/-- UpdateServerIsoImage updates a link between a storage and an ISO image. -/
def Client.UpdateServerIsoImage {σ : Type} (c : Client) (env : Env σ)
    (serverID isoImageID : String) (body : ServerIsoImageRelationUpdateRequest)
    (w : World σ) : Option GoError × World σ :=
  if !env.isValidUUID serverID || !env.isValidUUID isoImageID then
    (some (GoError.errorsNew "'serverID' or 'isoImageID' is invalid"), w)
  else
    let r : Request :=
      { uri := env.pathJoin [env.apiServerBase, serverID, "isoimages", isoImageID],
        method := MethodPatch, body := some (Body.serverIsoImageRelationUpdateRequest body) }
    r.executeNil env c w

/-- The function waitForServerISOImageRelCreation allows to wait until the relation
between a server and an ISO-Image is created. -/
def Client.waitForServerISOImageRelCreation {σ : Type} (c : Client) (env : Env σ)
    (serverID isoimageID : String) (w : World σ) : Option GoError × World σ :=
  if !env.isValidUUID serverID || !env.isValidUUID isoimageID then
    (some (GoError.errorsNew "'serverID' and 'isoimageID' are required"), w)
  else
    let uri := env.pathJoin [env.apiServerBase, serverID, "isoimages", isoimageID]
    let method := MethodGet
    c.waitFor200Status env uri method w

/-- The function waitForServerISOImageRelDeleted allows to wait until the relation
between a server and an ISO-Image is deleted. -/
def Client.waitForServerISOImageRelDeleted {σ : Type} (c : Client) (env : Env σ)
    (serverID isoimageID : String) (w : World σ) : Option GoError × World σ :=
  if !env.isValidUUID serverID || !env.isValidUUID isoimageID then
    (some (GoError.errorsNew "'serverID' and 'isoimageID' are required"), w)
  else
    let uri := env.pathJoin [env.apiServerBase, serverID, "isoimages", isoimageID]
    let method := MethodGet
    c.waitFor404Status env uri method w

/-- CreateServerIsoImage creates a link between a server and an ISO image. -/
def Client.CreateServerIsoImage {σ : Type} (c : Client) (env : Env σ) (id : String)
    (body : ServerIsoImageRelationCreateRequest) (w : World σ) : Option GoError × World σ :=
  if !env.isValidUUID id || !env.isValidUUID body.ObjectUUID then
    (some (GoError.errorsNew "'serverID' or 'isoImageID' is invalid"), w)
  else
    let r : Request :=
      { uri := env.pathJoin [env.apiServerBase, id, "isoimages"], method := MethodPost,
        body := some (Body.serverIsoImageRelationCreateRequest body) }
    if c.cfg.sync then
      match r.executeNil env c w with
      | (some err, w1) => (some err, w1)
      | (none, w1) => c.waitForServerISOImageRelCreation env id body.ObjectUUID w1
    else
      r.executeNil env c w

/-- DeleteServerIsoImage deletes a link between an ISO image and a server. -/
def Client.DeleteServerIsoImage {σ : Type} (c : Client) (env : Env σ)
    (serverID isoImageID : String) (w : World σ) : Option GoError × World σ :=
  if !env.isValidUUID serverID || !env.isValidUUID isoImageID then
    (some (GoError.errorsNew "'serverID' or 'isoImageID' is invalid"), w)
  else
    let r : Request :=
      { uri := env.pathJoin [env.apiServerBase, serverID, "isoimages", isoImageID],
        method := MethodDelete }
    if c.cfg.sync then
      match r.executeNil env c w with
      | (some err, w1) => (some err, w1)
      | (none, w1) => c.waitForServerISOImageRelDeleted env serverID isoImageID w1
    else
      r.executeNil env c w

/-- LinkIsoImage attaches an ISO image to a server. -/
def Client.LinkIsoImage {σ : Type} (c : Client) (env : Env σ) (serverID isoimageID : String)
    (w : World σ) : Option GoError × World σ :=
  let body : ServerIsoImageRelationCreateRequest := { ObjectUUID := isoimageID }
  c.CreateServerIsoImage env serverID body w

/-- UnlinkIsoImage removes the link between an ISO image and a server. -/
def Client.UnlinkIsoImage {σ : Type} (c : Client) (env : Env σ)
    (serverID isoimageID : String) (w : World σ) : Option GoError × World σ :=
  c.DeleteServerIsoImage env serverID isoimageID w

/-! ## servernetwork.go: operations -/

/-- GetServerNetworkList gets a list of a specific server's networks. -/
def Client.GetServerNetworkList {σ : Type} (c : Client) (env : Env σ) (id : String)
    (w : World σ) : (List ServerNetworkRelationProperties × Option GoError) × World σ :=
  if !env.isValidUUID id then
    (([], some (GoError.errorsNew "'id' is invalid")), w)
  else
    let r : Request :=
      { uri := env.pathJoin [env.apiServerBase, id, "networks"], method := MethodGet }
    let response : ServerNetworkRelationList := {}
    match r.execute env c response w with
    | ((response, err), w1) => ((response.List, err), w1)

/-- GetServerNetwork gets a network of a specific server. -/
def Client.GetServerNetwork {σ : Type} (c : Client) (env : Env σ)
    (serverID networkID : String) (w : World σ) :
    (ServerNetworkRelationProperties × Option GoError) × World σ :=
  if !env.isValidUUID serverID || !env.isValidUUID networkID then
    (({}, some (GoError.errorsNew "'serverID' or 'networksID' is invalid")), w)
  else
    let r : Request :=
      { uri := env.pathJoin [env.apiServerBase, serverID, "networks", networkID],
        method := MethodGet }
    let response : ServerNetworkRelation := {}
    match r.execute env c response w with
    | ((response, err), w1) => ((response.Properties, err), w1)

/-- UpdateServerNetwork updates a link between a network and a server. -/
def Client.UpdateServerNetwork {σ : Type} (c : Client) (env : Env σ)
    (serverID networkID : String) (body : ServerNetworkRelationUpdateRequest)
    (w : World σ) : Option GoError × World σ :=
  if !env.isValidUUID serverID || !env.isValidUUID networkID then
    (some (GoError.errorsNew "'serverID' or 'networksID' is invalid"), w)
  else
    let r : Request :=
      { uri := env.pathJoin [env.apiServerBase, serverID, "networks", networkID],
        method := MethodPatch, body := some (Body.serverNetworkRelationUpdateRequest body) }
    r.executeNil env c w

/-- The function waitForServerNetworkRelCreation allows to wait until the relation
between a server and a network is created. -/
def Client.waitForServerNetworkRelCreation {σ : Type} (c : Client) (env : Env σ)
    (serverID networkID : String) (w : World σ) : Option GoError × World σ :=
  if !env.isValidUUID serverID || !env.isValidUUID networkID then
    (some (GoError.errorsNew "'serverID' and 'networkID' are required"), w)
  else
    let uri := env.pathJoin [env.apiServerBase, serverID, "networks", networkID]
    let method := MethodGet
    c.waitFor200Status env uri method w

/-- The function waitForServerNetworkRelDeleted allows to wait until the relation
between a server and a network is deleted. -/
def Client.waitForServerNetworkRelDeleted {σ : Type} (c : Client) (env : Env σ)
    (serverID networkID : String) (w : World σ) : Option GoError × World σ :=
  if !env.isValidUUID serverID || !env.isValidUUID networkID then
    (some (GoError.errorsNew "'serverID' and 'networkID' are required"), w)
  else
    let uri := env.pathJoin [env.apiServerBase, serverID, "networks", networkID]
    let method := MethodGet
    c.waitFor404Status env uri method w

/-- CreateServerNetwork creates a link between a network and a storage. -/
def Client.CreateServerNetwork {σ : Type} (c : Client) (env : Env σ) (id : String)
    (body : ServerNetworkRelationCreateRequest) (w : World σ) : Option GoError × World σ :=
  if !env.isValidUUID id || !env.isValidUUID body.ObjectUUID then
    (some (GoError.errorsNew "'serverID' or 'network_id' is invalid"), w)
  else
    let r : Request :=
      { uri := env.pathJoin [env.apiServerBase, id, "networks"], method := MethodPost,
        body := some (Body.serverNetworkRelationCreateRequest body) }
    if c.cfg.sync then
      match r.executeNil env c w with
      | (some err, w1) => (some err, w1)
      | (none, w1) => c.waitForServerNetworkRelCreation env id body.ObjectUUID w1
    else
      r.executeNil env c w

/-- DeleteServerNetwork deletes a link between a network and a server. -/
def Client.DeleteServerNetwork {σ : Type} (c : Client) (env : Env σ)
    (serverID networkID : String) (w : World σ) : Option GoError × World σ :=
  if !env.isValidUUID serverID || !env.isValidUUID networkID then
    (some (GoError.errorsNew "'serverID' or 'networkID' is invalid"), w)
  else
    let r : Request :=
      { uri := env.pathJoin [env.apiServerBase, serverID, "networks", networkID],
        method := MethodDelete }
    if c.cfg.sync then
      match r.executeNil env c w with
      | (some err, w1) => (some err, w1)
      | (none, w1) => c.waitForServerNetworkRelDeleted env serverID networkID w1
    else
      r.executeNil env c w

/-- LinkNetwork attaches a network to a server. -/
def Client.LinkNetwork {σ : Type} (c : Client) (env : Env σ)
    (serverID networkID firewallTemplate : String) (bootdevice : Bool) (order : Int)
    (l3security : List String) (firewall : Option FirewallRules) (w : World σ) :
    Option GoError × World σ :=
  let body : ServerNetworkRelationCreateRequest :=
    { ObjectUUID := networkID
      Ordering := order
      BootDevice := bootdevice
      L3security := l3security
      FirewallTemplateUUID := firewallTemplate
      Firewall := firewall }
  c.CreateServerNetwork env serverID body w

/-- UnlinkNetwork removes the link between a network and a server. -/
def Client.UnlinkNetwork {σ : Type} (c : Client) (env : Env σ)
    (serverID networkID : String) (w : World σ) : Option GoError × World σ :=
  c.DeleteServerNetwork env serverID networkID w

/-! ## serverip.go: operations -/

/-- GetServerIPList gets a list of a specific server's IPs. -/
def Client.GetServerIPList {σ : Type} (c : Client) (env : Env σ) (id : String)
    (w : World σ) : (List ServerIPRelationProperties × Option GoError) × World σ :=
  if id == "" then
    (([], some (GoError.errorsNew "'id' is required")), w)
  else
    let r : Request :=
      { uri := env.pathJoin [env.apiServerBase, id, "ips"], method := MethodGet }
    let response : ServerIPRelationList := {}
    match r.execute env c response w with
    | ((response, err), w1) => ((response.List, err), w1)

/-- The function waitForServerIPRelCreation allows to wait until the relation between a
server and an IP address is created. -/
def Client.waitForServerIPRelCreation {σ : Type} (c : Client) (env : Env σ)
    (serverID ipID : String) (w : World σ) : Option GoError × World σ :=
  if !env.isValidUUID serverID || !env.isValidUUID ipID then
    (some (GoError.errorsNew "'serverID' and 'ipID' are required"), w)
  else
    let uri := env.pathJoin [env.apiServerBase, serverID, "ips", ipID]
    let method := MethodGet
    c.waitFor200Status env uri method w

/-- The function waitForServerIPRelDeleted allows to wait until the relation between a
server and an IP address is deleted. -/
def Client.waitForServerIPRelDeleted {σ : Type} (c : Client) (env : Env σ)
    (serverID ipID : String) (w : World σ) : Option GoError × World σ :=
  if !env.isValidUUID serverID || !env.isValidUUID ipID then
    (some (GoError.errorsNew "'serverID' and 'ipID' are required"), w)
  else
    let uri := env.pathJoin [env.apiServerBase, serverID, "ips", ipID]
    let method := MethodGet
    c.waitFor404Status env uri method w

/-- CreateServerIP create a link between a server and an IP. -/
def Client.CreateServerIP {σ : Type} (c : Client) (env : Env σ) (id : String)
    (body : ServerIPRelationCreateRequest) (w : World σ) : Option GoError × World σ :=
  if id == "" || body.ObjectUUID == "" then
    (some (GoError.errorsNew "'server_id' and 'ip_id' are required"), w)
  else
    let r : Request :=
      { uri := env.pathJoin [env.apiServerBase, id, "ips"], method := MethodPost,
        body := some (Body.serverIPRelationCreateRequest body) }
    if c.cfg.sync then
      match r.executeNil env c w with
      | (some err, w1) => (some err, w1)
      | (none, w1) => c.waitForServerIPRelCreation env id body.ObjectUUID w1
    else
      r.executeNil env c w

/-- DeleteServerIP delete a link between a server and an IP. -/
def Client.DeleteServerIP {σ : Type} (c : Client) (env : Env σ) (serverID ipID : String)
    (w : World σ) : Option GoError × World σ :=
  if serverID == "" || ipID == "" then
    (some (GoError.errorsNew "'serverID' and 'ipID' are required"), w)
  else
    let r : Request :=
      { uri := env.pathJoin [env.apiServerBase, serverID, "ips", ipID], method := MethodDelete }
    if c.cfg.sync then
      match r.executeNil env c w with
      | (some err, w1) => (some err, w1)
      | (none, w1) => c.waitForServerIPRelDeleted env serverID ipID w1
    else
      r.executeNil env c w

/-- LinkIP attaches an IP to a server. -/
def Client.LinkIP {σ : Type} (c : Client) (env : Env σ) (serverID ipID : String)
    (w : World σ) : Option GoError × World σ :=
  let body : ServerIPRelationCreateRequest := { ObjectUUID := ipID }
  c.CreateServerIP env serverID body w

/-- UnlinkIP removes a link between an IP and a server. -/
def Client.UnlinkIP {σ : Type} (c : Client) (env : Env σ) (serverID ipID : String)
    (w : World σ) : Option GoError × World σ :=
  c.DeleteServerIP env serverID ipID w

/-! ## serverstorage.go: operations -/

/-- GetServerStorageList gets a list of a specific server's storages. -/
def Client.GetServerStorageList {σ : Type} (c : Client) (env : Env σ) (id : String)
    (w : World σ) : (List ServerStorageRelationProperties × Option GoError) × World σ :=
  let r : Request :=
    { uri := env.pathJoin [env.apiServerBase, id, "storages"], method := MethodGet }
  let response : ServerStorageRelationList := {}
  match r.execute env c response w with
  | ((response, err), w1) => ((response.List, err), w1)

/-- GetServerStorage gets a storage of a specific server. -/
def Client.GetServerStorage {σ : Type} (c : Client) (env : Env σ)
    (serverId storageId : String) (w : World σ) :
    (ServerStorageRelationProperties × Option GoError) × World σ :=
  let r : Request :=
    { uri := env.pathJoin [env.apiServerBase, serverId, "storages", storageId],
      method := MethodGet }
  let response : ServerStorageRelationSingle := {}
  match r.execute env c response w with
  | ((response, err), w1) => ((response.Properties, err), w1)

/-- UpdateServerStorage updates a link between a storage and a server. -/
def Client.UpdateServerStorage {σ : Type} (c : Client) (env : Env σ)
    (serverId storageId : String) (body : ServerStorageRelationUpdateRequest)
    (w : World σ) : Option GoError × World σ :=
  let r : Request :=
    { uri := env.pathJoin [env.apiServerBase, serverId, "storages", storageId],
      method := MethodPatch, body := some (Body.serverStorageRelationUpdateRequest body) }
  r.executeNil env c w

/-- CreateServerStorage create a link between a server and a storage. -/
def Client.CreateServerStorage {σ : Type} (c : Client) (env : Env σ) (id : String)
    (body : ServerStorageRelationCreateRequest) (w : World σ) : Option GoError × World σ :=
  let r : Request :=
    { uri := env.pathJoin [env.apiServerBase, id, "storages"], method := MethodPost,
      body := some (Body.serverStorageRelationCreateRequest body) }
  r.executeNil env c w

/-- DeleteServerStorage delete a link between a storage and a server. -/
def Client.DeleteServerStorage {σ : Type} (c : Client) (env : Env σ)
    (serverId storageId : String) (w : World σ) : Option GoError × World σ :=
  let r : Request :=
    { uri := env.pathJoin [env.apiServerBase, serverId, "storages", storageId],
      method := MethodDelete }
  r.executeNil env c w

/-- LinkStorage attaches a storage to a server. -/
def Client.LinkStorage {σ : Type} (c : Client) (env : Env σ) (serverId storageId : String)
    (bootdevice : Bool) (w : World σ) : Option GoError × World σ :=
  let body : ServerStorageRelationCreateRequest :=
    { ObjectUuid := storageId, BootDevice := bootdevice }
  c.CreateServerStorage env serverId body w

/-- UnlinkStorage remove a storage from a server. -/
def Client.UnlinkStorage {σ : Type} (c : Client) (env : Env σ) (serverId storageId : String)
    (w : World σ) : Option GoError × World σ :=
  c.DeleteServerStorage env serverId storageId w

/-! ## The poll loop, modelled from the spec -/

/-- Modelled from the spec: the error `PollTimeout`, "deadline exceeded waiting for
a predicate", which is distinguishable from a failure that the provider
reports. -/
def PollTimeout : GoError := GoError.errorsNew "timeout reached"

/-- Modelled from the spec: the ticks of the poll loop `retryWithTimeout`
(`pollUntil`), whose declaration is not among the sources.  On each tick the loop
runs `targetFunc`, which fetches the resource anew and evaluates the predicate.
When the predicate does not ask to keep waiting, the loop returns the predicate's
error, which is success when there is none.  When it asks to keep waiting, an
error of that fetch is not returned and the loop goes to the next tick, and when
no tick is left before the deadline it returns `PollTimeout`. -/
def retryWithTimeoutSpec.loop {σ : Type}
    (targetFunc : World σ → (Bool × Option GoError) × World σ) :
    Nat → World σ → Option GoError × World σ
  | 0, w => (some PollTimeout, w)
  | ticks + 1, w =>
    match targetFunc w with
    | ((false, err), w1) => (err, w1)
    | ((true, _), w1) => retryWithTimeoutSpec.loop targetFunc ticks w1

/-- Modelled from the spec: the function `retryWithTimeout` (`pollUntil`), whose
declaration is not among the sources.  The first tick is at the start; the loop
sleeps `delay` between two ticks, so the deadline `timeout` leaves room for
`timeout / delay` further ticks, and for none when `timeout < delay`. -/
def retryWithTimeoutSpec {σ : Type}
    (targetFunc : World σ → (Bool × Option GoError) × World σ) (timeout delay : Duration)
    (w : World σ) : Option GoError × World σ :=
  retryWithTimeoutSpec.loop targetFunc ((timeout / delay).toNat + 1) w

/-! ## server.go: the power-state transitions, modelled from the spec -/

/-- Modelled from the spec: the operation `GetServer` of `server.go`, which is not
among the sources.  `Get(id) -> (snapshot, error)`; it fails when `id` fails the
format check, before any call, and otherwise fetches the snapshot of the
server. -/
def Client.GetServer {σ : Type} (c : Client) (env : Env σ) (id : String) (w : World σ) :
    (Server × Option GoError) × World σ :=
  if !env.isValidUUID id then
    (({}, some (GoError.errorsNew "'id' is invalid")), w)
  else
    let r : Request := { uri := env.pathJoin [env.apiServerBase, id], method := MethodGet }
    let response : Server := {}
    r.execute env c response w

/-- Modelled from the spec: the poller `waitForServerPowerStatus` of `server.go`, which
is not among the sources.  It has the shape of the wait-for-active pollers, but
polls a power-flag predicate instead of a status string: it keeps polling while
the power flag of the freshly fetched server differs from `status`.  An
identifier that fails the format check makes it fail fast. -/
def Client.waitForServerPowerStatus {σ : Type} (c : Client) (env : Env σ) (id : String)
    (status : Bool) (w : World σ) : Option GoError × World σ :=
  if !env.isValidUUID id then
    (some (GoError.errorsNew "'id' is invalid"), w)
  else
    retryWithTimeout env
      (fun w0 =>
        match c.GetServer env id w0 with
        | ((server, err), w1) => ((server.Properties.Power != status, err), w1))
      c.cfg.requestCheckTimeoutSecs c.cfg.delayInterval w

/-- Modelled from the spec: the hard power-off action `StopServer` of `server.go`,
which is not among the sources.  A power-state transition has the shape of the
mutating operations: the identifier is checked, the executor is called (a PATCH
of the power of the server, as in the tests), and in synchronous mode the power
flag is polled until the server is off. -/
def Client.StopServer {σ : Type} (c : Client) (env : Env σ) (id : String) (w : World σ) :
    Option GoError × World σ :=
  if !env.isValidUUID id then
    (some (GoError.errorsNew "'id' is invalid"), w)
  else
    let r : Request :=
      { uri := env.pathJoin [env.apiServerBase, id, "power"],
        method := MethodPatch,
        body := some (Body.serverPowerUpdateRequest { Power := false }) }
    match r.executeNil env c w with
    | (some err, w1) => (some err, w1)
    | (none, w1) =>
      if c.cfg.sync then
        c.waitForServerPowerStatus env id false w1
      else
        (none, w1)

/-- Modelled from the spec: the graceful shutdown `ShutdownServer` of `server.go`,
which is not among the sources.  It has the shape of the other power-state
transitions (check of the identifier, a PATCH of the shutdown of the server as in
the tests, and in synchronous mode the wait for the power flag to be off), and
"a graceful-shutdown action that fails must fall back to the hard power-off
action": when the request fails, or the wait of synchronous mode fails, it
returns what `StopServer` returns. -/
def Client.ShutdownServer {σ : Type} (c : Client) (env : Env σ) (id : String)
    (w : World σ) : Option GoError × World σ :=
  if !env.isValidUUID id then
    (some (GoError.errorsNew "'id' is invalid"), w)
  else
    let r : Request :=
      { uri := env.pathJoin [env.apiServerBase, id, "shutdown"], method := MethodPatch }
    match r.executeNil env c w with
    | (some _, w1) => c.StopServer env id w1
    | (none, w1) =>
      if c.cfg.sync then
        match c.waitForServerPowerStatus env id false w1 with
        | (some _, w2) => c.StopServer env id w2
        | (none, w2) => (none, w2)
      else
        (none, w1)

/-! ## A backend in the manner of the tests

The tests run the client against an HTTP mux with one handler for each method
and path, and a flag `isFailed` that makes the handlers answer 400.
`testEnv` is that backend, with sample code for what `Env` leaves open.  The
theorems hold for every `Env`; this one gives them concrete inputs. -/

/-- The constant `dummyUUID` of testcommon.go. -/
def dummyUUID : String := "690de890-13c0-4e76-8a01-e10ba8786e53"

/-- The constant `dummyRequestUUID` of testcommon.go. -/
def dummyRequestUUID : String := "x123xx1x-123x-1x12-123x-123xxx123x1x"

/-- The mux of a test: its handlers, the flag `isFailed`, and the number of
requests that reached it. -/
structure TestBackend where
  isFailed : Bool
  handlers : List (String × String × Payload)
  served : Nat

/-- The answer of the handler registered for `method` and `uri`, when there is one. -/
def TestBackend.handler (s : TestBackend) (method uri : String) : Option Payload :=
  match s.handlers.find? (fun h => h.1 == method && h.2.1 == uri) with
  | some h => some h.2.2
  | none => none

/-- One request to the mux: 400 when `isFailed`, 404 without a handler. -/
def TestBackend.serve (s : TestBackend) (method uri : String) :
    (Option GoError × Payload) × TestBackend :=
  let s1 : TestBackend := { isFailed := s.isFailed, handlers := s.handlers, served := s.served + 1 }
  if s.isFailed then
    ((some (GoError.requestError 400 "Bad Request"), Payload.empty), s1)
  else
    match s.handler method uri with
    | some p => ((none, p), s1)
    | none => ((some (GoError.requestError 404 "Not Found"), Payload.empty), s1)

/-- A sample format check: the canonical text form of a UUID, 36 characters,
hyphens at 8, 13, 18 and 23 and hexadecimal digits elsewhere. -/
def testIsValidUUID (s : String) : Bool :=
  s.data.length == 36 &&
  (List.range 36).all (fun i =>
    let n := (s.data.getD i (Char.ofNat 0)).toNat
    if i == 8 || i == 13 || i == 18 || i == 23 then n == 45
    else (48 ≤ n && n ≤ 57) || (97 ≤ n && n ≤ 102) || (65 ≤ n && n ≤ 70))

/-- A sample `path.Join`: the elements that are not empty, joined by slashes.  It
agrees with `path.Join` on elements that are clean paths. -/
def testPathJoin (elem : List String) : String :=
  "/".intercalate (elem.filter (fun e => e != ""))

/-- A sample poll loop: `targetFunc` is run until it stops asking for another
round, at most `ticks` times. -/
def testRetryLoop {σ : Type} (targetFunc : World σ → (Bool × Option GoError) × World σ) :
    Nat → World σ → Option GoError × World σ
  | 0, w => (some (GoError.errorsNew "timeout reached"), w)
  | ticks + 1, w =>
    match targetFunc w with
    | ((true, _), w1) => testRetryLoop targetFunc ticks w1
    | ((false, err), w1) => (err, w1)

/-- The sample environment of the tests. -/
def testEnv : Env TestBackend where
  isValidUUID := testIsValidUUID
  pathJoin := testPathJoin
  apiNetworkBase := "/objects/networks"
  apiStorageBase := "/objects/storages"
  apiTemplateBase := "/objects/templates"
  apiSshkeyBase := "/objects/sshkeys"
  apiLabelBase := "/objects/labels"
  apiPaaSBase := "/objects/paas"
  apiObjectStorageBase := "/objects/objectstorages"
  apiServerBase := "/objects/servers"
  apiDeletedBase := "/objects/deleted"
  apiLocationBase := "/objects/locations"
  resourceActiveStatus := "active"
  execute := fun _ r s => s.serve r.method r.uri
  waitForRequestCompleted := fun _ id s =>
    match (s.serve MethodGet ("/requests/" ++ id)).1.1 with
    | none => (none, (s.serve MethodGet ("/requests/" ++ id)).2)
    | some _ => (some (GoError.errorsNew "timeout reached"), (s.serve MethodGet ("/requests/" ++ id)).2)
  retryWithTimeout := fun targetFunc timeout delay w =>
    testRetryLoop targetFunc (timeout / delay).toNat w
  waitFor404Status := fun _ uri method s =>
    match (s.serve method uri).1.1 with
    | none => (some (GoError.errorsNew "timeout reached"), (s.serve method uri).2)
    | some (GoError.requestError 404 _) => (none, (s.serve method uri).2)
    | some err => (some err, (s.serve method uri).2)
  waitFor200Status := fun _ uri method s =>
    match (s.serve method uri).1.1 with
    | none => (none, (s.serve method uri).2)
    | some err => (some err, (s.serve method uri).2)

/-- The client of `setupTestClient(sync)`: a check timeout of one second and a
delay of 100 milliseconds, in nanoseconds. -/
def testClient (sync : Bool) : Client :=
  { cfg := { sync := sync, requestCheckTimeoutSecs := 1000000000, delayInterval := 100000000 } }

/-- A world whose mux has the given handlers and no call made yet. -/
def testWorld (isFailed : Bool) (handlers : List (String × String × Payload)) :
    World TestBackend :=
  { backend := { isFailed := isFailed, handlers := handlers, served := 0 }, trace := [] }

/-- The mux of the test of a create operation on networks: the POST answers with
the ids of the new network and of the request, the request is reported done, and
the new network is still being provisioned. -/
def networkCreateHandlers : List (String × String × Payload) :=
  [ (MethodPost, "/objects/networks",
      Payload.networkCreateResponse { ObjectUUID := dummyUUID, RequestUUID := dummyRequestUUID }),
    (MethodGet, "/requests/" ++ dummyRequestUUID, Payload.empty),
    (MethodGet, "/objects/networks/" ++ dummyUUID,
      Payload.network { Properties := { ObjectUUID := dummyUUID, Status := "in-provisioning" } }) ]

/-- The mux of the test of an update of a network: the network answers PATCH, and
GET reports it with the given status. -/
def networkUpdateHandlers (status : String) : List (String × String × Payload) :=
  [ (MethodPatch, "/objects/networks/" ++ dummyUUID, Payload.empty),
    (MethodGet, "/objects/networks/" ++ dummyUUID,
      Payload.network { Properties := { ObjectUUID := dummyUUID, Status := status } }) ]

/-- The mux of the tests of the relation between a server and an ISO image: the
relation answers PATCH and DELETE, and GET finds it. -/
def serverIsoImageHandlers : List (String × String × Payload) :=
  [ (MethodPost, "/objects/servers/" ++ dummyUUID ++ "/isoimages", Payload.empty),
    (MethodPatch, "/objects/servers/" ++ dummyUUID ++ "/isoimages/" ++ dummyUUID, Payload.empty),
    (MethodDelete, "/objects/servers/" ++ dummyUUID ++ "/isoimages/" ++ dummyUUID, Payload.empty),
    (MethodGet, "/objects/servers/" ++ dummyUUID ++ "/isoimages/" ++ dummyUUID,
      Payload.serverIsoImageRelation { Properties := { ObjectUUID := dummyUUID } }) ]

/-- The mux of a backend that takes every identifier in the path: the relation of
the server `server-1` and the IP address `ip-1` answers POST and DELETE. -/
def serverIPHandlers : List (String × String × Payload) :=
  [ (MethodPost, "/objects/servers/server-1/ips", Payload.empty),
    (MethodDelete, "/objects/servers/server-1/ips/ip-1", Payload.empty) ]

/-- The environment of the tests with the poll loop of the spec. -/
def specEnv : Env TestBackend :=
  { testEnv with retryWithTimeout := retryWithTimeoutSpec }

/-- The mux of a test of the relation between a server and a storage when the
identifiers in the path are empty: the path without them answers every method. -/
def serverStorageHandlers : List (String × String × Payload) :=
  [ (MethodGet, "/objects/servers/storages", Payload.empty),
    (MethodPatch, "/objects/servers/storages", Payload.empty),
    (MethodPost, "/objects/servers/storages", Payload.empty),
    (MethodDelete, "/objects/servers/storages", Payload.empty) ]

/-- The mux of the test of the list of networks, with two networks. -/
def networkListHandlers : List (String × String × Payload) :=
  [ (MethodGet, "/objects/networks",
      Payload.networkList
        { List :=
            [ ("n1", { ObjectUUID := "n1", Name := "first", Status := "active" }),
              ("n2", { ObjectUUID := "n2", Name := "second", PublicNet := true,
                       Status := "active" }) ] }) ]

/-- The mux of the test of the list of templates, with two templates. -/
def templateListHandlers : List (String × String × Payload) :=
  [ (MethodGet, "/objects/templates",
      Payload.templateList
        { List :=
            [ ("t1", { ObjectUUID := "t1", Name := "Debian", Status := "active" }),
              ("t2", { ObjectUUID := "t2", Name := "Ubuntu", Status := "active" }) ] }) ]



/-- The mux of the test of a shutdown that fails: the graceful shutdown has no
handler, so that its request fails, the PATCH of the power answers, and the
server is reported with its power off. -/
def serverShutdownHandlers : List (String × String × Payload) :=
  [ (MethodPatch, "/objects/servers/" ++ dummyUUID ++ "/power", Payload.empty),
    (MethodGet, "/objects/servers/" ++ dummyUUID,
      Payload.server
        { Properties :=
            { ObjectUUID := dummyUUID, Name := "Test", Memory := 2, Cores := 4,
              HardwareProfile := "default", Status := "active", LocationUUID := dummyUUID,
              Power := false, AutoRecovery := true, Labels := ["label"] } }) ]

/-- The mux of the test of the list of templates, with the two templates in the
other order. -/
def templateListHandlersSwapped : List (String × String × Payload) :=
  [ (MethodGet, "/objects/templates",
      Payload.templateList
        { List :=
            [ ("t2", { ObjectUUID := "t2", Name := "Ubuntu", Status := "active" }),
              ("t1", { ObjectUUID := "t1", Name := "Debian", Status := "active" }) ] }) ]

/-- The mux of the test of the list of labels, with one label. -/
def labelListHandlers : List (String × String × Payload) :=
  [ (MethodGet, "/objects/labels", Payload.labelList { List := [("test", { Label := "test" })] }) ]

/-- The mux of the test of the list of access keys, with two keys. -/
def accessKeyListHandlers : List (String × String × Payload) :=
  [ (MethodGet, "/objects/objectstorages/access_keys",
      Payload.objectStorageAccessKeyList
        { List :=
            [ { SecretKey := "s1", AccessKey := "a1", User := "u1" },
              { SecretKey := "s2", AccessKey := "a2", User := "u2" } ] }) ]

/-- The error and the world that an operation returning a response leaves. -/
def dropResponse {σ α : Type} (op : World σ → (α × Option GoError) × World σ) :
    World σ → Option GoError × World σ :=
  fun w => ((op w).1.2, (op w).2)

/-- The operation `op` calls the request executor once, with one request `r`,
calls nothing else, and returns the executor's error: in every world the trace
grows by the one call `execute r`, and the error and the backend are those the
executor gives for `r`. -/
def OnlyExecutes {σ : Type} (env : Env σ) (c : Client)
    (op : World σ → Option GoError × World σ) : Prop :=
  ∃ r : Request, ∀ w : World σ,
    op w = ((env.execute c r w.backend).1.1,
      { backend := (env.execute c r w.backend).2, trace := w.trace ++ [Event.execute r] })

/-- The operation `op` returns an error and calls nothing: the world, and so
the trace, is left as it was. -/
def Rejects {σ : Type} (op : World σ → Option GoError × World σ) : Prop :=
  ∀ w : World σ, ∃ err : GoError, op w = (some err, w)

/-- The operation `op` returns the response `zero` with an error and calls
nothing: the world, and so the trace, is left as it was. -/
def RejectsWithZero {σ α : Type} (zero : α) (op : World σ → (α × Option GoError) × World σ) :
    Prop :=
  ∀ w : World σ, ∃ err : GoError, op w = ((zero, some err), w)

/-- Whenever the executor, called by `op` with one request `r` and the response
`zero` to fill, succeeds: `op` calls the completion waiter once, with the
request id `requestUUID` of the decoded response, and returns the decoded
response with the waiter's error; the calls made are these two. -/
def WaitsForRequest {σ α : Type} [Decodable α] (env : Env σ) (c : Client) (zero : α)
    (requestUUID : α → String) (op : World σ → (α × Option GoError) × World σ) : Prop :=
  ∃ r : Request, ∀ w : World σ,
    let ex := r.execute env c zero w
    ex.1.2 = none →
      let wt := c.waitForRequestCompleted env (requestUUID ex.1.1) ex.2
      op w = ((ex.1.1, wt.1), wt.2) ∧
      (op w).2.trace =
        w.trace ++ [Event.execute r, Event.waitForRequestCompleted (requestUUID ex.1.1)]

/-- In synchronous use, of an update: `op` sends one PATCH request `r`.  When the
executor fails, `op` returns the executor's error and calls nothing else; when it
succeeds, `op` returns exactly what the poller `poll` returns, run after it. -/
def PatchThenPoll {σ : Type} (env : Env σ) (c : Client)
    (op poll : World σ → Option GoError × World σ) : Prop :=
  ∃ r : Request, r.method = MethodPatch ∧ ∀ w : World σ,
    let ex := r.executeNil env c w
    (∀ err, ex.1 = some err →
      op w = (some err, ex.2) ∧ (op w).2.trace = w.trace ++ [Event.execute r]) ∧
    (ex.1 = none → op w = poll ex.2)

/-- In synchronous use, of the creation of a relation: `op` sends one POST
request `r`.  It returns no error only when the executor succeeded and
`waitFor200Status`, called with GET on `uri`, succeeded; when the executor
succeeds, `op` returns what that poller returns and the calls made are these
two; when the executor fails, `op` returns its error and calls nothing else. -/
def PostThenWaitFor200 {σ : Type} (env : Env σ) (c : Client) (uri : String)
    (op : World σ → Option GoError × World σ) : Prop :=
  ∃ r : Request, r.method = MethodPost ∧ ∀ w : World σ,
    let ex := r.executeNil env c w
    let poll := c.waitFor200Status env uri MethodGet ex.2
    ((op w).1 = none → ex.1 = none ∧ poll.1 = none) ∧
    (ex.1 = none →
      op w = poll ∧
      (op w).2.trace = w.trace ++ [Event.execute r, Event.waitFor200Status uri MethodGet]) ∧
    (∀ err, ex.1 = some err →
      op w = (some err, ex.2) ∧ (op w).2.trace = w.trace ++ [Event.execute r])

/-- Of a create operation: whenever `op` returns no error, the executor, called
with one request `r`, which is a POST, succeeded, the completion waiter, called
with the request id of the decoded response, succeeded, `op` returns the decoded
response, and the calls made are these two and no other. -/
def NilOnlyAfterRequestDone {σ α : Type} [Decodable α] (env : Env σ) (c : Client) (zero : α)
    (requestUUID : α → String) (op : World σ → (α × Option GoError) × World σ) : Prop :=
  ∃ r : Request, r.method = MethodPost ∧ ∀ w : World σ,
    (op w).1.2 = none →
      let ex := r.execute env c zero w
      let wt := c.waitForRequestCompleted env (requestUUID ex.1.1) ex.2
      ex.1.2 = none ∧ wt.1 = none ∧ (op w).1.1 = ex.1.1 ∧
      (op w).2.trace =
        w.trace ++ [Event.execute r, Event.waitForRequestCompleted (requestUUID ex.1.1)]

/-- Whether a call is a call of a poller: `retryWithTimeout`, `waitFor404Status`
or `waitFor200Status`. -/
def Event.isPoller : Event → Bool
  | Event.retryWithTimeout _ _ => true
  | Event.waitFor404Status _ _ => true
  | Event.waitFor200Status _ _ => true
  | _ => false

/-- Of a wait-for-active poller `poll` built on the Get operation `get`: `poll` is
the poll loop, with the client's timeout and delay, run on a predicate that, at
every evaluation, fetches the resource anew with `get` in the world it is
evaluated in, asks to keep waiting exactly when the fetched status differs from
`resourceActiveStatus`, and returns the error of the fetch unchanged. -/
def PollsStatusOfGet {σ α : Type} (env : Env σ) (c : Client)
    (get : World σ → (α × Option GoError) × World σ) (status : α → String)
    (poll : World σ → Option GoError × World σ) : Prop :=
  ∃ targetFunc : World σ → (Bool × Option GoError) × World σ,
    (∀ w, poll w =
      retryWithTimeout env targetFunc c.cfg.requestCheckTimeoutSecs c.cfg.delayInterval w) ∧
    ∀ w0,
      ((targetFunc w0).1.1 = true ↔ status (get w0).1.1 ≠ env.resourceActiveStatus) ∧
      (targetFunc w0).1.2 = (get w0).1.2 ∧
      (targetFunc w0).2 = (get w0).2

/-- With a backend that is fixed in the world `w`, that is, one on which the
executor gives the same outcome when a request is sent a second time, a second
call of `get` returns the same result and the same error as the first. -/
def SameOnSecondCall {σ α : Type} (env : Env σ) (c : Client)
    (get : World σ → (α × Option GoError) × World σ) : Prop :=
  ∀ w : World σ,
    (∀ r : Request,
      (env.execute c r (env.execute c r w.backend).2).1 = (env.execute c r w.backend).1) →
    (get (get w).2).1 = (get w).1

/-- Of a List operation `op` that decodes a response of type `ρ` holding a map:
`op` sends one request `r`, and for the decoded response it returns as many
elements as the map has entries, the properties `props` of the elements are, as
a multiset, the values of the map, and the error is the executor's. -/
def ListsMapEntries {σ ρ π ε : Type} [Decodable ρ] (env : Env σ) (c : Client) (zero : ρ)
    (entries : ρ → List (String × π)) (props : ε → π)
    (op : World σ → (List ε × Option GoError) × World σ) : Prop :=
  ∃ r : Request, ∀ w : World σ,
    let ex := r.execute env c zero w
    (op w).1.1.length = (entries ex.1.1).length ∧
    (((op w).1.1.map props : List π) : Multiset π) = (((entries ex.1.1).map Prod.snd : List π) : Multiset π) ∧
    (op w).1.2 = ex.1.2 ∧ (op w).2 = ex.2

/-- Of a List operation `op` that decodes a response of type `ρ` with `len` entries:
for every outcome of the executor, `op` returns, after the one call of the
executor, the error of the executor unchanged; and when the answer left the
response empty, because nothing was decoded or because the decoded response has
no entry, the list that `op` returns is empty. -/
def ReturnsExecutorErrorAndList {σ ρ ε : Type} [Decodable ρ] (env : Env σ) (c : Client)
    (len : ρ → Nat) (op : World σ → (List ε × Option GoError) × World σ) : Prop :=
  ∃ r : Request, ∀ w : World σ,
    let res := env.execute c r w.backend
    (op w).1.2 = res.1.1 ∧
    (op w).2 = { backend := res.2, trace := w.trace ++ [Event.execute r] } ∧
    (Decodable.decode res.1.2 = (none : Option ρ) → (op w).1.1 = []) ∧
    (∀ response : ρ, Decodable.decode res.1.2 = some response → len response = 0 →
      (op w).1.1 = [])

/-- Of a Create operation `op`: it sends one POST, and when the executor fails, `op`
returns the response `zero` with the error of the executor unchanged, and the
call of the executor is the only call made. -/
def ZeroOnExecutorFailure {σ α : Type} (env : Env σ) (c : Client) (zero : α)
    (op : World σ → (α × Option GoError) × World σ) : Prop :=
  ∃ r : Request, r.method = MethodPost ∧ ∀ (w : World σ) (err : GoError),
    (env.execute c r w.backend).1.1 = some err →
    op w = ((zero, some err),
      { backend := (env.execute c r w.backend).2, trace := w.trace ++ [Event.execute r] })

/-- Of a List operation `op` that decodes a response of type `ρ` holding a list:
`op` sends one request and returns the decoded list `entries` as it is, with
the error of the executor. -/
def ReturnsDecodedList {σ ρ π : Type} [Decodable ρ] (env : Env σ) (c : Client) (zero : ρ)
    (entries : ρ → List π) (op : World σ → (List π × Option GoError) × World σ) : Prop :=
  ∃ r : Request, ∀ w : World σ,
    let ex := r.execute env c zero w
    (op w).1.1 = entries ex.1.1 ∧ (op w).1.2 = ex.1.2 ∧ (op w).2 = ex.2

/-- Of a List operation `op` that decodes a response of type `ρ` holding a list:
`op` sends one request and returns a list of the length of the decoded list
`entries`, whose element at each index has as `props` the decoded entry at that
index, with the error of the executor. -/
def WrapsDecodedList {σ ρ π ε : Type} [Decodable ρ] (env : Env σ) (c : Client) (zero : ρ)
    (entries : ρ → List π) (props : ε → π)
    (op : World σ → (List ε × Option GoError) × World σ) : Prop :=
  ∃ r : Request, ∀ w : World σ,
    let ex := r.execute env c zero w
    (op w).1.1.length = (entries ex.1.1).length ∧
    (∀ i : Nat, ((op w).1.1[i]?).map props = (entries ex.1.1)[i]?) ∧
    (op w).1.2 = ex.1.2 ∧ (op w).2 = ex.2

/-- Of `ShutdownServer` for the server `id` in the world `w`, with `down` the outcome
of the request of the graceful shutdown and `off` the outcome of the request of
the hard power-off sent after it: when the graceful request fails,
`ShutdownServer` returns what `StopServer` returns in the world that the failed
request left; a failed power-off returns its error; after a power-off that
succeeded, the result in synchronous mode is the result of the wait for the
power flag to be off, and in asynchronous mode it is nil; so the error is nil
exactly when the power-off succeeded and, in synchronous mode, the wait did. -/
def FallsBackToPowerOff {σ : Type} (env : Env σ) (c : Client) (id : String) (w : World σ) :
    Prop :=
  let down := Request.executeNil
    { uri := env.pathJoin [env.apiServerBase, id, "shutdown"], method := MethodPatch } env c w
  let off := Request.executeNil
    { uri := env.pathJoin [env.apiServerBase, id, "power"],
      method := MethodPatch,
      body := some (Body.serverPowerUpdateRequest { Power := false }) } env c down.2
  down.1 ≠ none →
    c.ShutdownServer env id w = c.StopServer env id down.2 ∧
    (∀ e, off.1 = some e → c.ShutdownServer env id w = (some e, off.2)) ∧
    (off.1 = none → c.cfg.sync = true →
      c.ShutdownServer env id w = c.waitForServerPowerStatus env id false off.2) ∧
    (off.1 = none → c.cfg.sync = false → c.ShutdownServer env id w = (none, off.2)) ∧
    ((c.ShutdownServer env id w).1 = none ↔
      off.1 = none ∧
        (c.cfg.sync = true → (c.waitForServerPowerStatus env id false off.2).1 = none))

theorem OnlyExecutes.of_executeNil {σ : Type} {env : Env σ} {c : Client}
    {op : World σ → Option GoError × World σ} (r : Request)
    (h : ∀ w, op w = r.executeNil env c w) : OnlyExecutes env c op :=
  ⟨r, fun w => by rw [h w]; rfl⟩

theorem OnlyExecutes.of_execute {σ α : Type} [Decodable α] {env : Env σ} {c : Client}
    {op : World σ → (α × Option GoError) × World σ} (r : Request) (out : α)
    (h : ∀ w, ((op w).1.2, (op w).2) = ((r.execute env c out w).1.2, (r.execute env c out w).2)) :
    OnlyExecutes env c (dropResponse op) :=
  ⟨r, fun w => by simp only [dropResponse]; rw [h w]; rfl⟩

/-- C1.  In asynchronous mode (`cfg.sync = false`) every mutating operation, called
with identifiers that pass its validation, calls the request executor exactly
once, calls neither the completion waiter nor a poller, and returns exactly the
executor's error. -/
theorem async_mutating_operation_only_executes {σ : Type} (env : Env σ) (c : Client)
    (hs : c.cfg.sync = false) :
    (∀ body, OnlyExecutes env c (dropResponse (c.CreateNetwork env body))) ∧
    (∀ id body, env.isValidUUID id = true → OnlyExecutes env c (c.UpdateNetwork env id body)) ∧
    (∀ id, env.isValidUUID id = true → OnlyExecutes env c (c.DeleteNetwork env id)) ∧
    (∀ body, OnlyExecutes env c (dropResponse (c.CreateStorage env body))) ∧
    (∀ id body, env.isValidUUID id = true → OnlyExecutes env c (c.UpdateStorage env id body)) ∧
    (∀ id, env.isValidUUID id = true → OnlyExecutes env c (c.DeleteStorage env id)) ∧
    (∀ body, OnlyExecutes env c (dropResponse (c.CreateTemplate env body))) ∧
    (∀ id body, env.isValidUUID id = true → OnlyExecutes env c (c.UpdateTemplate env id body)) ∧
    (∀ id, env.isValidUUID id = true → OnlyExecutes env c (c.DeleteTemplate env id)) ∧
    (∀ body, OnlyExecutes env c (dropResponse (c.CreateSshkey env body))) ∧
    (∀ id body, env.isValidUUID id = true → OnlyExecutes env c (c.UpdateSshkey env id body)) ∧
    (∀ id, env.isValidUUID id = true → OnlyExecutes env c (c.DeleteSshkey env id)) ∧
    (∀ body, OnlyExecutes env c (dropResponse (c.CreateLabel env body))) ∧
    (∀ label, label ≠ "" → OnlyExecutes env c (c.DeleteLabel env label)) ∧
    (∀ id body, env.isValidUUID id = true →
        OnlyExecutes env c (dropResponse (c.CreateStorageSnapshot env id body))) ∧
    (∀ storageID snapshotID body, env.isValidUUID storageID = true → env.isValidUUID snapshotID = true →
        OnlyExecutes env c (c.UpdateStorageSnapshot env storageID snapshotID body)) ∧
    (∀ storageID snapshotID, env.isValidUUID storageID = true → env.isValidUUID snapshotID = true →
        OnlyExecutes env c (c.DeleteStorageSnapshot env storageID snapshotID)) ∧
    (∀ storageID snapshotID body, env.isValidUUID storageID = true → env.isValidUUID snapshotID = true →
        OnlyExecutes env c (c.RollbackStorage env storageID snapshotID body)) ∧
    (∀ storageID snapshotID body, env.isValidUUID storageID = true → env.isValidUUID snapshotID = true →
        OnlyExecutes env c (c.ExportStorageSnapshotToS3 env storageID snapshotID body)) ∧
    (∀ body, OnlyExecutes env c (dropResponse (c.CreatePaaSService env body))) ∧
    (∀ id body, env.isValidUUID id = true → OnlyExecutes env c (c.UpdatePaaSService env id body)) ∧
    (∀ id, env.isValidUUID id = true → OnlyExecutes env c (c.DeletePaaSService env id)) ∧
    (∀ body, OnlyExecutes env c (dropResponse (c.CreatePaaSSecurityZone env body))) ∧
    (∀ id body, env.isValidUUID id = true →
        OnlyExecutes env c (c.UpdatePaaSSecurityZone env id body)) ∧
    (∀ id, env.isValidUUID id = true → OnlyExecutes env c (c.DeletePaaSSecurityZone env id)) ∧
    (OnlyExecutes env c (dropResponse (c.CreateObjectStorageAccessKey env))) ∧
    (∀ id, stringsTrimSpace id ≠ "" → OnlyExecutes env c (c.DeleteObjectStorageAccessKey env id)) ∧
    (∀ serverID isoImageID body, env.isValidUUID serverID = true → env.isValidUUID isoImageID = true →
        OnlyExecutes env c (c.UpdateServerIsoImage env serverID isoImageID body)) ∧
    (∀ id body, env.isValidUUID id = true → env.isValidUUID body.ObjectUUID = true →
        OnlyExecutes env c (c.CreateServerIsoImage env id body)) ∧
    (∀ serverID isoImageID, env.isValidUUID serverID = true → env.isValidUUID isoImageID = true →
        OnlyExecutes env c (c.DeleteServerIsoImage env serverID isoImageID)) ∧
    (∀ serverID networkID body, env.isValidUUID serverID = true → env.isValidUUID networkID = true →
        OnlyExecutes env c (c.UpdateServerNetwork env serverID networkID body)) ∧
    (∀ id body, env.isValidUUID id = true → env.isValidUUID body.ObjectUUID = true →
        OnlyExecutes env c (c.CreateServerNetwork env id body)) ∧
    (∀ serverID networkID, env.isValidUUID serverID = true → env.isValidUUID networkID = true →
        OnlyExecutes env c (c.DeleteServerNetwork env serverID networkID)) ∧
    (∀ id body, id ≠ "" → body.ObjectUUID ≠ "" →
        OnlyExecutes env c (c.CreateServerIP env id body)) ∧
    (∀ serverID ipID, serverID ≠ "" → ipID ≠ "" →
        OnlyExecutes env c (c.DeleteServerIP env serverID ipID)) ∧
    (∀ serverId storageId body,
        OnlyExecutes env c (c.UpdateServerStorage env serverId storageId body)) ∧
    (∀ id body, OnlyExecutes env c (c.CreateServerStorage env id body)) ∧
    (∀ serverId storageId, OnlyExecutes env c (c.DeleteServerStorage env serverId storageId)) := by
  refine ⟨?_, ?_, ?_, ?_, ?_, ?_, ?_, ?_, ?_, ?_, ?_, ?_, ?_, ?_, ?_, ?_, ?_, ?_, ?_,
    ?_, ?_, ?_, ?_, ?_, ?_, ?_, ?_, ?_, ?_, ?_, ?_, ?_, ?_, ?_, ?_, ?_, ?_, ?_⟩
  · intro body
    refine OnlyExecutes.of_execute
      { uri := env.apiNetworkBase, method := MethodPost,
        body := some (Body.networkCreateRequest body) }
      ({} : NetworkCreateResponse) (fun w => ?_)
    simp only [Client.CreateNetwork, hs, Bool.not_true, Bool.false_eq_true, ↓reduceIte]
    split <;> rename_i heq <;> simp only [Bool.false_eq_true, ↓reduceIte] <;> rw [heq]
  · intro id body h1
    apply OnlyExecutes.of_executeNil
    intro w
    simp only [Client.UpdateNetwork, hs, h1,
      Bool.not_true, Bool.false_eq_true, Bool.or_self, ↓reduceIte, beq_iff_eq,
      Bool.or_eq_true, or_self, ne_eq]
    rfl
  · intro id h1
    apply OnlyExecutes.of_executeNil
    intro w
    simp only [Client.DeleteNetwork, hs, h1,
      Bool.not_true, Bool.false_eq_true, Bool.or_self, ↓reduceIte, beq_iff_eq,
      Bool.or_eq_true, or_self, ne_eq]
    rfl
  · intro body
    refine OnlyExecutes.of_execute
      { uri := env.apiStorageBase, method := MethodPost,
        body := some (Body.storageCreateRequest body) }
      ({} : CreateResponse) (fun w => ?_)
    simp only [Client.CreateStorage, hs, Bool.not_true, Bool.false_eq_true, ↓reduceIte]
    split <;> rename_i heq <;> simp only [Bool.false_eq_true, ↓reduceIte] <;> rw [heq]
  · intro id body h1
    apply OnlyExecutes.of_executeNil
    intro w
    simp only [Client.UpdateStorage, hs, h1,
      Bool.not_true, Bool.false_eq_true, Bool.or_self, ↓reduceIte, beq_iff_eq,
      Bool.or_eq_true, or_self, ne_eq]
    rfl
  · intro id h1
    apply OnlyExecutes.of_executeNil
    intro w
    simp only [Client.DeleteStorage, hs, h1,
      Bool.not_true, Bool.false_eq_true, Bool.or_self, ↓reduceIte, beq_iff_eq,
      Bool.or_eq_true, or_self, ne_eq]
    rfl
  · intro body
    refine OnlyExecutes.of_execute
      { uri := env.apiTemplateBase, method := MethodPost,
        body := some (Body.templateCreateRequest body) }
      ({} : CreateResponse) (fun w => ?_)
    simp only [Client.CreateTemplate, hs, Bool.not_true, Bool.false_eq_true, ↓reduceIte]
    split <;> rename_i heq <;> simp only [Bool.false_eq_true, ↓reduceIte] <;> rw [heq]
  · intro id body h1
    apply OnlyExecutes.of_executeNil
    intro w
    simp only [Client.UpdateTemplate, hs, h1,
      Bool.not_true, Bool.false_eq_true, Bool.or_self, ↓reduceIte, beq_iff_eq,
      Bool.or_eq_true, or_self, ne_eq]
    rfl
  · intro id h1
    apply OnlyExecutes.of_executeNil
    intro w
    simp only [Client.DeleteTemplate, hs, h1,
      Bool.not_true, Bool.false_eq_true, Bool.or_self, ↓reduceIte, beq_iff_eq,
      Bool.or_eq_true, or_self, ne_eq]
    rfl
  · intro body
    refine OnlyExecutes.of_execute
      { uri := env.apiSshkeyBase, method := "POST",
        body := some (Body.sshkeyCreateRequest body) }
      ({} : CreateResponse) (fun w => ?_)
    simp only [Client.CreateSshkey, hs, Bool.not_true, Bool.false_eq_true, ↓reduceIte]
    split <;> rename_i heq <;> simp only [Bool.false_eq_true, ↓reduceIte] <;> rw [heq]
  · intro id body h1
    apply OnlyExecutes.of_executeNil
    intro w
    simp only [Client.UpdateSshkey, hs, h1,
      Bool.not_true, Bool.false_eq_true, Bool.or_self, ↓reduceIte, beq_iff_eq,
      Bool.or_eq_true, or_self, ne_eq]
    rfl
  · intro id h1
    apply OnlyExecutes.of_executeNil
    intro w
    simp only [Client.DeleteSshkey, hs, h1,
      Bool.not_true, Bool.false_eq_true, Bool.or_self, ↓reduceIte, beq_iff_eq,
      Bool.or_eq_true, or_self, ne_eq]
    rfl
  · intro body
    refine OnlyExecutes.of_execute
      { uri := env.apiLabelBase, method := MethodPost,
        body := some (Body.labelCreateRequest body) }
      ({} : CreateResponse) (fun w => ?_)
    simp only [Client.CreateLabel, hs, Bool.not_true, Bool.false_eq_true, ↓reduceIte]
    split <;> rename_i heq <;> simp only [Bool.false_eq_true, ↓reduceIte] <;> rw [heq]
  · intro label h1
    apply OnlyExecutes.of_executeNil
    intro w
    simp only [Client.DeleteLabel, hs, h1,
      Bool.not_true, Bool.false_eq_true, Bool.or_self, ↓reduceIte, beq_iff_eq,
      Bool.or_eq_true, or_self, ne_eq]
    rfl
  · intro id body h1
    refine OnlyExecutes.of_execute
      { uri := env.pathJoin [env.apiStorageBase, id, "snapshots"], method := MethodPost,
        body := some (Body.storageSnapshotCreateRequest body) }
      ({} : StorageSnapshotCreateResponse) (fun w => ?_)
    simp only [Client.CreateStorageSnapshot, hs, h1, Bool.not_true, Bool.false_eq_true, ↓reduceIte]
    split <;> rename_i heq <;> simp only [Bool.false_eq_true, ↓reduceIte] <;> rw [heq]
  · intro storageID snapshotID body h1 h2
    apply OnlyExecutes.of_executeNil
    intro w
    simp only [Client.UpdateStorageSnapshot, hs, h1, h2,
      Bool.not_true, Bool.false_eq_true, Bool.or_self, ↓reduceIte, beq_iff_eq,
      Bool.or_eq_true, or_self, ne_eq]
    rfl
  · intro storageID snapshotID h1 h2
    apply OnlyExecutes.of_executeNil
    intro w
    simp only [Client.DeleteStorageSnapshot, hs, h1, h2,
      Bool.not_true, Bool.false_eq_true, Bool.or_self, ↓reduceIte, beq_iff_eq,
      Bool.or_eq_true, or_self, ne_eq]
    rfl
  · intro storageID snapshotID body h1 h2
    apply OnlyExecutes.of_executeNil
    intro w
    simp only [Client.RollbackStorage, hs, h1, h2,
      Bool.not_true, Bool.false_eq_true, Bool.or_self, ↓reduceIte, beq_iff_eq,
      Bool.or_eq_true, or_self, ne_eq]
    rfl
  · intro storageID snapshotID body h1 h2
    apply OnlyExecutes.of_executeNil
    intro w
    simp only [Client.ExportStorageSnapshotToS3, hs, h1, h2,
      Bool.not_true, Bool.false_eq_true, Bool.or_self, ↓reduceIte, beq_iff_eq,
      Bool.or_eq_true, or_self, ne_eq]
    rfl
  · intro body
    refine OnlyExecutes.of_execute
      { uri := env.pathJoin [env.apiPaaSBase, "services"], method := MethodPost,
        body := some (Body.paaSServiceCreateRequest body) }
      ({} : PaaSServiceCreateResponse) (fun w => ?_)
    simp only [Client.CreatePaaSService, hs, Bool.not_true, Bool.false_eq_true, ↓reduceIte]
    split <;> rename_i heq <;> simp only [Bool.false_eq_true, ↓reduceIte] <;> rw [heq]
  · intro id body h1
    apply OnlyExecutes.of_executeNil
    intro w
    simp only [Client.UpdatePaaSService, hs, h1,
      Bool.not_true, Bool.false_eq_true, Bool.or_self, ↓reduceIte, beq_iff_eq,
      Bool.or_eq_true, or_self, ne_eq]
    rfl
  · intro id h1
    apply OnlyExecutes.of_executeNil
    intro w
    simp only [Client.DeletePaaSService, hs, h1,
      Bool.not_true, Bool.false_eq_true, Bool.or_self, ↓reduceIte, beq_iff_eq,
      Bool.or_eq_true, or_self, ne_eq]
    rfl
  · intro body
    refine OnlyExecutes.of_execute
      { uri := env.pathJoin [env.apiPaaSBase, "security_zones"], method := MethodPost,
        body := some (Body.paaSSecurityZoneCreateRequest body) }
      ({} : PaaSSecurityZoneCreateResponse) (fun w => ?_)
    simp only [Client.CreatePaaSSecurityZone, hs, Bool.not_true, Bool.false_eq_true, ↓reduceIte]
    split <;> rename_i heq <;> simp only [Bool.false_eq_true, ↓reduceIte] <;> rw [heq]
  · intro id body h1
    apply OnlyExecutes.of_executeNil
    intro w
    simp only [Client.UpdatePaaSSecurityZone, hs, h1,
      Bool.not_true, Bool.false_eq_true, Bool.or_self, ↓reduceIte, beq_iff_eq,
      Bool.or_eq_true, or_self, ne_eq]
    rfl
  · intro id h1
    apply OnlyExecutes.of_executeNil
    intro w
    simp only [Client.DeletePaaSSecurityZone, hs, h1,
      Bool.not_true, Bool.false_eq_true, Bool.or_self, ↓reduceIte, beq_iff_eq,
      Bool.or_eq_true, or_self, ne_eq]
    rfl
  · refine OnlyExecutes.of_execute
      { uri := env.pathJoin [env.apiObjectStorageBase, "access_keys"], method := MethodPost }
      ({} : ObjectStorageAccessKeyCreateResponse) (fun w => ?_)
    simp only [Client.CreateObjectStorageAccessKey, hs, Bool.not_true, Bool.false_eq_true, ↓reduceIte]
    split <;> rename_i heq <;> simp only [Bool.false_eq_true, ↓reduceIte] <;> rw [heq]
  · intro id h1
    apply OnlyExecutes.of_executeNil
    intro w
    simp only [Client.DeleteObjectStorageAccessKey, hs, h1,
      Bool.not_true, Bool.false_eq_true, Bool.or_self, ↓reduceIte, beq_iff_eq,
      Bool.or_eq_true, or_self, ne_eq]
    rfl
  · intro serverID isoImageID body h1 h2
    apply OnlyExecutes.of_executeNil
    intro w
    simp only [Client.UpdateServerIsoImage, hs, h1, h2,
      Bool.not_true, Bool.false_eq_true, Bool.or_self, ↓reduceIte, beq_iff_eq,
      Bool.or_eq_true, or_self, ne_eq]
    rfl
  · intro id body h1 h2
    apply OnlyExecutes.of_executeNil
    intro w
    simp only [Client.CreateServerIsoImage, hs, h1, h2,
      Bool.not_true, Bool.false_eq_true, Bool.or_self, ↓reduceIte, beq_iff_eq,
      Bool.or_eq_true, or_self, ne_eq]
    rfl
  · intro serverID isoImageID h1 h2
    apply OnlyExecutes.of_executeNil
    intro w
    simp only [Client.DeleteServerIsoImage, hs, h1, h2,
      Bool.not_true, Bool.false_eq_true, Bool.or_self, ↓reduceIte, beq_iff_eq,
      Bool.or_eq_true, or_self, ne_eq]
    rfl
  · intro serverID networkID body h1 h2
    apply OnlyExecutes.of_executeNil
    intro w
    simp only [Client.UpdateServerNetwork, hs, h1, h2,
      Bool.not_true, Bool.false_eq_true, Bool.or_self, ↓reduceIte, beq_iff_eq,
      Bool.or_eq_true, or_self, ne_eq]
    rfl
  · intro id body h1 h2
    apply OnlyExecutes.of_executeNil
    intro w
    simp only [Client.CreateServerNetwork, hs, h1, h2,
      Bool.not_true, Bool.false_eq_true, Bool.or_self, ↓reduceIte, beq_iff_eq,
      Bool.or_eq_true, or_self, ne_eq]
    rfl
  · intro serverID networkID h1 h2
    apply OnlyExecutes.of_executeNil
    intro w
    simp only [Client.DeleteServerNetwork, hs, h1, h2,
      Bool.not_true, Bool.false_eq_true, Bool.or_self, ↓reduceIte, beq_iff_eq,
      Bool.or_eq_true, or_self, ne_eq]
    rfl
  · intro id body h1 h2
    apply OnlyExecutes.of_executeNil
    intro w
    simp only [Client.CreateServerIP, hs, h1, h2,
      Bool.not_true, Bool.false_eq_true, Bool.or_self, ↓reduceIte, beq_iff_eq,
      Bool.or_eq_true, or_self, ne_eq]
    rfl
  · intro serverID ipID h1 h2
    apply OnlyExecutes.of_executeNil
    intro w
    simp only [Client.DeleteServerIP, hs, h1, h2,
      Bool.not_true, Bool.false_eq_true, Bool.or_self, ↓reduceIte, beq_iff_eq,
      Bool.or_eq_true, or_self, ne_eq]
    rfl
  · intro serverId storageId body
    apply OnlyExecutes.of_executeNil
    intro w
    simp only [Client.UpdateServerStorage, hs,
      Bool.not_true, Bool.false_eq_true, Bool.or_self, ↓reduceIte, beq_iff_eq,
      Bool.or_eq_true, or_self, ne_eq]
    rfl
  · intro id body
    apply OnlyExecutes.of_executeNil
    intro w
    simp only [Client.CreateServerStorage, hs,
      Bool.not_true, Bool.false_eq_true, Bool.or_self, ↓reduceIte, beq_iff_eq,
      Bool.or_eq_true, or_self, ne_eq]
    rfl
  · intro serverId storageId
    apply OnlyExecutes.of_executeNil
    intro w
    simp only [Client.DeleteServerStorage, hs,
      Bool.not_true, Bool.false_eq_true, Bool.or_self, ↓reduceIte, beq_iff_eq,
      Bool.or_eq_true, or_self, ne_eq]
    rfl

/-- C1 at a concrete input: the asynchronous client of the tests deletes the network
`dummyUUID`; on a mux that answers the DELETE, the one call made is that request
and no error comes back. -/
theorem async_mutating_operation_only_executes_witness :
    (testClient false).cfg.sync = false ∧ testEnv.isValidUUID dummyUUID = true ∧
    OnlyExecutes testEnv (testClient false) ((testClient false).DeleteNetwork testEnv dummyUUID) ∧
    ((testClient false).DeleteNetwork testEnv dummyUUID
      (testWorld false [(MethodDelete, "/objects/networks/" ++ dummyUUID, Payload.empty)])).1 =
      none ∧
    ((testClient false).DeleteNetwork testEnv dummyUUID
      (testWorld false
        [(MethodDelete, "/objects/networks/" ++ dummyUUID, Payload.empty)])).2.trace =
      [Event.execute
        { uri := "/objects/networks/690de890-13c0-4e76-8a01-e10ba8786e53", method := "DELETE" }] :=
  ⟨rfl, by decide,
    (async_mutating_operation_only_executes testEnv (testClient false) rfl).2.2.1 dummyUUID
      (by decide),
    rfl, rfl⟩

/-- The trace after a call of the executor and a call of the completion waiter. -/
theorem trace_execute_waitForRequestCompleted {σ α : Type} [Decodable α] {env : Env σ}
    {c : Client} {r : Request} {zero response : α} {err : Option GoError} {w w1 : World σ}
    (heq : r.execute env c zero w = ((response, err), w1)) (id : String) :
    (c.waitForRequestCompleted env id w1).2.trace =
      w.trace ++ [Event.execute r, Event.waitForRequestCompleted id] := by
  have hw := congrArg (fun x => x.2.trace) heq
  simp only [Request.execute] at hw
  simp only [Client.waitForRequestCompleted, ← hw, List.append_assoc, List.singleton_append]

/-- C2.  In synchronous mode every create operation whose executor call succeeds
calls the completion waiter exactly once, with the `RequestUUID` decoded from
the response, and returns the decoded response unchanged together with the
waiter's result, whatever that result is. -/
theorem sync_create_waits_for_request {σ : Type} (env : Env σ) (c : Client)
    (hs : c.cfg.sync = true) :
    (∀ body, WaitsForRequest env c ({} : NetworkCreateResponse) (fun r => r.RequestUUID)
        (c.CreateNetwork env body)) ∧
    (∀ body, WaitsForRequest env c ({} : CreateResponse) (fun r => r.RequestUUID)
        (c.CreateStorage env body)) ∧
    (∀ body, WaitsForRequest env c ({} : CreateResponse) (fun r => r.RequestUUID)
        (c.CreateTemplate env body)) ∧
    (∀ body, WaitsForRequest env c ({} : CreateResponse) (fun r => r.RequestUUID)
        (c.CreateSshkey env body)) ∧
    (∀ body, WaitsForRequest env c ({} : CreateResponse) (fun r => r.RequestUUID)
        (c.CreateLabel env body)) ∧
    (∀ id body, env.isValidUUID id = true →
      WaitsForRequest env c ({} : StorageSnapshotCreateResponse) (fun r => r.RequestUUID)
        (c.CreateStorageSnapshot env id body)) ∧
    (∀ body, WaitsForRequest env c ({} : PaaSServiceCreateResponse) (fun r => r.RequestUUID)
        (c.CreatePaaSService env body)) ∧
    (∀ body, WaitsForRequest env c ({} : PaaSSecurityZoneCreateResponse) (fun r => r.RequestUUID)
        (c.CreatePaaSSecurityZone env body)) ∧
    WaitsForRequest env c ({} : ObjectStorageAccessKeyCreateResponse) (fun r => r.RequestUUID)
      (c.CreateObjectStorageAccessKey env) := by
  refine ⟨?_, ?_, ?_, ?_, ?_, ?_, ?_, ?_, ?_⟩
  · intro body
    refine ⟨
      { uri := env.apiNetworkBase, method := MethodPost,
        body := some (Body.networkCreateRequest body) },
      fun w => ?_⟩
    intro ex hex wt
    simp only [Client.CreateNetwork, hs, ↓reduceIte]
    split <;> rename_i heq
    · simp only [ex, heq] at hex
      cases hex
    · simp only [ex, wt, heq]
      exact ⟨trivial, trace_execute_waitForRequestCompleted heq _⟩
  · intro body
    refine ⟨
      { uri := env.apiStorageBase, method := MethodPost,
        body := some (Body.storageCreateRequest body) },
      fun w => ?_⟩
    intro ex hex wt
    simp only [Client.CreateStorage, hs, ↓reduceIte]
    split <;> rename_i heq
    · simp only [ex, heq] at hex
      cases hex
    · simp only [ex, wt, heq]
      exact ⟨trivial, trace_execute_waitForRequestCompleted heq _⟩
  · intro body
    refine ⟨
      { uri := env.apiTemplateBase, method := MethodPost,
        body := some (Body.templateCreateRequest body) },
      fun w => ?_⟩
    intro ex hex wt
    simp only [Client.CreateTemplate, hs, ↓reduceIte]
    split <;> rename_i heq
    · simp only [ex, heq] at hex
      cases hex
    · simp only [ex, wt, heq]
      exact ⟨trivial, trace_execute_waitForRequestCompleted heq _⟩
  · intro body
    refine ⟨
      { uri := env.apiSshkeyBase, method := "POST",
        body := some (Body.sshkeyCreateRequest body) },
      fun w => ?_⟩
    intro ex hex wt
    simp only [Client.CreateSshkey, hs, ↓reduceIte]
    split <;> rename_i heq
    · simp only [ex, heq] at hex
      cases hex
    · simp only [ex, wt, heq]
      exact ⟨trivial, trace_execute_waitForRequestCompleted heq _⟩
  · intro body
    refine ⟨
      { uri := env.apiLabelBase, method := MethodPost,
        body := some (Body.labelCreateRequest body) },
      fun w => ?_⟩
    intro ex hex wt
    simp only [Client.CreateLabel, hs, ↓reduceIte]
    split <;> rename_i heq
    · simp only [ex, heq] at hex
      cases hex
    · simp only [ex, wt, heq]
      exact ⟨trivial, trace_execute_waitForRequestCompleted heq _⟩
  · intro id body hv
    refine ⟨
      { uri := env.pathJoin [env.apiStorageBase, id, "snapshots"], method := MethodPost,
        body := some (Body.storageSnapshotCreateRequest body) },
      fun w => ?_⟩
    intro ex hex wt
    simp only [Client.CreateStorageSnapshot, hs, hv, Bool.not_true, Bool.false_eq_true, ↓reduceIte]
    split <;> rename_i heq
    · simp only [ex, heq] at hex
      cases hex
    · simp only [ex, wt, heq]
      exact ⟨trivial, trace_execute_waitForRequestCompleted heq _⟩
  · intro body
    refine ⟨
      { uri := env.pathJoin [env.apiPaaSBase, "services"], method := MethodPost,
        body := some (Body.paaSServiceCreateRequest body) },
      fun w => ?_⟩
    intro ex hex wt
    simp only [Client.CreatePaaSService, hs, ↓reduceIte]
    split <;> rename_i heq
    · simp only [ex, heq] at hex
      cases hex
    · simp only [ex, wt, heq]
      exact ⟨trivial, trace_execute_waitForRequestCompleted heq _⟩
  · intro body
    refine ⟨
      { uri := env.pathJoin [env.apiPaaSBase, "security_zones"], method := MethodPost,
        body := some (Body.paaSSecurityZoneCreateRequest body) },
      fun w => ?_⟩
    intro ex hex wt
    simp only [Client.CreatePaaSSecurityZone, hs, ↓reduceIte]
    split <;> rename_i heq
    · simp only [ex, heq] at hex
      cases hex
    · simp only [ex, wt, heq]
      exact ⟨trivial, trace_execute_waitForRequestCompleted heq _⟩
  · refine ⟨
      { uri := env.pathJoin [env.apiObjectStorageBase, "access_keys"],
        method := MethodPost },
      fun w => ?_⟩
    intro ex hex wt
    simp only [Client.CreateObjectStorageAccessKey, hs, ↓reduceIte]
    split <;> rename_i heq
    · simp only [ex, heq] at hex
      cases hex
    · simp only [ex, wt, heq]
      exact ⟨trivial, trace_execute_waitForRequestCompleted heq _⟩

/-- C2 at a concrete input: the synchronous client of the tests creates a network
on the mux `networkCreateHandlers`; there the POST succeeds, the waiter is called
with the request id of the answer, and the answer comes back unchanged. -/
theorem sync_create_waits_for_request_witness :
    (testClient true).cfg.sync = true ∧
    WaitsForRequest testEnv (testClient true) ({} : NetworkCreateResponse)
      (fun r => r.RequestUUID) ((testClient true).CreateNetwork testEnv {}) ∧
    ((testClient true).CreateNetwork testEnv {} (testWorld false networkCreateHandlers)).1.2 =
      none ∧
    ((testClient true).CreateNetwork testEnv {}
      (testWorld false networkCreateHandlers)).1.1.RequestUUID = dummyRequestUUID ∧
    ((testClient true).CreateNetwork testEnv {}
      (testWorld false networkCreateHandlers)).1.1.ObjectUUID = dummyUUID ∧
    ((testClient true).CreateNetwork testEnv {} (testWorld false networkCreateHandlers)).2.trace =
      [Event.execute
        { uri := "/objects/networks", method := "POST", body := some (Body.networkCreateRequest {}) },
       Event.waitForRequestCompleted dummyRequestUUID] :=
  ⟨rfl, (sync_create_waits_for_request testEnv (testClient true) rfl).1 {}, rfl, rfl, rfl, rfl⟩

/-- C3.  For every client mode and every `serverID` and `isoImageID`,
`DeleteServerIsoImage` returns no error if and only if both identifiers pass
`isValidUUID`, the executor's DELETE succeeds and, in synchronous mode, the
poller `waitFor404Status` succeeds; that poller is called with GET on the URI
the DELETE was sent to.  When the executor fails in synchronous mode, its error
is returned unchanged and the only call made is the DELETE. -/
theorem deleteServerIsoImage_nil_iff {σ : Type} (env : Env σ) (c : Client)
    (serverID isoImageID : String) (w : World σ) :
    let uri := env.pathJoin [env.apiServerBase, serverID, "isoimages", isoImageID]
    let r : Request := { uri := uri, method := MethodDelete }
    let ex := r.executeNil env c w
    let poll := c.waitFor404Status env uri MethodGet ex.2
    ((c.DeleteServerIsoImage env serverID isoImageID w).1 = none ↔
      env.isValidUUID serverID = true ∧ env.isValidUUID isoImageID = true ∧ ex.1 = none ∧
        (c.cfg.sync = true → poll.1 = none)) ∧
    (c.cfg.sync = true → env.isValidUUID serverID = true → env.isValidUUID isoImageID = true →
      ex.1 = none →
        c.DeleteServerIsoImage env serverID isoImageID w = poll ∧
        poll.2.trace = w.trace ++ [Event.execute r, Event.waitFor404Status uri MethodGet]) ∧
    (c.cfg.sync = true → env.isValidUUID serverID = true → env.isValidUUID isoImageID = true →
      ∀ err, ex.1 = some err →
        c.DeleteServerIsoImage env serverID isoImageID w = (some err, ex.2) ∧
        ex.2.trace = w.trace ++ [Event.execute r]) := by
  intro uri r ex poll
  have htr : ex.2.trace = w.trace ++ [Event.execute r] := rfl
  have hpoll : poll.2.trace = w.trace ++ [Event.execute r, Event.waitFor404Status uri MethodGet] := by
    show (w.trace ++ [Event.execute r]) ++ [Event.waitFor404Status uri MethodGet] = _
    simp
  have hex : r.executeNil env c w = ex := rfl
  have hp : c.waitFor404Status env uri MethodGet ex.2 = poll := rfl
  clear_value poll
  clear_value ex
  obtain ⟨e, w1⟩ := ex
  cases hs : c.cfg.sync <;> cases h1 : env.isValidUUID serverID <;>
    cases h2 : env.isValidUUID isoImageID <;> cases e <;>
    simp_all [Client.DeleteServerIsoImage, Client.waitForServerISOImageRelDeleted, uri, r]

/-- C3 at a concrete input: on a mux where the relation answers DELETE and a GET of
it is not found, the synchronous client of the tests unlinks the ISO image
without error. -/
theorem deleteServerIsoImage_nil_iff_witness :
    ((testClient true).DeleteServerIsoImage testEnv dummyUUID dummyUUID
      (testWorld false
        [(MethodDelete, "/objects/servers/" ++ dummyUUID ++ "/isoimages/" ++ dummyUUID,
          Payload.empty)])).1 = none :=
  (deleteServerIsoImage_nil_iff testEnv (testClient true) dummyUUID dummyUUID
    (testWorld false
      [(MethodDelete, "/objects/servers/" ++ dummyUUID ++ "/isoimages/" ++ dummyUUID,
        Payload.empty)])).1.mpr ⟨by decide, by decide, rfl, fun _ => rfl⟩

/-- C4.  In synchronous mode, for every id that passes the format check, each update
operation sends one PATCH; when the executor fails it returns the executor's
error without starting a poll, and otherwise it returns exactly the result of
the wait-for-active poller of the same resource id. -/
theorem sync_update_patches_then_polls {σ : Type} (env : Env σ) (c : Client)
    (hs : c.cfg.sync = true) :
    (∀ id body, env.isValidUUID id = true →
      PatchThenPoll env c (c.UpdateNetwork env id body)
        (c.waitForNetworkActive env id)) ∧
    (∀ id body, env.isValidUUID id = true →
      PatchThenPoll env c (c.UpdateStorage env id body)
        (c.waitForStorageActive env id)) ∧
    (∀ id body, env.isValidUUID id = true →
      PatchThenPoll env c (c.UpdateTemplate env id body)
        (c.waitForTemplateActive env id)) ∧
    (∀ id body, env.isValidUUID id = true →
      PatchThenPoll env c (c.UpdateSshkey env id body)
        (c.waitForSSHKeyActive env id)) ∧
    (∀ id body, env.isValidUUID id = true →
      PatchThenPoll env c (c.UpdatePaaSService env id body)
        (c.waitForPaaSServiceActive env id)) ∧
    (∀ id body, env.isValidUUID id = true →
      PatchThenPoll env c (c.UpdatePaaSSecurityZone env id body)
        (c.waitForSecurityZoneActive env id)) ∧
    (∀ storageID snapshotID body, env.isValidUUID storageID = true → env.isValidUUID snapshotID = true →
      PatchThenPoll env c (c.UpdateStorageSnapshot env storageID snapshotID body)
        (c.waitForSnapshotActive env storageID snapshotID)) := by
  refine ⟨?_, ?_, ?_, ?_, ?_, ?_, ?_⟩
  · intro id body h1
    refine ⟨
      { uri := env.pathJoin [env.apiNetworkBase, id], method := MethodPatch,
        body := some (Body.networkUpdateRequest body) },
      rfl, fun w => ?_⟩
    intro ex
    have hex : Request.executeNil _ env c w = ex := rfl
    have htr : ex.2.trace = w.trace ++ [Event.execute _] := rfl
    clear_value ex
    obtain ⟨e, w1⟩ := ex
    cases e <;> simp_all [Client.UpdateNetwork]
  · intro id body h1
    refine ⟨
      { uri := env.pathJoin [env.apiStorageBase, id], method := MethodPatch,
        body := some (Body.storageUpdateRequest body) },
      rfl, fun w => ?_⟩
    intro ex
    have hex : Request.executeNil _ env c w = ex := rfl
    have htr : ex.2.trace = w.trace ++ [Event.execute _] := rfl
    clear_value ex
    obtain ⟨e, w1⟩ := ex
    cases e <;> simp_all [Client.UpdateStorage]
  · intro id body h1
    refine ⟨
      { uri := env.pathJoin [env.apiTemplateBase, id], method := MethodPatch,
        body := some (Body.templateUpdateRequest body) },
      rfl, fun w => ?_⟩
    intro ex
    have hex : Request.executeNil _ env c w = ex := rfl
    have htr : ex.2.trace = w.trace ++ [Event.execute _] := rfl
    clear_value ex
    obtain ⟨e, w1⟩ := ex
    cases e <;> simp_all [Client.UpdateTemplate]
  · intro id body h1
    refine ⟨
      { uri := env.pathJoin [env.apiSshkeyBase, id], method := MethodPatch,
        body := some (Body.sshkeyUpdateRequest body) },
      rfl, fun w => ?_⟩
    intro ex
    have hex : Request.executeNil _ env c w = ex := rfl
    have htr : ex.2.trace = w.trace ++ [Event.execute _] := rfl
    clear_value ex
    obtain ⟨e, w1⟩ := ex
    cases e <;> simp_all [Client.UpdateSshkey]
  · intro id body h1
    refine ⟨
      { uri := env.pathJoin [env.apiPaaSBase, "services", id], method := MethodPatch,
        body := some (Body.paaSServiceUpdateRequest body) },
      rfl, fun w => ?_⟩
    intro ex
    have hex : Request.executeNil _ env c w = ex := rfl
    have htr : ex.2.trace = w.trace ++ [Event.execute _] := rfl
    clear_value ex
    obtain ⟨e, w1⟩ := ex
    cases e <;> simp_all [Client.UpdatePaaSService]
  · intro id body h1
    refine ⟨
      { uri := env.pathJoin [env.apiPaaSBase, "security_zones", id], method := MethodPatch,
        body := some (Body.paaSSecurityZoneUpdateRequest body) },
      rfl, fun w => ?_⟩
    intro ex
    have hex : Request.executeNil _ env c w = ex := rfl
    have htr : ex.2.trace = w.trace ++ [Event.execute _] := rfl
    clear_value ex
    obtain ⟨e, w1⟩ := ex
    cases e <;> simp_all [Client.UpdatePaaSSecurityZone]
  · intro storageID snapshotID body h1 h2
    refine ⟨
      { uri := env.pathJoin [env.apiStorageBase, storageID, "snapshots", snapshotID],
        method := MethodPatch, body := some (Body.storageSnapshotUpdateRequest body) },
      rfl, fun w => ?_⟩
    intro ex
    have hex : Request.executeNil _ env c w = ex := rfl
    have htr : ex.2.trace = w.trace ++ [Event.execute _] := rfl
    clear_value ex
    obtain ⟨e, w1⟩ := ex
    cases e <;> simp_all [Client.UpdateStorageSnapshot]

/-- C4 at a concrete input: the synchronous client of the tests updates the network
`dummyUUID`.  On a mux that reports the network active the update returns no
error; on a mux whose handlers fail, the error of the PATCH comes back and the
PATCH is the only call. -/
theorem sync_update_patches_then_polls_witness :
    (testClient true).cfg.sync = true ∧ testEnv.isValidUUID dummyUUID = true ∧
    PatchThenPoll testEnv (testClient true) ((testClient true).UpdateNetwork testEnv dummyUUID {})
      ((testClient true).waitForNetworkActive testEnv dummyUUID) ∧
    ((testClient true).UpdateNetwork testEnv dummyUUID {}
      (testWorld false (networkUpdateHandlers "active"))).1 = none ∧
    ((testClient true).UpdateNetwork testEnv dummyUUID {}
      (testWorld true (networkUpdateHandlers "active"))).1 =
      some (GoError.requestError 400 "Bad Request") ∧
    ((testClient true).UpdateNetwork testEnv dummyUUID {}
      (testWorld true (networkUpdateHandlers "active"))).2.trace =
      [Event.execute
        { uri := "/objects/networks/690de890-13c0-4e76-8a01-e10ba8786e53", method := "PATCH",
          body := some (Body.networkUpdateRequest {}) }] :=
  ⟨rfl, by decide,
    (sync_update_patches_then_polls testEnv (testClient true) rfl).1 dummyUUID {} (by decide),
    rfl, rfl, rfl⟩

/-- C5.  In synchronous mode, for every `serverID` and object UUID that pass the
format check, the creation of a relation (`CreateServerIsoImage`,
`CreateServerNetwork`, `CreateServerIP`, and `LinkIsoImage`, `LinkNetwork`,
`LinkIP` through them) returns no error only after the executor's POST succeeded
and `waitFor200Status` succeeded on GET of the path of the server base, the
`serverID`, the kind of relation and the object UUID; when the POST fails the
poller is not called.  `CreateServerIP` and `LinkIP` refuse an empty identifier
before any call. -/
theorem sync_relation_create_posts_then_waits {σ : Type} (env : Env σ) (c : Client)
    (hs : c.cfg.sync = true) :
    (∀ id body, env.isValidUUID id = true → env.isValidUUID body.ObjectUUID = true →
      PostThenWaitFor200 env c (env.pathJoin [env.apiServerBase, id, "isoimages", body.ObjectUUID])
        (c.CreateServerIsoImage env id body)) ∧
    (∀ id body, env.isValidUUID id = true → env.isValidUUID body.ObjectUUID = true →
      PostThenWaitFor200 env c (env.pathJoin [env.apiServerBase, id, "networks", body.ObjectUUID])
        (c.CreateServerNetwork env id body)) ∧
    (∀ id body, env.isValidUUID id = true → env.isValidUUID body.ObjectUUID = true →
      id ≠ "" → body.ObjectUUID ≠ "" →
      PostThenWaitFor200 env c (env.pathJoin [env.apiServerBase, id, "ips", body.ObjectUUID])
        (c.CreateServerIP env id body)) ∧
    (∀ id body, id = "" ∨ body.ObjectUUID = "" → Rejects (c.CreateServerIP env id body)) ∧
    (∀ serverID isoimageID, env.isValidUUID serverID = true → env.isValidUUID isoimageID = true →
      PostThenWaitFor200 env c (env.pathJoin [env.apiServerBase, serverID, "isoimages", isoimageID])
        (c.LinkIsoImage env serverID isoimageID)) ∧
    (∀ serverID networkID firewallTemplate bootdevice order l3security firewall,
      env.isValidUUID serverID = true → env.isValidUUID networkID = true →
      PostThenWaitFor200 env c (env.pathJoin [env.apiServerBase, serverID, "networks", networkID])
        (c.LinkNetwork env serverID networkID firewallTemplate bootdevice order l3security
          firewall)) ∧
    (∀ serverID ipID, env.isValidUUID serverID = true → env.isValidUUID ipID = true →
      serverID ≠ "" → ipID ≠ "" →
      PostThenWaitFor200 env c (env.pathJoin [env.apiServerBase, serverID, "ips", ipID])
        (c.LinkIP env serverID ipID)) ∧
    (∀ serverID ipID, serverID = "" ∨ ipID = "" → Rejects (c.LinkIP env serverID ipID)) := by
  refine ⟨?_, ?_, ?_, ?_, ?_, ?_, ?_, ?_⟩
  · intro id body h1 h2
    refine ⟨
      { uri := env.pathJoin [env.apiServerBase, id, "isoimages"], method := MethodPost,
        body := some (Body.serverIsoImageRelationCreateRequest body) },
      rfl, fun w => ?_⟩
    intro ex poll
    have hex : Request.executeNil _ env c w = ex := rfl
    have htr : ex.2.trace = w.trace ++ [Event.execute _] := rfl
    have hpoll : poll.2.trace = ex.2.trace ++ [Event.waitFor200Status _ MethodGet] := rfl
    have hp : c.waitFor200Status env _ MethodGet ex.2 = poll := rfl
    clear_value poll
    clear_value ex
    obtain ⟨e, w1⟩ := ex
    cases e <;> simp_all [Client.CreateServerIsoImage, Client.waitForServerISOImageRelCreation]
  · intro id body h1 h2
    refine ⟨
      { uri := env.pathJoin [env.apiServerBase, id, "networks"], method := MethodPost,
        body := some (Body.serverNetworkRelationCreateRequest body) },
      rfl, fun w => ?_⟩
    intro ex poll
    have hex : Request.executeNil _ env c w = ex := rfl
    have htr : ex.2.trace = w.trace ++ [Event.execute _] := rfl
    have hpoll : poll.2.trace = ex.2.trace ++ [Event.waitFor200Status _ MethodGet] := rfl
    have hp : c.waitFor200Status env _ MethodGet ex.2 = poll := rfl
    clear_value poll
    clear_value ex
    obtain ⟨e, w1⟩ := ex
    cases e <;> simp_all [Client.CreateServerNetwork, Client.waitForServerNetworkRelCreation]
  · intro id body h1 h2 h3 h4
    refine ⟨
      { uri := env.pathJoin [env.apiServerBase, id, "ips"], method := MethodPost,
        body := some (Body.serverIPRelationCreateRequest body) },
      rfl, fun w => ?_⟩
    intro ex poll
    have hex : Request.executeNil _ env c w = ex := rfl
    have htr : ex.2.trace = w.trace ++ [Event.execute _] := rfl
    have hpoll : poll.2.trace = ex.2.trace ++ [Event.waitFor200Status _ MethodGet] := rfl
    have hp : c.waitFor200Status env _ MethodGet ex.2 = poll := rfl
    clear_value poll
    clear_value ex
    obtain ⟨e, w1⟩ := ex
    cases e <;> simp_all [Client.CreateServerIP, Client.waitForServerIPRelCreation]
  · intro id body h w
    rcases h with h | h <;> simp [Client.CreateServerIP, h]
  · intro serverID isoimageID h1 h2
    refine ⟨
      { uri := env.pathJoin [env.apiServerBase, serverID, "isoimages"], method := MethodPost,
        body := some (Body.serverIsoImageRelationCreateRequest { ObjectUUID := isoimageID }) },
      rfl, fun w => ?_⟩
    intro ex poll
    have hex : Request.executeNil _ env c w = ex := rfl
    have htr : ex.2.trace = w.trace ++ [Event.execute _] := rfl
    have hpoll : poll.2.trace = ex.2.trace ++ [Event.waitFor200Status _ MethodGet] := rfl
    have hp : c.waitFor200Status env _ MethodGet ex.2 = poll := rfl
    clear_value poll
    clear_value ex
    obtain ⟨e, w1⟩ := ex
    cases e <;> simp_all [Client.LinkIsoImage, Client.CreateServerIsoImage, Client.waitForServerISOImageRelCreation]
  · intro serverID networkID firewallTemplate bootdevice order l3security firewall h1 h2
    refine ⟨
      { uri := env.pathJoin [env.apiServerBase, serverID, "networks"], method := MethodPost,
        body := some (Body.serverNetworkRelationCreateRequest
          { ObjectUUID := networkID, Ordering := order, BootDevice := bootdevice,
            L3security := l3security, FirewallTemplateUUID := firewallTemplate,
            Firewall := firewall }) },
      rfl, fun w => ?_⟩
    intro ex poll
    have hex : Request.executeNil _ env c w = ex := rfl
    have htr : ex.2.trace = w.trace ++ [Event.execute _] := rfl
    have hpoll : poll.2.trace = ex.2.trace ++ [Event.waitFor200Status _ MethodGet] := rfl
    have hp : c.waitFor200Status env _ MethodGet ex.2 = poll := rfl
    clear_value poll
    clear_value ex
    obtain ⟨e, w1⟩ := ex
    cases e <;> simp_all [Client.LinkNetwork, Client.CreateServerNetwork, Client.waitForServerNetworkRelCreation]
  · intro serverID ipID h1 h2 h3 h4
    refine ⟨
      { uri := env.pathJoin [env.apiServerBase, serverID, "ips"], method := MethodPost,
        body := some (Body.serverIPRelationCreateRequest { ObjectUUID := ipID }) },
      rfl, fun w => ?_⟩
    intro ex poll
    have hex : Request.executeNil _ env c w = ex := rfl
    have htr : ex.2.trace = w.trace ++ [Event.execute _] := rfl
    have hpoll : poll.2.trace = ex.2.trace ++ [Event.waitFor200Status _ MethodGet] := rfl
    have hp : c.waitFor200Status env _ MethodGet ex.2 = poll := rfl
    clear_value poll
    clear_value ex
    obtain ⟨e, w1⟩ := ex
    cases e <;> simp_all [Client.LinkIP, Client.CreateServerIP, Client.waitForServerIPRelCreation]
  · intro serverID ipID h w
    rcases h with h | h <;> simp [Client.LinkIP, Client.CreateServerIP, h]

/-- C5 at a concrete input: the synchronous client of the tests links the ISO image
`dummyUUID` to the server `dummyUUID`; on the mux `serverIsoImageHandlers` the
POST succeeds, the poller finds the relation, and no error comes back. -/
theorem sync_relation_create_posts_then_waits_witness :
    (testClient true).cfg.sync = true ∧ testEnv.isValidUUID dummyUUID = true ∧
    PostThenWaitFor200 testEnv (testClient true)
      (testEnv.pathJoin [testEnv.apiServerBase, dummyUUID, "isoimages", dummyUUID])
      ((testClient true).CreateServerIsoImage testEnv dummyUUID { ObjectUUID := dummyUUID }) ∧
    ((testClient true).CreateServerIsoImage testEnv dummyUUID { ObjectUUID := dummyUUID }
      (testWorld false serverIsoImageHandlers)).1 = none ∧
    ((testClient true).CreateServerIsoImage testEnv dummyUUID { ObjectUUID := dummyUUID }
      (testWorld false serverIsoImageHandlers)).2.trace =
      [Event.execute
        { uri := "/objects/servers/690de890-13c0-4e76-8a01-e10ba8786e53/isoimages",
          method := "POST",
          body := some (Body.serverIsoImageRelationCreateRequest { ObjectUUID := dummyUUID }) },
       Event.waitFor200Status
        "/objects/servers/690de890-13c0-4e76-8a01-e10ba8786e53/isoimages/690de890-13c0-4e76-8a01-e10ba8786e53"
        "GET"] :=
  ⟨rfl, by decide,
    (sync_relation_create_posts_then_waits testEnv (testClient true) rfl).1 dummyUUID
      { ObjectUUID := dummyUUID } (by decide) (by decide),
    rfl, rfl⟩

/-- C6 fails as stated.  The synchronous client of the tests creates a network on the
mux `networkCreateHandlers`, where the request is reported done while the new
network is still being provisioned: `CreateNetwork` returns no error, the calls
it made are the POST and the completion waiter, none of them a poller, and a Get
of the created network on the backend it left reports a status that is not the
active one. -/
theorem sync_create_returns_before_active :
    ((testClient true).CreateNetwork testEnv {} (testWorld false networkCreateHandlers)).1.2 = none ∧
    ((testClient true).CreateNetwork testEnv {} (testWorld false networkCreateHandlers)).2.trace =
      [Event.execute
        { uri := "/objects/networks", method := "POST", body := some (Body.networkCreateRequest {}) },
       Event.waitForRequestCompleted dummyRequestUUID] ∧
    ((testClient true).CreateNetwork testEnv {}
      (testWorld false networkCreateHandlers)).2.trace.any Event.isPoller = false ∧
    ((testClient true).GetNetwork testEnv
      ((testClient true).CreateNetwork testEnv {} (testWorld false networkCreateHandlers)).1.1.ObjectUUID
      ((testClient true).CreateNetwork testEnv {} (testWorld false networkCreateHandlers)).2).1.2
        = none ∧
    ((testClient true).GetNetwork testEnv
      ((testClient true).CreateNetwork testEnv {} (testWorld false networkCreateHandlers)).1.1.ObjectUUID
      ((testClient true).CreateNetwork testEnv {} (testWorld false networkCreateHandlers)).2).1.1.Properties.Status
        ≠ testEnv.resourceActiveStatus :=
  ⟨rfl, rfl, rfl, rfl, by decide⟩

/-- C6, as amended.  For every create operation in synchronous mode, a return
without error implies that the executor's request, which is a POST, succeeded and
that the completion waiter, called once with the `RequestUUID` of the decoded
response, succeeded; the operation returns the decoded response, and the calls
made are exactly these two: no wait-for-active poller runs and no Get is sent, so
the status of the created object is not observed. -/
theorem sync_create_nil_only_after_request_done {σ : Type} (env : Env σ) (c : Client)
    (hs : c.cfg.sync = true) :
    (∀ body, NilOnlyAfterRequestDone env c ({} : NetworkCreateResponse) (fun r => r.RequestUUID)
      (c.CreateNetwork env body)) ∧
    (∀ body, NilOnlyAfterRequestDone env c ({} : CreateResponse) (fun r => r.RequestUUID)
      (c.CreateStorage env body)) ∧
    (∀ body, NilOnlyAfterRequestDone env c ({} : CreateResponse) (fun r => r.RequestUUID)
      (c.CreateTemplate env body)) ∧
    (∀ body, NilOnlyAfterRequestDone env c ({} : CreateResponse) (fun r => r.RequestUUID)
      (c.CreateSshkey env body)) ∧
    (∀ id body, NilOnlyAfterRequestDone env c ({} : StorageSnapshotCreateResponse) (fun r => r.RequestUUID)
      (c.CreateStorageSnapshot env id body)) ∧
    (∀ body, NilOnlyAfterRequestDone env c ({} : PaaSServiceCreateResponse) (fun r => r.RequestUUID)
      (c.CreatePaaSService env body)) ∧
    (∀ body, NilOnlyAfterRequestDone env c ({} : PaaSSecurityZoneCreateResponse) (fun r => r.RequestUUID)
      (c.CreatePaaSSecurityZone env body)) := by
  refine ⟨?_, ?_, ?_, ?_, ?_, ?_, ?_⟩
  · intro body
    refine ⟨
      { uri := env.apiNetworkBase, method := MethodPost,
        body := some (Body.networkCreateRequest body) },
      rfl, fun w hnil => ?_⟩
    intro ex wt
    simp only [Client.CreateNetwork, hs, ↓reduceIte] at hnil ⊢
    split at hnil <;> rename_i heq
    · cases hnil
    · simp only [ex, wt, heq] at hnil ⊢
      exact ⟨trivial, hnil, trivial, trace_execute_waitForRequestCompleted heq _⟩
  · intro body
    refine ⟨
      { uri := env.apiStorageBase, method := MethodPost,
        body := some (Body.storageCreateRequest body) },
      rfl, fun w hnil => ?_⟩
    intro ex wt
    simp only [Client.CreateStorage, hs, ↓reduceIte] at hnil ⊢
    split at hnil <;> rename_i heq
    · cases hnil
    · simp only [ex, wt, heq] at hnil ⊢
      exact ⟨trivial, hnil, trivial, trace_execute_waitForRequestCompleted heq _⟩
  · intro body
    refine ⟨
      { uri := env.apiTemplateBase, method := MethodPost,
        body := some (Body.templateCreateRequest body) },
      rfl, fun w hnil => ?_⟩
    intro ex wt
    simp only [Client.CreateTemplate, hs, ↓reduceIte] at hnil ⊢
    split at hnil <;> rename_i heq
    · cases hnil
    · simp only [ex, wt, heq] at hnil ⊢
      exact ⟨trivial, hnil, trivial, trace_execute_waitForRequestCompleted heq _⟩
  · intro body
    refine ⟨
      { uri := env.apiSshkeyBase, method := "POST",
        body := some (Body.sshkeyCreateRequest body) },
      rfl, fun w hnil => ?_⟩
    intro ex wt
    simp only [Client.CreateSshkey, hs, ↓reduceIte] at hnil ⊢
    split at hnil <;> rename_i heq
    · cases hnil
    · simp only [ex, wt, heq] at hnil ⊢
      exact ⟨trivial, hnil, trivial, trace_execute_waitForRequestCompleted heq _⟩
  · intro id body
    refine ⟨
      { uri := env.pathJoin [env.apiStorageBase, id, "snapshots"], method := MethodPost,
        body := some (Body.storageSnapshotCreateRequest body) },
      rfl, fun w hnil => ?_⟩
    intro ex wt
    cases hv : env.isValidUUID id
    · simp [Client.CreateStorageSnapshot, hv] at hnil
    simp only [Client.CreateStorageSnapshot, hs, hv, Bool.not_true, Bool.false_eq_true, ↓reduceIte] at hnil ⊢
    split at hnil <;> rename_i heq
    · cases hnil
    · simp only [ex, wt, heq] at hnil ⊢
      exact ⟨trivial, hnil, trivial, trace_execute_waitForRequestCompleted heq _⟩
  · intro body
    refine ⟨
      { uri := env.pathJoin [env.apiPaaSBase, "services"], method := MethodPost,
        body := some (Body.paaSServiceCreateRequest body) },
      rfl, fun w hnil => ?_⟩
    intro ex wt
    simp only [Client.CreatePaaSService, hs, ↓reduceIte] at hnil ⊢
    split at hnil <;> rename_i heq
    · cases hnil
    · simp only [ex, wt, heq] at hnil ⊢
      exact ⟨trivial, hnil, trivial, trace_execute_waitForRequestCompleted heq _⟩
  · intro body
    refine ⟨
      { uri := env.pathJoin [env.apiPaaSBase, "security_zones"], method := MethodPost,
        body := some (Body.paaSSecurityZoneCreateRequest body) },
      rfl, fun w hnil => ?_⟩
    intro ex wt
    simp only [Client.CreatePaaSSecurityZone, hs, ↓reduceIte] at hnil ⊢
    split at hnil <;> rename_i heq
    · cases hnil
    · simp only [ex, wt, heq] at hnil ⊢
      exact ⟨trivial, hnil, trivial, trace_execute_waitForRequestCompleted heq _⟩

/-- C6, as amended, at a concrete input: the synchronous client of the tests creates
a network on the mux `networkCreateHandlers`, where it returns no error. -/
theorem sync_create_nil_only_after_request_done_witness :
    (testClient true).cfg.sync = true ∧
    NilOnlyAfterRequestDone testEnv (testClient true) ({} : NetworkCreateResponse)
      (fun r => r.RequestUUID) ((testClient true).CreateNetwork testEnv {}) ∧
    ((testClient true).CreateNetwork testEnv {} (testWorld false networkCreateHandlers)).1.2 =
      none :=
  ⟨rfl, (sync_create_nil_only_after_request_done testEnv (testClient true) rfl).1 {}, rfl⟩

/-- C7 fails as stated.  The synchronous client of the tests updates the relation
between the server `dummyUUID` and the ISO image `dummyUUID` on the mux
`serverIsoImageHandlers`: both identifiers pass the format check, the PATCH
succeeds, and `UpdateServerIsoImage` returns after that one call, without a call
of a poller. -/
theorem sync_updateServerIsoImage_calls_no_poller :
    (testClient true).cfg.sync = true ∧ testEnv.isValidUUID dummyUUID = true ∧
    ((testClient true).UpdateServerIsoImage testEnv dummyUUID dummyUUID
      { BootDevice := true, Name := "test" } (testWorld false serverIsoImageHandlers)).1 = none ∧
    ((testClient true).UpdateServerIsoImage testEnv dummyUUID dummyUUID
      { BootDevice := true, Name := "test" } (testWorld false serverIsoImageHandlers)).2.trace =
      [Event.execute
        { uri := "/objects/servers/690de890-13c0-4e76-8a01-e10ba8786e53/isoimages/690de890-13c0-4e76-8a01-e10ba8786e53",
          method := "PATCH",
          body := some (Body.serverIsoImageRelationUpdateRequest
            { BootDevice := true, Name := "test" }) }] ∧
    ((testClient true).UpdateServerIsoImage testEnv dummyUUID dummyUUID
      { BootDevice := true, Name := "test" }
      (testWorld false serverIsoImageHandlers)).2.trace.any Event.isPoller = false :=
  ⟨rfl, by decide, rfl, rfl, rfl⟩

/-- C7, as amended.  In synchronous mode, as in asynchronous mode,
`UpdateServerIsoImage`, `UpdateServerNetwork` and `UpdateServerStorage`, called
with identifiers that pass the format check, call the request executor exactly
once and return its error; they call no poller. -/
theorem relation_update_only_executes {σ : Type} (env : Env σ) (c : Client) :
    (∀ serverID isoImageID body, env.isValidUUID serverID = true → env.isValidUUID isoImageID = true →
      OnlyExecutes env c (c.UpdateServerIsoImage env serverID isoImageID body)) ∧
    (∀ serverID networkID body, env.isValidUUID serverID = true → env.isValidUUID networkID = true →
      OnlyExecutes env c (c.UpdateServerNetwork env serverID networkID body)) ∧
    (∀ serverId storageId body, env.isValidUUID serverId = true → env.isValidUUID storageId = true →
      OnlyExecutes env c (c.UpdateServerStorage env serverId storageId body)) := by
  refine ⟨?_, ?_, ?_⟩
  · intro serverID isoImageID body h1 h2
    apply OnlyExecutes.of_executeNil
    intro w
    simp only [Client.UpdateServerIsoImage, h1, h2, Bool.not_true, Bool.or_self,
      Bool.false_eq_true, ↓reduceIte]
    rfl
  · intro serverID networkID body h1 h2
    apply OnlyExecutes.of_executeNil
    intro w
    simp only [Client.UpdateServerNetwork, h1, h2, Bool.not_true, Bool.or_self,
      Bool.false_eq_true, ↓reduceIte]
    rfl
  · intro serverId storageId body _ _
    apply OnlyExecutes.of_executeNil
    intro w
    simp only [Client.UpdateServerStorage]
    rfl

/-- C7, as amended, at a concrete input: the synchronous client of the tests updates
the relation between the server `dummyUUID` and the ISO image `dummyUUID`. -/
theorem relation_update_only_executes_witness :
    testEnv.isValidUUID dummyUUID = true ∧
    OnlyExecutes testEnv (testClient true)
      ((testClient true).UpdateServerIsoImage testEnv dummyUUID dummyUUID
        { BootDevice := true, Name := "test" }) :=
  ⟨by decide,
    (relation_update_only_executes testEnv (testClient true)).1 dummyUUID dummyUUID
      { BootDevice := true, Name := "test" } (by decide) (by decide)⟩

/-- C8.  For every mutating operation that takes UUID identifiers and for both client
modes: when an identifier fails the format check `isValidUUID`, the operation
returns an error and the world is left as it was, so that neither the executor,
nor the completion waiter, nor a poller is called. -/
theorem invalid_uuid_rejected_before_any_call {σ : Type} (env : Env σ) (c : Client) :
    (∀ id body, env.isValidUUID id = false → Rejects (c.UpdateNetwork env id body)) ∧
    (∀ id, env.isValidUUID id = false → Rejects (c.DeleteNetwork env id)) ∧
    (∀ id body, env.isValidUUID id = false → Rejects (c.UpdateStorage env id body)) ∧
    (∀ id, env.isValidUUID id = false → Rejects (c.DeleteStorage env id)) ∧
    (∀ id body, env.isValidUUID id = false → Rejects (c.UpdateTemplate env id body)) ∧
    (∀ id, env.isValidUUID id = false → Rejects (c.DeleteTemplate env id)) ∧
    (∀ id body, env.isValidUUID id = false → Rejects (c.UpdateSshkey env id body)) ∧
    (∀ id, env.isValidUUID id = false → Rejects (c.DeleteSshkey env id)) ∧
    (∀ id body, env.isValidUUID id = false →
      Rejects (dropResponse (c.CreateStorageSnapshot env id body))) ∧
    (∀ storageID snapshotID body, env.isValidUUID storageID = false ∨ env.isValidUUID snapshotID = false →
      Rejects (c.UpdateStorageSnapshot env storageID snapshotID body)) ∧
    (∀ storageID snapshotID, env.isValidUUID storageID = false ∨ env.isValidUUID snapshotID = false →
      Rejects (c.DeleteStorageSnapshot env storageID snapshotID)) ∧
    (∀ storageID snapshotID body, env.isValidUUID storageID = false ∨ env.isValidUUID snapshotID = false →
      Rejects (c.RollbackStorage env storageID snapshotID body)) ∧
    (∀ storageID snapshotID body, env.isValidUUID storageID = false ∨ env.isValidUUID snapshotID = false →
      Rejects (c.ExportStorageSnapshotToS3 env storageID snapshotID body)) ∧
    (∀ serverID isoImageID body, env.isValidUUID serverID = false ∨ env.isValidUUID isoImageID = false →
      Rejects (c.UpdateServerIsoImage env serverID isoImageID body)) ∧
    (∀ id body, env.isValidUUID id = false ∨ env.isValidUUID body.ObjectUUID = false →
      Rejects (c.CreateServerIsoImage env id body)) ∧
    (∀ serverID isoImageID, env.isValidUUID serverID = false ∨ env.isValidUUID isoImageID = false →
      Rejects (c.DeleteServerIsoImage env serverID isoImageID)) := by
  refine ⟨?_, ?_, ?_, ?_, ?_, ?_, ?_, ?_, ?_, ?_, ?_, ?_, ?_, ?_, ?_, ?_⟩
  · intro id body h w
    simp [Client.UpdateNetwork, h]
  · intro id h w
    simp [Client.DeleteNetwork, h]
  · intro id body h w
    simp [Client.UpdateStorage, h]
  · intro id h w
    simp [Client.DeleteStorage, h]
  · intro id body h w
    simp [Client.UpdateTemplate, h]
  · intro id h w
    simp [Client.DeleteTemplate, h]
  · intro id body h w
    simp [Client.UpdateSshkey, h]
  · intro id h w
    simp [Client.DeleteSshkey, h]
  · intro id body h w
    simp [Client.CreateStorageSnapshot, h, dropResponse]
  · intro storageID snapshotID body h w
    rcases h with h | h <;> simp [Client.UpdateStorageSnapshot, h]
  · intro storageID snapshotID h w
    rcases h with h | h <;> simp [Client.DeleteStorageSnapshot, h]
  · intro storageID snapshotID body h w
    rcases h with h | h <;> simp [Client.RollbackStorage, h]
  · intro storageID snapshotID body h w
    rcases h with h | h <;> simp [Client.ExportStorageSnapshotToS3, h]
  · intro serverID isoImageID body h w
    rcases h with h | h <;> simp [Client.UpdateServerIsoImage, h]
  · intro id body h w
    rcases h with h | h <;> simp [Client.CreateServerIsoImage, h]
  · intro serverID isoImageID h w
    rcases h with h | h <;> simp [Client.DeleteServerIsoImage, h]

/-- C8 at a concrete input: the empty identifier fails the format check, and
`DeleteNetwork` refuses it. -/
theorem invalid_uuid_rejected_before_any_call_witness :
    testEnv.isValidUUID "" = false ∧
    Rejects ((testClient true).DeleteNetwork testEnv "") :=
  ⟨by decide,
    (invalid_uuid_rejected_before_any_call testEnv (testClient true)).2.1 "" (by decide)⟩

/-- C9.  For every Get operation that takes UUID identifiers: when an identifier
fails the format check `isValidUUID`, the operation returns an error together
with the zero value of its result, and the world is left as it was, so that the
request executor is not called. -/
theorem get_invalid_uuid_rejected_with_zero {σ : Type} (env : Env σ) (c : Client) :
    (∀ id, env.isValidUUID id = false → RejectsWithZero ({} : Network) (c.GetNetwork env id)) ∧
    (∀ id, env.isValidUUID id = false → RejectsWithZero ({} : Storage) (c.GetStorage env id)) ∧
    (∀ id, env.isValidUUID id = false → RejectsWithZero ({} : Template) (c.GetTemplate env id)) ∧
    (∀ id, env.isValidUUID id = false → RejectsWithZero ({} : Sshkey) (c.GetSshkey env id)) ∧
    (∀ id, env.isValidUUID id = false →
      RejectsWithZero ({} : PaaSService) (c.GetPaaSService env id)) ∧
    (∀ id, env.isValidUUID id = false →
      RejectsWithZero ({} : PaaSSecurityZone) (c.GetPaaSSecurityZone env id)) ∧
    (∀ storageID snapshotID, env.isValidUUID storageID = false ∨ env.isValidUUID snapshotID = false →
      RejectsWithZero ({} : StorageSnapshot) (c.GetStorageSnapshot env storageID snapshotID)) ∧
    (∀ serverID isoImageID, env.isValidUUID serverID = false ∨ env.isValidUUID isoImageID = false →
      RejectsWithZero ({} : ServerIsoImageRelationProperties) (c.GetServerIsoImage env serverID isoImageID)) ∧
    (∀ serverID networkID, env.isValidUUID serverID = false ∨ env.isValidUUID networkID = false →
      RejectsWithZero ({} : ServerNetworkRelationProperties) (c.GetServerNetwork env serverID networkID)) := by
  refine ⟨?_, ?_, ?_, ?_, ?_, ?_, ?_, ?_, ?_⟩
  · intro id h w
    simp [Client.GetNetwork, h]
  · intro id h w
    simp [Client.GetStorage, h]
  · intro id h w
    simp [Client.GetTemplate, h]
  · intro id h w
    simp [Client.GetSshkey, h]
  · intro id h w
    simp [Client.GetPaaSService, h]
  · intro id h w
    simp [Client.GetPaaSSecurityZone, h]
  · intro storageID snapshotID h w
    rcases h with h | h <;> simp [Client.GetStorageSnapshot, h]
  · intro serverID isoImageID h w
    rcases h with h | h <;> simp [Client.GetServerIsoImage, h]
  · intro serverID networkID h w
    rcases h with h | h <;> simp [Client.GetServerNetwork, h]

/-- C9 at a concrete input: the empty identifier fails the format check, and
`GetNetwork` refuses it with the zero network. -/
theorem get_invalid_uuid_rejected_with_zero_witness :
    testEnv.isValidUUID "" = false ∧
    RejectsWithZero ({} : Network) ((testClient true).GetNetwork testEnv "") :=
  ⟨by decide, (get_invalid_uuid_rejected_with_zero testEnv (testClient true)).1 "" (by decide)⟩

/-- The guard of `CreateServerIP` and of `DeleteServerIP` refuses empty identifiers
only: with identifiers that are not empty, whatever `isValidUUID` says of them
and in both client modes, the first call made is the call of the request
executor. -/
theorem serverIP_nonempty_ids_reach_executor {σ : Type} (env : Env σ) (c : Client)
    (serverID ipID : String) (w : World σ) (h1 : serverID ≠ "") (h2 : ipID ≠ "") :
    (∃ rest, (c.CreateServerIP env serverID { ObjectUUID := ipID } w).2.trace =
      w.trace ++
        Event.execute
          { uri := env.pathJoin [env.apiServerBase, serverID, "ips"], method := MethodPost,
            body := some (Body.serverIPRelationCreateRequest { ObjectUUID := ipID }) } :: rest) ∧
    (∃ rest, (c.DeleteServerIP env serverID ipID w).2.trace =
      w.trace ++
        Event.execute
          { uri := env.pathJoin [env.apiServerBase, serverID, "ips", ipID],
            method := MethodDelete } :: rest) := by
  constructor
  · have htr : (Request.executeNil
        { uri := env.pathJoin [env.apiServerBase, serverID, "ips"], method := MethodPost,
          body := some (Body.serverIPRelationCreateRequest { ObjectUUID := ipID }) } env c w).2.trace =
        w.trace ++ [Event.execute
          { uri := env.pathJoin [env.apiServerBase, serverID, "ips"], method := MethodPost,
            body := some (Body.serverIPRelationCreateRequest { ObjectUUID := ipID }) }] := rfl
    simp only [Client.CreateServerIP, h1, h2, beq_iff_eq, Bool.or_eq_true, or_self, ↓reduceIte]
    generalize Request.executeNil _ env c w = ex at htr ⊢
    obtain ⟨e, w1⟩ := ex
    cases hs : c.cfg.sync <;> cases e <;> cases hv1 : env.isValidUUID serverID <;>
      cases hv2 : env.isValidUUID ipID <;>
      simp_all [Client.waitForServerIPRelCreation, Client.waitFor200Status]
  · have htr : (Request.executeNil
        { uri := env.pathJoin [env.apiServerBase, serverID, "ips", ipID],
          method := MethodDelete } env c w).2.trace =
        w.trace ++ [Event.execute
          { uri := env.pathJoin [env.apiServerBase, serverID, "ips", ipID],
            method := MethodDelete }] := rfl
    simp only [Client.DeleteServerIP, h1, h2, beq_iff_eq, Bool.or_eq_true, or_self, ↓reduceIte]
    generalize Request.executeNil _ env c w = ex at htr ⊢
    obtain ⟨e, w1⟩ := ex
    cases hs : c.cfg.sync <;> cases e <;> cases hv1 : env.isValidUUID serverID <;>
      cases hv2 : env.isValidUUID ipID <;>
      simp_all [Client.waitForServerIPRelDeleted, Client.waitFor404Status]

/-- C10 fails on the code.  The identifiers `"server-1"` and `"ip-1"` are not empty
and fail the format check.  `CreateServerIP` and `DeleteServerIP` only refuse
empty identifiers, so they send the request: in asynchronous mode the executor
is called and its result returned; in synchronous mode the executor is called
and then the poller's format check returns the validation error, after the
request went out. -/
theorem serverIP_invalid_uuid_reaches_executor :
    testEnv.isValidUUID "server-1" = false ∧ testEnv.isValidUUID "ip-1" = false ∧
    ((testClient false).CreateServerIP testEnv "server-1" { ObjectUUID := "ip-1" }
      (testWorld false serverIPHandlers)).1 = none ∧
    ((testClient false).CreateServerIP testEnv "server-1" { ObjectUUID := "ip-1" }
      (testWorld false serverIPHandlers)).2.trace =
      [Event.execute
        { uri := "/objects/servers/server-1/ips", method := "POST",
          body := some (Body.serverIPRelationCreateRequest { ObjectUUID := "ip-1" }) }] ∧
    ((testClient true).CreateServerIP testEnv "server-1" { ObjectUUID := "ip-1" }
      (testWorld false serverIPHandlers)).1 =
      some (GoError.errorsNew "'serverID' and 'ipID' are required") ∧
    ((testClient true).CreateServerIP testEnv "server-1" { ObjectUUID := "ip-1" }
      (testWorld false serverIPHandlers)).2.trace =
      [Event.execute
        { uri := "/objects/servers/server-1/ips", method := "POST",
          body := some (Body.serverIPRelationCreateRequest { ObjectUUID := "ip-1" }) }] ∧
    ((testClient false).DeleteServerIP testEnv "server-1" "ip-1"
      (testWorld false serverIPHandlers)).2.trace =
      [Event.execute { uri := "/objects/servers/server-1/ips/ip-1", method := "DELETE" }] ∧
    ((testClient true).DeleteServerIP testEnv "server-1" "ip-1"
      (testWorld false serverIPHandlers)).1 =
      some (GoError.errorsNew "'serverID' and 'ipID' are required") ∧
    ((testClient true).DeleteServerIP testEnv "server-1" "ip-1"
      (testWorld false serverIPHandlers)).2.trace =
      [Event.execute { uri := "/objects/servers/server-1/ips/ip-1", method := "DELETE" }] ∧
    ((testClient true).DeleteServerIP testEnv "server-1" "ip-1"
      (testWorld false serverIPHandlers)).2.backend.served = 1 :=
  ⟨by decide, by decide, rfl, rfl, rfl, rfl, rfl, rfl, rfl, rfl⟩

/-- A loop that appends one element per entry is a map over the entries. -/
theorem foldl_append_singleton {β γ : Type} (f : β → γ) (l : List β) (init : List γ) :
    l.foldl (fun acc entry => acc ++ [f entry]) init = init ++ l.map f := by
  induction l generalizing init with
  | nil => simp
  | cons x xs ih => simp [ih]

/-- The mux answers a request in the same way when it is sent a second time. -/
theorem TestBackend.serve_serve (s : TestBackend) (method uri : String) :
    ((s.serve method uri).2.serve method uri).1 = (s.serve method uri).1 := by
  have hsnd : (s.serve method uri).2 =
      { isFailed := s.isFailed, handlers := s.handlers, served := s.served + 1 } := by
    unfold TestBackend.serve
    split
    · rfl
    · split <;> rfl
  rw [hsnd]
  simp only [TestBackend.serve, TestBackend.handler]
  cases s.isFailed
  · cases List.find? (fun h => h.1 == method && h.2.1 == uri) s.handlers <;> rfl
  · rfl

/-- The operations of serverstorage.go have no format check: whatever the
identifiers, in both client modes, each of them calls the request executor once
and returns its error. -/
theorem serverStorage_operations_always_execute {σ : Type} (env : Env σ) (c : Client) :
    (∀ id, OnlyExecutes env c (dropResponse (c.GetServerStorageList env id))) ∧
    (∀ serverId storageId,
      OnlyExecutes env c (dropResponse (c.GetServerStorage env serverId storageId))) ∧
    (∀ serverId storageId body,
      OnlyExecutes env c (c.UpdateServerStorage env serverId storageId body)) ∧
    (∀ id body, OnlyExecutes env c (c.CreateServerStorage env id body)) ∧
    (∀ serverId storageId, OnlyExecutes env c (c.DeleteServerStorage env serverId storageId)) ∧
    (∀ serverId storageId bootdevice,
      OnlyExecutes env c (c.LinkStorage env serverId storageId bootdevice)) ∧
    (∀ serverId storageId, OnlyExecutes env c (c.UnlinkStorage env serverId storageId)) := by
  refine ⟨?_, ?_, ?_, ?_, ?_, ?_, ?_⟩
  · intro id
    exact OnlyExecutes.of_executeNil
      { uri := env.pathJoin [env.apiServerBase, id, "storages"], method := MethodGet }
      (fun _ => rfl)
  · intro serverId storageId
    exact OnlyExecutes.of_executeNil
      { uri := env.pathJoin [env.apiServerBase, serverId, "storages", storageId],
        method := MethodGet }
      (fun _ => rfl)
  · intro serverId storageId body
    exact OnlyExecutes.of_executeNil _ (fun _ => rfl)
  · intro id body
    exact OnlyExecutes.of_executeNil _ (fun _ => rfl)
  · intro serverId storageId
    exact OnlyExecutes.of_executeNil _ (fun _ => rfl)
  · intro serverId storageId bootdevice
    exact OnlyExecutes.of_executeNil _ (fun _ => rfl)
  · intro serverId storageId
    exact OnlyExecutes.of_executeNil _ (fun _ => rfl)

/-- C11 fails on the code.  The empty identifier fails the format check, and every
operation on the relation between a server and a storage, called with empty
identifiers, sends its request: on a mux that answers the path without the
identifiers, each operation calls the request executor and returns no error. -/
theorem serverStorage_invalid_uuid_reaches_executor :
    testEnv.isValidUUID "" = false ∧
    ((testClient true).GetServerStorageList testEnv ""
      (testWorld false serverStorageHandlers)).1.2 = none ∧
    ((testClient true).GetServerStorageList testEnv ""
      (testWorld false serverStorageHandlers)).2.trace =
      [Event.execute { uri := "/objects/servers/storages", method := "GET" }] ∧
    ((testClient true).GetServerStorage testEnv "" ""
      (testWorld false serverStorageHandlers)).1.2 = none ∧
    ((testClient true).GetServerStorage testEnv "" ""
      (testWorld false serverStorageHandlers)).2.trace =
      [Event.execute { uri := "/objects/servers/storages", method := "GET" }] ∧
    (testClient true).UpdateServerStorage testEnv "" "" {}
      (testWorld false serverStorageHandlers) =
      (none, { backend := { isFailed := false, handlers := serverStorageHandlers, served := 1 },
               trace :=
                 [Event.execute
                   { uri := "/objects/servers/storages", method := "PATCH",
                     body := some (Body.serverStorageRelationUpdateRequest {}) }] }) ∧
    (testClient true).CreateServerStorage testEnv "" { ObjectUuid := "" }
      (testWorld false serverStorageHandlers) =
      (none, { backend := { isFailed := false, handlers := serverStorageHandlers, served := 1 },
               trace :=
                 [Event.execute
                   { uri := "/objects/servers/storages", method := "POST",
                     body := some (Body.serverStorageRelationCreateRequest
                       { ObjectUuid := "" }) }] }) ∧
    (testClient true).DeleteServerStorage testEnv "" ""
      (testWorld false serverStorageHandlers) =
      (none, { backend := { isFailed := false, handlers := serverStorageHandlers, served := 1 },
               trace :=
                 [Event.execute { uri := "/objects/servers/storages", method := "DELETE" }] }) ∧
    (testClient true).LinkStorage testEnv "" "" false
      (testWorld false serverStorageHandlers) =
      (none, { backend := { isFailed := false, handlers := serverStorageHandlers, served := 1 },
               trace :=
                 [Event.execute
                   { uri := "/objects/servers/storages", method := "POST",
                     body := some (Body.serverStorageRelationCreateRequest
                       { ObjectUuid := "", BootDevice := false }) }] }) ∧
    (testClient true).UnlinkStorage testEnv "" ""
      (testWorld false serverStorageHandlers) =
      (none, { backend := { isFailed := false, handlers := serverStorageHandlers, served := 1 },
               trace :=
                 [Event.execute { uri := "/objects/servers/storages", method := "DELETE" }] }) :=
  ⟨by decide, rfl, rfl, rfl, rfl, rfl, rfl, rfl, rfl, rfl⟩

/-- C12.  For every wait-for-active poller and every fetched snapshot: the keep-polling
signal of the predicate is true if and only if the status of the snapshot
differs from the terminal value `resourceActiveStatus`, the error of the
predicate is the error of the fetch, unchanged, and the snapshot is fetched anew
through the Get operation at every evaluation. -/
theorem waitForActive_predicate_tests_status {σ : Type} (env : Env σ) (c : Client) :
    (∀ id, PollsStatusOfGet env c (c.GetNetwork env id)
      (fun r : Network => r.Properties.Status) (c.waitForNetworkActive env id)) ∧
    (∀ id, PollsStatusOfGet env c (c.GetStorage env id)
      (fun r : Storage => r.Properties.Status) (c.waitForStorageActive env id)) ∧
    (∀ storageID snapshotID, PollsStatusOfGet env c (c.GetStorageSnapshot env storageID snapshotID)
      (fun r : StorageSnapshot => r.Properties.Status) (c.waitForSnapshotActive env storageID snapshotID)) ∧
    (∀ id, PollsStatusOfGet env c (c.GetTemplate env id)
      (fun r : Template => r.Properties.Status) (c.waitForTemplateActive env id)) ∧
    (∀ id, PollsStatusOfGet env c (c.GetSshkey env id)
      (fun r : Sshkey => r.Properties.Status) (c.waitForSSHKeyActive env id)) ∧
    (∀ id, PollsStatusOfGet env c (c.GetPaaSService env id)
      (fun r : PaaSService => r.Properties.Status) (c.waitForPaaSServiceActive env id)) ∧
    (∀ id, PollsStatusOfGet env c (c.GetPaaSSecurityZone env id)
      (fun r : PaaSSecurityZone => r.Properties.Status) (c.waitForSecurityZoneActive env id)) := by
  refine ⟨?_, ?_, ?_, ?_, ?_, ?_, ?_⟩
  · intro id
    refine ⟨
      (fun w0 =>
        match c.GetNetwork env id w0 with
        | ((net, err), w1) => ((net.Properties.Status != env.resourceActiveStatus, err), w1)),
      fun _ => rfl, fun w0 => ⟨?_, rfl, rfl⟩⟩
    simp
  · intro id
    refine ⟨
      (fun w0 =>
        match c.GetStorage env id w0 with
        | ((storage, err), w1) => ((storage.Properties.Status != env.resourceActiveStatus, err), w1)),
      fun _ => rfl, fun w0 => ⟨?_, rfl, rfl⟩⟩
    simp
  · intro storageID snapshotID
    refine ⟨
      (fun w0 =>
        match c.GetStorageSnapshot env storageID snapshotID w0 with
        | ((snapshot, err), w1) => ((snapshot.Properties.Status != env.resourceActiveStatus, err), w1)),
      fun _ => rfl, fun w0 => ⟨?_, rfl, rfl⟩⟩
    simp
  · intro id
    refine ⟨
      (fun w0 =>
        match c.GetTemplate env id w0 with
        | ((template, err), w1) => ((template.Properties.Status != env.resourceActiveStatus, err), w1)),
      fun _ => rfl, fun w0 => ⟨?_, rfl, rfl⟩⟩
    simp
  · intro id
    refine ⟨
      (fun w0 =>
        match c.GetSshkey env id w0 with
        | ((key, err), w1) => ((key.Properties.Status != env.resourceActiveStatus, err), w1)),
      fun _ => rfl, fun w0 => ⟨?_, rfl, rfl⟩⟩
    simp
  · intro id
    refine ⟨
      (fun w0 =>
        match c.GetPaaSService env id w0 with
        | ((paas, err), w1) => ((paas.Properties.Status != env.resourceActiveStatus, err), w1)),
      fun _ => rfl, fun w0 => ⟨?_, rfl, rfl⟩⟩
    simp
  · intro id
    refine ⟨
      (fun w0 =>
        match c.GetPaaSSecurityZone env id w0 with
        | ((secZone, err), w1) => ((secZone.Properties.Status != env.resourceActiveStatus, err), w1)),
      fun _ => rfl, fun w0 => ⟨?_, rfl, rfl⟩⟩
    simp

/-- C12 at a concrete input: the predicate of `waitForNetworkActive` on the mux of
the test of an update, where the network is still being provisioned. -/
theorem waitForActive_predicate_tests_status_witness :
    PollsStatusOfGet testEnv (testClient true) ((testClient true).GetNetwork testEnv dummyUUID)
      (fun r : Network => r.Properties.Status)
      ((testClient true).waitForNetworkActive testEnv dummyUUID) ∧
    ((testClient true).GetNetwork testEnv dummyUUID
      (testWorld false (networkUpdateHandlers "in-provisioning"))).1.1.Properties.Status ≠
      testEnv.resourceActiveStatus :=
  ⟨(waitForActive_predicate_tests_status testEnv (testClient true)).1 dummyUUID, by decide⟩

/-- C14.  For every wait-for-deleted and wait-for-exists poller built from UUID
identifiers: when an identifier fails the format check, the poller returns an
error and the world is left as it was, so that no poll loop is started and no
call reaches the network. -/
theorem deleted_exists_pollers_reject_invalid_uuid {σ : Type} (env : Env σ) (c : Client) :
    (∀ id, env.isValidUUID id = false → Rejects (c.waitForNetworkDeleted env id)) ∧
    (∀ id, env.isValidUUID id = false → Rejects (c.waitForStorageDeleted env id)) ∧
    (∀ storageID snapshotID, env.isValidUUID storageID = false ∨ env.isValidUUID snapshotID = false →
      Rejects (c.waitForSnapshotDeleted env storageID snapshotID)) ∧
    (∀ id, env.isValidUUID id = false → Rejects (c.waitForTemplateDeleted env id)) ∧
    (∀ id, env.isValidUUID id = false → Rejects (c.waitForSSHKeyDeleted env id)) ∧
    (∀ id, env.isValidUUID id = false → Rejects (c.waitForPaaSServiceDeleted env id)) ∧
    (∀ id, env.isValidUUID id = false → Rejects (c.waitForSecurityZoneDeleted env id)) ∧
    (∀ serverID ipID, env.isValidUUID serverID = false ∨ env.isValidUUID ipID = false →
      Rejects (c.waitForServerIPRelCreation env serverID ipID)) ∧
    (∀ serverID ipID, env.isValidUUID serverID = false ∨ env.isValidUUID ipID = false →
      Rejects (c.waitForServerIPRelDeleted env serverID ipID)) ∧
    (∀ serverID isoimageID, env.isValidUUID serverID = false ∨ env.isValidUUID isoimageID = false →
      Rejects (c.waitForServerISOImageRelCreation env serverID isoimageID)) ∧
    (∀ serverID isoimageID, env.isValidUUID serverID = false ∨ env.isValidUUID isoimageID = false →
      Rejects (c.waitForServerISOImageRelDeleted env serverID isoimageID)) ∧
    (∀ serverID networkID, env.isValidUUID serverID = false ∨ env.isValidUUID networkID = false →
      Rejects (c.waitForServerNetworkRelCreation env serverID networkID)) ∧
    (∀ serverID networkID, env.isValidUUID serverID = false ∨ env.isValidUUID networkID = false →
      Rejects (c.waitForServerNetworkRelDeleted env serverID networkID)) := by
  refine ⟨?_, ?_, ?_, ?_, ?_, ?_, ?_, ?_, ?_, ?_, ?_, ?_, ?_⟩
  · intro id h w
    simp [Client.waitForNetworkDeleted, h]
  · intro id h w
    simp [Client.waitForStorageDeleted, h]
  · intro storageID snapshotID h w
    rcases h with h | h <;> simp [Client.waitForSnapshotDeleted, h]
  · intro id h w
    simp [Client.waitForTemplateDeleted, h]
  · intro id h w
    simp [Client.waitForSSHKeyDeleted, h]
  · intro id h w
    simp [Client.waitForPaaSServiceDeleted, h]
  · intro id h w
    simp [Client.waitForSecurityZoneDeleted, h]
  · intro serverID ipID h w
    rcases h with h | h <;> simp [Client.waitForServerIPRelCreation, h]
  · intro serverID ipID h w
    rcases h with h | h <;> simp [Client.waitForServerIPRelDeleted, h]
  · intro serverID isoimageID h w
    rcases h with h | h <;> simp [Client.waitForServerISOImageRelCreation, h]
  · intro serverID isoimageID h w
    rcases h with h | h <;> simp [Client.waitForServerISOImageRelDeleted, h]
  · intro serverID networkID h w
    rcases h with h | h <;> simp [Client.waitForServerNetworkRelCreation, h]
  · intro serverID networkID h w
    rcases h with h | h <;> simp [Client.waitForServerNetworkRelDeleted, h]

/-- C14 at a concrete input: the empty identifier fails the format check, and
`waitForNetworkDeleted` refuses it. -/
theorem deleted_exists_pollers_reject_invalid_uuid_witness :
    testEnv.isValidUUID "" = false ∧
    Rejects ((testClient true).waitForNetworkDeleted testEnv "") ∧
    (testClient true).waitForNetworkDeleted testEnv "" (testWorld false []) =
      (some (GoError.errorsNew "'id' is invalid"), testWorld false []) :=
  ⟨by decide,
    (deleted_exists_pollers_reject_invalid_uuid testEnv (testClient true)).1 "" (by decide),
    rfl⟩

/-- C17.  For every identifier and every world whose backend is fixed, that is, on
which the executor gives the same outcome when a request is sent a second time,
two calls of a Get operation with the same identifier return the same snapshot
and the same error. -/
theorem get_twice_returns_same_result {σ : Type} (env : Env σ) (c : Client) :
    (∀ id, SameOnSecondCall env c (c.GetNetwork env id)) ∧
    (∀ id, SameOnSecondCall env c (c.GetStorage env id)) ∧
    (∀ id, SameOnSecondCall env c (c.GetTemplate env id)) ∧
    (∀ id, SameOnSecondCall env c (c.GetSshkey env id)) ∧
    (∀ storageID snapshotID,
      SameOnSecondCall env c (c.GetStorageSnapshot env storageID snapshotID)) ∧
    (∀ id, SameOnSecondCall env c (c.GetPaaSService env id)) := by
  refine ⟨?_, ?_, ?_, ?_, ?_, ?_⟩
  · intro id w h
    by_cases hv : env.isValidUUID id = true
    · simp [Client.GetNetwork, hv, Request.execute, h]
    · simp [Client.GetNetwork, hv]
  · intro id w h
    by_cases hv : env.isValidUUID id = true
    · simp [Client.GetStorage, hv, Request.execute, h]
    · simp [Client.GetStorage, hv]
  · intro id w h
    by_cases hv : env.isValidUUID id = true
    · simp [Client.GetTemplate, hv, Request.execute, h]
    · simp [Client.GetTemplate, hv]
  · intro id w h
    by_cases hv : env.isValidUUID id = true
    · simp [Client.GetSshkey, hv, Request.execute, h]
    · simp [Client.GetSshkey, hv]
  · intro storageID snapshotID w h
    by_cases hv : env.isValidUUID storageID = true ∧ env.isValidUUID snapshotID = true
    · simp [Client.GetStorageSnapshot, hv.1, hv.2, Request.execute, h]
    · rw [not_and_or] at hv
      rcases hv with hv | hv <;> simp [Client.GetStorageSnapshot, hv]
  · intro id w h
    by_cases hv : env.isValidUUID id = true
    · simp [Client.GetPaaSService, hv, Request.execute, h]
    · simp [Client.GetPaaSService, hv]

/-- C17 at a concrete input: on the mux of the tests, which answers a request in the
same way each time, two calls of `GetNetwork` return the same network. -/
theorem get_twice_returns_same_result_witness :
    (∀ r : Request,
      (testEnv.execute (testClient false) r
        (testEnv.execute (testClient false) r
          (testWorld false (networkUpdateHandlers "active")).backend).2).1 =
      (testEnv.execute (testClient false) r
        (testWorld false (networkUpdateHandlers "active")).backend).1) ∧
    ((testClient false).GetNetwork testEnv dummyUUID
      ((testClient false).GetNetwork testEnv dummyUUID
        (testWorld false (networkUpdateHandlers "active"))).2).1 =
    ((testClient false).GetNetwork testEnv dummyUUID
      (testWorld false (networkUpdateHandlers "active"))).1 :=
  ⟨fun r => TestBackend.serve_serve _ r.method r.uri,
    (get_twice_returns_same_result testEnv (testClient false)).1 dummyUUID
      (testWorld false (networkUpdateHandlers "active"))
      (fun r => TestBackend.serve_serve _ r.method r.uri)⟩

/-- C18.  The Link and Unlink operations are equal to the relation Create and Delete
operations on every input, in every world and in both modes: `LinkIsoImage` and
`LinkIP` are the create operations on the body that holds the object's
identifier, `UnlinkIsoImage`, `UnlinkIP` and `UnlinkNetwork` are the delete
operations, and `LinkNetwork` is `CreateServerNetwork` on the body that carries
the network as ObjectUUID, the order as Ordering, the boot flag as BootDevice,
the L3 security list, the firewall template and the firewall rules, each
unchanged. -/
theorem link_unlink_equal_create_delete {σ : Type} (env : Env σ) (c : Client) :
    (∀ serverID isoimageID,
      c.LinkIsoImage env serverID isoimageID =
        c.CreateServerIsoImage env serverID { ObjectUUID := isoimageID }) ∧
    (∀ serverID isoimageID,
      c.UnlinkIsoImage env serverID isoimageID = c.DeleteServerIsoImage env serverID isoimageID) ∧
    (∀ serverID ipID,
      c.LinkIP env serverID ipID = c.CreateServerIP env serverID { ObjectUUID := ipID }) ∧
    (∀ serverID ipID, c.UnlinkIP env serverID ipID = c.DeleteServerIP env serverID ipID) ∧
    (∀ serverID networkID,
      c.UnlinkNetwork env serverID networkID = c.DeleteServerNetwork env serverID networkID) ∧
    (∀ serverID networkID firewallTemplate bootdevice order l3security firewall,
      c.LinkNetwork env serverID networkID firewallTemplate bootdevice order l3security firewall =
        c.CreateServerNetwork env serverID
          { ObjectUUID := networkID
            Ordering := order
            BootDevice := bootdevice
            L3security := l3security
            FirewallTemplateUUID := firewallTemplate
            Firewall := firewall }) :=
  ⟨fun _ _ => rfl, fun _ _ => rfl, fun _ _ => rfl, fun _ _ => rfl, fun _ _ => rfl,
    fun _ _ _ _ _ _ _ => rfl⟩

/-- C19.  Each map-backed List operation sends one request and, for the decoded
response, returns exactly one element per entry of the response map: the length
of the result is the number of entries of the map, the multiset of the
properties of the elements is the multiset of the values of the map, and the
error is the one of the executor.  The operations that take an identifier do so
when the identifier passes their format check. -/
theorem list_operations_return_one_element_per_entry {σ : Type} (env : Env σ) (c : Client) :
    ListsMapEntries env c ({} : NetworkList) (fun response => response.List)
      (fun e : Network => e.Properties) (c.GetNetworkList env) ∧
    (∀ id, env.isValidUUID id = true →
      ListsMapEntries env c ({} : NetworkList) (fun response => response.List)
      (fun e : Network => e.Properties) (c.GetNetworksByLocation env id)) ∧
    ListsMapEntries env c ({} : DeletedNetworkList) (fun response => response.List)
      (fun e : Network => e.Properties) (c.GetDeletedNetworks env) ∧
    ListsMapEntries env c ({} : StorageList) (fun response => response.List)
      (fun e : Storage => e.Properties) (c.GetStorageList env) ∧
    (∀ id, env.isValidUUID id = true →
      ListsMapEntries env c ({} : StorageList) (fun response => response.List)
      (fun e : Storage => e.Properties) (c.GetStoragesByLocation env id)) ∧
    ListsMapEntries env c ({} : DeletedStorageList) (fun response => response.List)
      (fun e : Storage => e.Properties) (c.GetDeletedStorages env) ∧
    ListsMapEntries env c ({} : TemplateList) (fun response => response.List)
      (fun e : Template => e.Properties) (c.GetTemplateList env) ∧
    (∀ id, env.isValidUUID id = true →
      ListsMapEntries env c ({} : TemplateList) (fun response => response.List)
      (fun e : Template => e.Properties) (c.GetTemplatesByLocation env id)) ∧
    ListsMapEntries env c ({} : DeletedTemplateList) (fun response => response.List)
      (fun e : Template => e.Properties) (c.GetDeletedTemplates env) ∧
    ListsMapEntries env c ({} : SshkeyList) (fun response => response.List)
      (fun e : Sshkey => e.Properties) (c.GetSshkeyList env) ∧
    ListsMapEntries env c ({} : LabelList) (fun response => response.List)
      (fun e : Label => e.Properties) (c.GetLabelList env) ∧
    (∀ id, env.isValidUUID id = true →
      ListsMapEntries env c ({} : StorageSnapshotList) (fun response => response.List)
      (fun e : StorageSnapshot => e.Properties) (c.GetStorageSnapshotList env id)) ∧
    (∀ id, env.isValidUUID id = true →
      ListsMapEntries env c ({} : StorageSnapshotList) (fun response => response.List)
      (fun e : StorageSnapshot => e.Properties) (c.GetSnapshotsByLocation env id)) ∧
    ListsMapEntries env c ({} : DeletedStorageSnapshotList) (fun response => response.List)
      (fun e : StorageSnapshot => e.Properties) (c.GetDeletedSnapshots env) ∧
    ListsMapEntries env c ({} : PaaSServices) (fun response => response.List)
      (fun e : PaaSService => e.Properties) (c.GetPaaSServiceList env) ∧
    ListsMapEntries env c ({} : PaaSTemplates) (fun response => response.List)
      (fun e : PaaSTemplate => e.Properties) (c.GetPaaSTemplateList env) ∧
    ListsMapEntries env c ({} : PaaSSecurityZones) (fun response => response.List)
      (fun e : PaaSSecurityZone => e.Properties) (c.GetPaaSSecurityZoneList env) ∧
    ListsMapEntries env c ({} : DeletedPaaSServices) (fun response => response.List)
      (fun e : PaaSService => e.Properties) (c.GetDeletedPaaSServices env) := by
  refine ⟨?_, ?_, ?_, ?_, ?_, ?_, ?_, ?_, ?_, ?_, ?_, ?_, ?_, ?_, ?_, ?_, ?_, ?_⟩
  · refine ⟨
      { uri := env.apiNetworkBase, method := MethodGet },
      fun w => ?_⟩
    simp [Client.GetNetworkList, foldl_append_singleton, Function.comp_def]
  · intro id h
    refine ⟨
      { uri := env.pathJoin [env.apiLocationBase, id, "networks"], method := MethodGet },
      fun w => ?_⟩
    simp [Client.GetNetworksByLocation, h, foldl_append_singleton, Function.comp_def]
  · refine ⟨
      { uri := env.pathJoin [env.apiDeletedBase, "networks"], method := MethodGet },
      fun w => ?_⟩
    simp [Client.GetDeletedNetworks, foldl_append_singleton, Function.comp_def]
  · refine ⟨
      { uri := env.apiStorageBase, method := MethodGet },
      fun w => ?_⟩
    simp [Client.GetStorageList, foldl_append_singleton, Function.comp_def]
  · intro id h
    refine ⟨
      { uri := env.pathJoin [env.apiLocationBase, id, "storages"], method := MethodGet },
      fun w => ?_⟩
    simp [Client.GetStoragesByLocation, h, foldl_append_singleton, Function.comp_def]
  · refine ⟨
      { uri := env.pathJoin [env.apiDeletedBase, "storages"], method := MethodGet },
      fun w => ?_⟩
    simp [Client.GetDeletedStorages, foldl_append_singleton, Function.comp_def]
  · refine ⟨
      { uri := env.apiTemplateBase, method := MethodGet },
      fun w => ?_⟩
    simp [Client.GetTemplateList, foldl_append_singleton, Function.comp_def]
  · intro id h
    refine ⟨
      { uri := env.pathJoin [env.apiLocationBase, id, "templates"], method := MethodGet },
      fun w => ?_⟩
    simp [Client.GetTemplatesByLocation, h, foldl_append_singleton, Function.comp_def]
  · refine ⟨
      { uri := env.pathJoin [env.apiDeletedBase, "templates"], method := MethodGet },
      fun w => ?_⟩
    simp [Client.GetDeletedTemplates, foldl_append_singleton, Function.comp_def]
  · refine ⟨
      { uri := env.apiSshkeyBase, method := MethodGet },
      fun w => ?_⟩
    simp [Client.GetSshkeyList, foldl_append_singleton, Function.comp_def]
  · refine ⟨
      { uri := env.apiLabelBase, method := MethodGet },
      fun w => ?_⟩
    simp [Client.GetLabelList, foldl_append_singleton, Function.comp_def]
  · intro id h
    refine ⟨
      { uri := env.pathJoin [env.apiStorageBase, id, "snapshots"], method := MethodGet },
      fun w => ?_⟩
    simp [Client.GetStorageSnapshotList, h, foldl_append_singleton, Function.comp_def]
  · intro id h
    refine ⟨
      { uri := env.pathJoin [env.apiLocationBase, id, "snapshots"], method := MethodGet },
      fun w => ?_⟩
    simp [Client.GetSnapshotsByLocation, h, foldl_append_singleton, Function.comp_def]
  · refine ⟨
      { uri := env.pathJoin [env.apiDeletedBase, "snapshots"], method := MethodGet },
      fun w => ?_⟩
    simp [Client.GetDeletedSnapshots, foldl_append_singleton, Function.comp_def]
  · refine ⟨
      { uri := env.pathJoin [env.apiPaaSBase, "services"], method := MethodGet },
      fun w => ?_⟩
    simp [Client.GetPaaSServiceList, foldl_append_singleton, Function.comp_def]
  · refine ⟨
      { uri := env.pathJoin [env.apiPaaSBase, "service_templates"], method := MethodGet },
      fun w => ?_⟩
    simp [Client.GetPaaSTemplateList, foldl_append_singleton, Function.comp_def]
  · refine ⟨
      { uri := env.pathJoin [env.apiPaaSBase, "security_zones"], method := MethodGet },
      fun w => ?_⟩
    simp [Client.GetPaaSSecurityZoneList, foldl_append_singleton, Function.comp_def]
  · refine ⟨
      { uri := env.pathJoin [env.apiDeletedBase, "paas_services"], method := MethodGet },
      fun w => ?_⟩
    simp [Client.GetDeletedPaaSServices, foldl_append_singleton, Function.comp_def]

/-- C19 at a concrete input: a response map with two networks gives a list of two
networks with the properties of the two entries. -/
theorem list_operations_return_one_element_per_entry_witness :
    specEnv.isValidUUID dummyUUID = true ∧
    ListsMapEntries specEnv (testClient false) ({} : NetworkList) (fun response => response.List)
      (fun e : Network => e.Properties) ((testClient false).GetNetworksByLocation specEnv dummyUUID) ∧
    (((testClient false).GetNetworkList testEnv (testWorld false networkListHandlers)).1.1.map
      (fun e => e.Properties.Name)) = ["first", "second"] :=
  ⟨by decide,
    (list_operations_return_one_element_per_entry specEnv (testClient false)).2.1 dummyUUID
      (by decide),
    rfl⟩

/-- C20.  `GetTemplateByName`, for every name: with an empty name it returns an error
and the zero template and leaves the world as it was, so the executor is not
called; when the fetch of the template list fails it returns that error and the
zero template; otherwise its error is nil if and only if some listed template
has `Properties.Name` equal to the name, and the returned template is then one
of the listed templates with that name. -/
theorem getTemplateByName_finds_listed_template {σ : Type} (env : Env σ) (c : Client) :
    (∀ w, c.GetTemplateByName env "" w =
      (({}, some (GoError.errorsNew "'name' is required")), w)) ∧
    (∀ name w err, name ≠ "" → (c.GetTemplateList env w).1.2 = some err →
      c.GetTemplateByName env name w = (({}, some err), (c.GetTemplateList env w).2)) ∧
    (∀ name w, name ≠ "" → (c.GetTemplateList env w).1.2 = none →
      (c.GetTemplateByName env name w).2 = (c.GetTemplateList env w).2 ∧
      ((c.GetTemplateByName env name w).1.2 = none ↔
        ∃ t ∈ (c.GetTemplateList env w).1.1, t.Properties.Name = name) ∧
      ((c.GetTemplateByName env name w).1.2 = none →
        (c.GetTemplateByName env name w).1.1 ∈ (c.GetTemplateList env w).1.1 ∧
        (c.GetTemplateByName env name w).1.1.Properties.Name = name)) := by
  have hloop : ∀ (name : String) (l : List Template),
      ((Client.GetTemplateByName.loop name l).2 = none ↔ ∃ t ∈ l, t.Properties.Name = name) ∧
      ((Client.GetTemplateByName.loop name l).2 = none →
        (Client.GetTemplateByName.loop name l).1 ∈ l ∧
        (Client.GetTemplateByName.loop name l).1.Properties.Name = name) := by
    intro name l
    induction l with
    | nil => simp [Client.GetTemplateByName.loop]
    | cons t ts ih =>
      by_cases ht : t.Properties.Name = name
      · simp [Client.GetTemplateByName.loop, ht]
      · simp only [Client.GetTemplateByName.loop, beq_iff_eq, ht, ↓reduceIte, List.mem_cons,
          exists_eq_or_imp, false_or]
        exact ⟨ih.1, fun h => ⟨Or.inr (ih.2 h).1, (ih.2 h).2⟩⟩
  refine ⟨fun w => rfl, ?_, ?_⟩
  · intro name w err hname herr
    generalize hg : c.GetTemplateList env w = g at herr
    obtain ⟨⟨templates, e⟩, w1⟩ := g
    simp only at herr
    subst herr
    simp [Client.GetTemplateByName, hname, hg]
  · intro name w hname herr
    have hop : c.GetTemplateByName env name w =
        (Client.GetTemplateByName.loop name (c.GetTemplateList env w).1.1,
          (c.GetTemplateList env w).2) := by
      generalize hg : c.GetTemplateList env w = g at herr
      obtain ⟨⟨templates, e⟩, w1⟩ := g
      simp only at herr
      subst herr
      simp [Client.GetTemplateByName, hname, hg]
    rw [hop]
    exact ⟨rfl, (hloop name _).1, (hloop name _).2⟩

/-- C20 at a concrete input: the mux lists the templates `Debian` and `Ubuntu`, and the
search for `Ubuntu` returns the listed template of that name with a nil error,
while the search for `Arch` returns an error. -/
theorem getTemplateByName_finds_listed_template_witness :
    ("Ubuntu" ≠ "" ∧
      ((testClient false).GetTemplateList testEnv (testWorld false templateListHandlers)).1.2 =
        none) ∧
    (((testClient false).GetTemplateByName testEnv "Ubuntu"
        (testWorld false templateListHandlers)).2 =
      ((testClient false).GetTemplateList testEnv (testWorld false templateListHandlers)).2 ∧
    (((testClient false).GetTemplateByName testEnv "Ubuntu"
        (testWorld false templateListHandlers)).1.2 = none ↔
      ∃ t ∈ ((testClient false).GetTemplateList testEnv
          (testWorld false templateListHandlers)).1.1,
        t.Properties.Name = "Ubuntu") ∧
    (((testClient false).GetTemplateByName testEnv "Ubuntu"
        (testWorld false templateListHandlers)).1.2 = none →
      ((testClient false).GetTemplateByName testEnv "Ubuntu"
        (testWorld false templateListHandlers)).1.1 ∈
        ((testClient false).GetTemplateList testEnv
          (testWorld false templateListHandlers)).1.1 ∧
      ((testClient false).GetTemplateByName testEnv "Ubuntu"
        (testWorld false templateListHandlers)).1.1.Properties.Name = "Ubuntu")) ∧
    ((testClient false).GetTemplateByName testEnv "Ubuntu"
      (testWorld false templateListHandlers)).1.2 = none ∧
    ((testClient false).GetTemplateByName testEnv "Arch"
      (testWorld false templateListHandlers)).1.2 =
      some (GoError.fmtErrorf "Template %v not found" ["Arch"]) :=
  ⟨⟨by decide, rfl⟩,
    (getTemplateByName_finds_listed_template testEnv (testClient false)).2.2 "Ubuntu"
      (testWorld false templateListHandlers) (by decide) rfl,
    rfl, rfl⟩

/-- When every element that `dropWhile` leaves satisfies the test, it leaves none. -/
theorem dropWhile_eq_nil_of_forall_mem {β : Type} (p : β → Bool) (l : List β)
    (h : ∀ x ∈ l.dropWhile p, p x = true) : l.dropWhile p = [] := by
  induction l with
  | nil => rfl
  | cons a l ih =>
    by_cases ha : p a = true
    · simp only [List.dropWhile_cons, ha, ↓reduceIte] at h ⊢
      exact ih h
    · simp only [List.dropWhile_cons, ha, ↓reduceIte] at h
      exact absurd (h a (List.mem_cons_self a l)) ha

/-- The check `strings.TrimSpace(id) == ""` holds for the strings that are empty or
consist of white space only. -/
theorem stringsTrimSpace_beq_empty_iff (s : String) :
    (stringsTrimSpace s == "") = true ↔ ∀ ch ∈ s.data, unicodeIsSpace ch = true := by
  have hmk : ∀ l : List Char, String.mk l = "" ↔ l = [] := by
    intro l
    constructor
    · intro h
      exact congrArg String.data h
    · intro h
      rw [h]
  rw [beq_iff_eq, stringsTrimSpace, hmk, List.reverse_eq_nil_iff]
  constructor
  · intro h
    have hall : ∀ x ∈ s.data.dropWhile unicodeIsSpace, unicodeIsSpace x = true := by
      intro x hx
      exact (List.dropWhile_eq_nil_iff.mp h) x (List.mem_reverse.mpr hx)
    exact List.dropWhile_eq_nil_iff.mp (dropWhile_eq_nil_of_forall_mem _ _ hall)
  · intro h
    rw [List.dropWhile_eq_nil_iff.mpr h]
    rfl

/-- The loop of `GetTemplateByName` gives the same result on two enumerations of
the same templates when at most one of them has the name. -/
theorem getTemplateByName_loop_perm (name : String) (l1 l2 : List Template)
    (h : l1.Perm l2) (hc : l1.countP (fun t => t.Properties.Name == name) ≤ 1) :
    Client.GetTemplateByName.loop name l1 = Client.GetTemplateByName.loop name l2 := by
  induction h with
  | nil => rfl
  | cons x _ ih =>
    by_cases hx : x.Properties.Name = name
    · simp [Client.GetTemplateByName.loop, hx]
    · simp only [Client.GetTemplateByName.loop, beq_iff_eq, hx, ↓reduceIte]
      apply ih
      simpa [List.countP_cons, hx] using hc
  | swap x y l =>
    by_cases hx : x.Properties.Name = name
    · by_cases hy : y.Properties.Name = name
      · simp [List.countP_cons, hx, hy] at hc
      · simp [Client.GetTemplateByName.loop, hx, hy]
    · by_cases hy : y.Properties.Name = name
      · simp [Client.GetTemplateByName.loop, hx, hy]
      · simp [Client.GetTemplateByName.loop, hx, hy]
  | trans h1 _ ih1 ih2 =>
    exact (ih1 hc).trans (ih2 (by rw [← h1.countP_eq]; exact hc))

/-- C21.  `GetNetworkPublic`: when the fetch of the network list fails it returns that
error and the zero network; otherwise its error is nil if and only if some
listed network has `PublicNet` set, the returned network is then one of the
listed networks with `PublicNet` set, and when no listed network is public it
returns the error "Public Network not found" with the zero network. -/
theorem getNetworkPublic_finds_public_network {σ : Type} (env : Env σ) (c : Client) :
    (∀ w err, (c.GetNetworkList env w).1.2 = some err →
      c.GetNetworkPublic env w = (({}, some err), (c.GetNetworkList env w).2)) ∧
    (∀ w, (c.GetNetworkList env w).1.2 = none →
      (c.GetNetworkPublic env w).2 = (c.GetNetworkList env w).2 ∧
      ((c.GetNetworkPublic env w).1.2 = none ↔
        ∃ n ∈ (c.GetNetworkList env w).1.1, n.Properties.PublicNet = true) ∧
      ((c.GetNetworkPublic env w).1.2 = none →
        (c.GetNetworkPublic env w).1.1 ∈ (c.GetNetworkList env w).1.1 ∧
        (c.GetNetworkPublic env w).1.1.Properties.PublicNet = true) ∧
      ((∀ n ∈ (c.GetNetworkList env w).1.1, n.Properties.PublicNet = false) →
        (c.GetNetworkPublic env w).1 =
          ({}, some (GoError.fmtErrorf "Public Network not found" [])))) := by
  have hloop : ∀ l : List Network,
      ((Client.GetNetworkPublic.loop l).2 = none ↔ ∃ n ∈ l, n.Properties.PublicNet = true) ∧
      ((Client.GetNetworkPublic.loop l).2 = none →
        (Client.GetNetworkPublic.loop l).1 ∈ l ∧
        (Client.GetNetworkPublic.loop l).1.Properties.PublicNet = true) ∧
      ((∀ n ∈ l, n.Properties.PublicNet = false) →
        Client.GetNetworkPublic.loop l =
          ({}, some (GoError.fmtErrorf "Public Network not found" []))) := by
    intro l
    induction l with
    | nil => simp [Client.GetNetworkPublic.loop]
    | cons n ns ih =>
      by_cases hn : n.Properties.PublicNet = true
      · simp [Client.GetNetworkPublic.loop, hn]
      · simp only [Client.GetNetworkPublic.loop, hn, Bool.false_eq_true, ↓reduceIte,
          List.mem_cons, exists_eq_or_imp, false_or, forall_eq_or_imp]
        exact ⟨ih.1, fun h => ⟨Or.inr (ih.2.1 h).1, (ih.2.1 h).2⟩, fun h => ih.2.2 h.2⟩
  refine ⟨?_, ?_⟩
  · intro w err herr
    generalize hg : c.GetNetworkList env w = g at herr
    obtain ⟨⟨networks, e⟩, w1⟩ := g
    simp only at herr
    subst herr
    simp [Client.GetNetworkPublic, hg]
  · intro w herr
    have hop : c.GetNetworkPublic env w =
        (Client.GetNetworkPublic.loop (c.GetNetworkList env w).1.1,
          (c.GetNetworkList env w).2) := by
      generalize hg : c.GetNetworkList env w = g at herr
      obtain ⟨⟨networks, e⟩, w1⟩ := g
      simp only at herr
      subst herr
      simp [Client.GetNetworkPublic, hg]
    rw [hop]
    exact ⟨rfl, (hloop _).1, (hloop _).2.1, (hloop _).2.2⟩

/-- C21 at a concrete input: the mux lists two networks, the second of which is
public, and `GetNetworkPublic` returns that network with a nil error. -/
theorem getNetworkPublic_finds_public_network_witness :
    ((testClient false).GetNetworkList testEnv (testWorld false networkListHandlers)).1.2 =
      none ∧
    (((testClient false).GetNetworkPublic testEnv (testWorld false networkListHandlers)).2 =
        ((testClient false).GetNetworkList testEnv (testWorld false networkListHandlers)).2 ∧
      (((testClient false).GetNetworkPublic testEnv
          (testWorld false networkListHandlers)).1.2 = none ↔
        ∃ n ∈ ((testClient false).GetNetworkList testEnv
            (testWorld false networkListHandlers)).1.1,
          n.Properties.PublicNet = true) ∧
      (((testClient false).GetNetworkPublic testEnv
          (testWorld false networkListHandlers)).1.2 = none →
        ((testClient false).GetNetworkPublic testEnv
          (testWorld false networkListHandlers)).1.1 ∈
          ((testClient false).GetNetworkList testEnv
            (testWorld false networkListHandlers)).1.1 ∧
        ((testClient false).GetNetworkPublic testEnv
          (testWorld false networkListHandlers)).1.1.Properties.PublicNet = true) ∧
      ((∀ n ∈ ((testClient false).GetNetworkList testEnv
            (testWorld false networkListHandlers)).1.1,
          n.Properties.PublicNet = false) →
        ((testClient false).GetNetworkPublic testEnv
          (testWorld false networkListHandlers)).1 =
          ({}, some (GoError.fmtErrorf "Public Network not found" [])))) ∧
    ((testClient false).GetNetworkPublic testEnv
      (testWorld false networkListHandlers)).1.2 = none ∧
    ((testClient false).GetNetworkPublic testEnv
      (testWorld false networkListHandlers)).1.1.Properties.Name = "second" :=
  ⟨rfl,
    (getNetworkPublic_finds_public_network testEnv (testClient false)).2
      (testWorld false networkListHandlers) rfl,
    rfl, rfl⟩

/-- C22.  No List operation aborts on a failed request: for every outcome of the
executor, each of `GetNetworkList`, `GetStorageList`, `GetTemplateList`,
`GetSshkeyList`, `GetLabelList` and `GetObjectStorageAccessKeyList` returns, after
its one call of the executor, the error of the executor unchanged, and when the
answer leaves the decoded response empty (nothing decoded, or no entry) it
returns the empty list. -/
theorem list_operations_return_on_failed_request {σ : Type} (env : Env σ) (c : Client) :
    ReturnsExecutorErrorAndList env c
      (fun response : NetworkList => response.List.length) (c.GetNetworkList env) ∧
    ReturnsExecutorErrorAndList env c
      (fun response : StorageList => response.List.length) (c.GetStorageList env) ∧
    ReturnsExecutorErrorAndList env c
      (fun response : TemplateList => response.List.length) (c.GetTemplateList env) ∧
    ReturnsExecutorErrorAndList env c
      (fun response : SshkeyList => response.List.length) (c.GetSshkeyList env) ∧
    ReturnsExecutorErrorAndList env c
      (fun response : LabelList => response.List.length) (c.GetLabelList env) ∧
    ReturnsExecutorErrorAndList env c
      (fun response : ObjectStorageAccessKeyList => response.List.length) (c.GetObjectStorageAccessKeyList env) := by
  refine ⟨?_, ?_, ?_, ?_, ?_, ?_⟩
  · refine ⟨
      { uri := env.apiNetworkBase, method := MethodGet },
      fun w => ⟨rfl, rfl, fun h => ?_, fun response h hlen => ?_⟩⟩
    · simp [Client.GetNetworkList, Request.execute, h]
    · simp [Client.GetNetworkList, Request.execute, h, List.length_eq_zero.mp hlen]
  · refine ⟨
      { uri := env.apiStorageBase, method := MethodGet },
      fun w => ⟨rfl, rfl, fun h => ?_, fun response h hlen => ?_⟩⟩
    · simp [Client.GetStorageList, Request.execute, h]
    · simp [Client.GetStorageList, Request.execute, h, List.length_eq_zero.mp hlen]
  · refine ⟨
      { uri := env.apiTemplateBase, method := MethodGet },
      fun w => ⟨rfl, rfl, fun h => ?_, fun response h hlen => ?_⟩⟩
    · simp [Client.GetTemplateList, Request.execute, h]
    · simp [Client.GetTemplateList, Request.execute, h, List.length_eq_zero.mp hlen]
  · refine ⟨
      { uri := env.apiSshkeyBase, method := MethodGet },
      fun w => ⟨rfl, rfl, fun h => ?_, fun response h hlen => ?_⟩⟩
    · simp [Client.GetSshkeyList, Request.execute, h]
    · simp [Client.GetSshkeyList, Request.execute, h, List.length_eq_zero.mp hlen]
  · refine ⟨
      { uri := env.apiLabelBase, method := MethodGet },
      fun w => ⟨rfl, rfl, fun h => ?_, fun response h hlen => ?_⟩⟩
    · simp [Client.GetLabelList, Request.execute, h]
    · simp [Client.GetLabelList, Request.execute, h, List.length_eq_zero.mp hlen]
  · refine ⟨
      { uri := env.pathJoin [env.apiObjectStorageBase, "access_keys"], method := MethodGet },
      fun w => ⟨rfl, rfl, fun h => ?_, fun response h hlen => ?_⟩⟩
    · simp [Client.GetObjectStorageAccessKeyList, Request.execute, h]
    · simp [Client.GetObjectStorageAccessKeyList, Request.execute, h, List.length_eq_zero.mp hlen]

/-- C22 at a concrete input: on the failing mux of the tests, which answers 400 with
no body, `GetNetworkList` returns the empty list and the error of the executor. -/
theorem list_operations_return_on_failed_request_witness :
    ReturnsExecutorErrorAndList testEnv (testClient true)
      (fun response : NetworkList => response.List.length)
      ((testClient true).GetNetworkList testEnv) ∧
    ((testClient true).GetNetworkList testEnv (testWorld true networkListHandlers)).1.1.length =
      0 ∧
    ((testClient true).GetNetworkList testEnv (testWorld true networkListHandlers)).1.2 =
      some (GoError.requestError 400 "Bad Request") :=
  ⟨(list_operations_return_on_failed_request testEnv (testClient true)).1, rfl, rfl⟩

/-- C23.  With the power-state transitions modelled from the spec, for every client
mode and every identifier that passes the format check: when the request of
the graceful shutdown fails, `ShutdownServer` falls back to the hard power-off
`StopServer`; that power-off is, in synchronous mode, followed by the same wait
on the power flag of the server, which keeps polling while the freshly fetched
server has its power on; and `ShutdownServer` returns a nil error exactly when
the power-off succeeded and, in synchronous mode, that wait succeeded. -/
theorem shutdownServer_falls_back_to_power_off {σ : Type} (env : Env σ) (c : Client)
    (id : String) (hid : env.isValidUUID id = true) :
    (∀ w, FallsBackToPowerOff env c id w) ∧
    (∃ targetFunc : World σ → (Bool × Option GoError) × World σ,
      (∀ w, c.waitForServerPowerStatus env id false w =
        retryWithTimeout env targetFunc c.cfg.requestCheckTimeoutSecs c.cfg.delayInterval
          w) ∧
      ∀ w0,
        ((targetFunc w0).1.1 = true ↔ (c.GetServer env id w0).1.1.Properties.Power = true) ∧
        (targetFunc w0).1.2 = (c.GetServer env id w0).1.2 ∧
        (targetFunc w0).2 = (c.GetServer env id w0).2) := by
  refine ⟨?_, ?_⟩
  · intro w
    simp only [FallsBackToPowerOff]
    intro hdown
    have hshut : c.ShutdownServer env id w = c.StopServer env id (Request.executeNil
        { uri := env.pathJoin [env.apiServerBase, id, "shutdown"], method := MethodPatch }
        env c w).2 := by
      generalize hg : Request.executeNil
        { uri := env.pathJoin [env.apiServerBase, id, "shutdown"], method := MethodPatch }
        env c w = g at hdown
      obtain ⟨e, w1⟩ := g
      cases e with
      | none => exact absurd rfl hdown
      | some e => simp only [Client.ShutdownServer, hid, Bool.not_true, Bool.false_eq_true,
          ↓reduceIte, hg]
    rw [hshut]
    generalize (Request.executeNil
      { uri := env.pathJoin [env.apiServerBase, id, "shutdown"], method := MethodPatch }
      env c w).2 = w1
    generalize hg : Request.executeNil
      { uri := env.pathJoin [env.apiServerBase, id, "power"],
        method := MethodPatch,
        body := some (Body.serverPowerUpdateRequest { Power := false }) } env c w1 = g
    obtain ⟨e, w2⟩ := g
    cases e with
    | some e =>
      simp [Client.StopServer, hid, hg]
    | none =>
      cases hsync : c.cfg.sync <;> simp [Client.StopServer, hid, hg, hsync]
  · refine ⟨
      (fun w0 =>
        match c.GetServer env id w0 with
        | ((server, err), w1) => ((server.Properties.Power != false, err), w1)),
      fun w => ?_, fun w0 => ⟨?_, rfl, rfl⟩⟩
    · simp only [Client.waitForServerPowerStatus, hid, Bool.not_true, Bool.false_eq_true,
        ↓reduceIte]
    · simp

/-- C23 at a concrete input: on a mux where the graceful shutdown fails and the
power-off answers, with the poll loop of the spec, `ShutdownServer` returns nil in
both client modes; in synchronous mode after the failed shutdown, the power-off
and a wait that fetches the server once, in asynchronous mode after the failed
shutdown and the power-off. -/
theorem shutdownServer_falls_back_to_power_off_witness :
    specEnv.isValidUUID dummyUUID = true ∧
    (∀ w, FallsBackToPowerOff specEnv (testClient true) dummyUUID w) ∧
    (Request.executeNil
      { uri := "/objects/servers/" ++ dummyUUID ++ "/shutdown", method := MethodPatch }
      specEnv (testClient true) (testWorld false serverShutdownHandlers)).1 =
      some (GoError.requestError 404 "Not Found") ∧
    (testClient true).ShutdownServer specEnv dummyUUID
        (testWorld false serverShutdownHandlers) =
      (none,
        { backend := { isFailed := false, handlers := serverShutdownHandlers, served := 3 },
          trace :=
            [Event.execute
              { uri := "/objects/servers/" ++ dummyUUID ++ "/shutdown", method := MethodPatch },
             Event.execute
              { uri := "/objects/servers/" ++ dummyUUID ++ "/power",
                method := MethodPatch,
                body := some (Body.serverPowerUpdateRequest { Power := false }) },
             Event.retryWithTimeout 1000000000 100000000,
             Event.execute
              { uri := "/objects/servers/" ++ dummyUUID, method := MethodGet }] }) ∧
    (testClient false).ShutdownServer specEnv dummyUUID
        (testWorld false serverShutdownHandlers) =
      (none,
        { backend := { isFailed := false, handlers := serverShutdownHandlers, served := 2 },
          trace :=
            [Event.execute
              { uri := "/objects/servers/" ++ dummyUUID ++ "/shutdown", method := MethodPatch },
             Event.execute
              { uri := "/objects/servers/" ++ dummyUUID ++ "/power",
                method := MethodPatch,
                body := some (Body.serverPowerUpdateRequest { Power := false }) }] }) :=
  ⟨by decide,
    (shutdownServer_falls_back_to_power_off specEnv (testClient true) dummyUUID
      (by decide)).1,
    rfl, rfl, rfl⟩

/-- C24.  For every Create operation and both client modes: when the executor fails,
the operation returns the zero value of its response with the error of the
executor unchanged, and the one call of the executor, a POST, is the only call
made, so that the completion waiter is not called.  `CreateStorageSnapshot`
calls the executor when its identifier passes the format check. -/
theorem create_returns_zero_on_executor_failure {σ : Type} (env : Env σ) (c : Client) :
    (∀ body,
      ZeroOnExecutorFailure env c ({} : NetworkCreateResponse) (c.CreateNetwork env body)) ∧
    (∀ body,
      ZeroOnExecutorFailure env c ({} : CreateResponse) (c.CreateStorage env body)) ∧
    (∀ body,
      ZeroOnExecutorFailure env c ({} : CreateResponse) (c.CreateTemplate env body)) ∧
    (∀ body,
      ZeroOnExecutorFailure env c ({} : CreateResponse) (c.CreateSshkey env body)) ∧
    (∀ body,
      ZeroOnExecutorFailure env c ({} : CreateResponse) (c.CreateLabel env body)) ∧
    (∀ id body, env.isValidUUID id = true →
      ZeroOnExecutorFailure env c ({} : StorageSnapshotCreateResponse)
        (c.CreateStorageSnapshot env id body)) ∧
    (∀ body,
      ZeroOnExecutorFailure env c ({} : PaaSServiceCreateResponse) (c.CreatePaaSService env body)) ∧
    (∀ body,
      ZeroOnExecutorFailure env c ({} : PaaSSecurityZoneCreateResponse) (c.CreatePaaSSecurityZone env body)) ∧
    ZeroOnExecutorFailure env c ({} : ObjectStorageAccessKeyCreateResponse)
      (c.CreateObjectStorageAccessKey env) := by
  refine ⟨?_, ?_, ?_, ?_, ?_, ?_, ?_, ?_, ?_⟩
  · intro body
    refine ⟨
      { uri := env.apiNetworkBase, method := MethodPost,
        body := some (Body.networkCreateRequest body) },
      rfl, fun w err h => ?_⟩
    simp [Client.CreateNetwork, Request.execute, h]
  · intro body
    refine ⟨
      { uri := env.apiStorageBase, method := MethodPost,
        body := some (Body.storageCreateRequest body) },
      rfl, fun w err h => ?_⟩
    simp [Client.CreateStorage, Request.execute, h]
  · intro body
    refine ⟨
      { uri := env.apiTemplateBase, method := MethodPost,
        body := some (Body.templateCreateRequest body) },
      rfl, fun w err h => ?_⟩
    simp [Client.CreateTemplate, Request.execute, h]
  · intro body
    refine ⟨
      { uri := env.apiSshkeyBase, method := "POST",
        body := some (Body.sshkeyCreateRequest body) },
      rfl, fun w err h => ?_⟩
    simp [Client.CreateSshkey, Request.execute, h]
  · intro body
    refine ⟨
      { uri := env.apiLabelBase, method := MethodPost,
        body := some (Body.labelCreateRequest body) },
      rfl, fun w err h => ?_⟩
    simp [Client.CreateLabel, Request.execute, h]
  · intro id body hid
    refine ⟨
      { uri := env.pathJoin [env.apiStorageBase, id, "snapshots"], method := MethodPost,
        body := some (Body.storageSnapshotCreateRequest body) },
      rfl, fun w err h => ?_⟩
    simp [Client.CreateStorageSnapshot, hid, Request.execute, h]
  · intro body
    refine ⟨
      { uri := env.pathJoin [env.apiPaaSBase, "services"], method := MethodPost,
        body := some (Body.paaSServiceCreateRequest body) },
      rfl, fun w err h => ?_⟩
    simp [Client.CreatePaaSService, Request.execute, h]
  · intro body
    refine ⟨
      { uri := env.pathJoin [env.apiPaaSBase, "security_zones"], method := MethodPost,
        body := some (Body.paaSSecurityZoneCreateRequest body) },
      rfl, fun w err h => ?_⟩
    simp [Client.CreatePaaSSecurityZone, Request.execute, h]
  · refine ⟨
      { uri := env.pathJoin [env.apiObjectStorageBase, "access_keys"], method := MethodPost },
      rfl, fun w err h => ?_⟩
    simp [Client.CreateObjectStorageAccessKey, Request.execute, h]

/-- C24 at a concrete input: on the failing mux of the tests, `CreateNetwork` in
synchronous mode returns the zero response and the error of the executor after
the one call of the executor. -/
theorem create_returns_zero_on_executor_failure_witness :
    ZeroOnExecutorFailure testEnv (testClient true) ({} : NetworkCreateResponse)
      ((testClient true).CreateNetwork testEnv { Name := "test" }) ∧
    ((testClient true).CreateNetwork testEnv { Name := "test" }
      (testWorld true networkCreateHandlers)).1.2 =
      some (GoError.requestError 400 "Bad Request") ∧
    ((testClient true).CreateNetwork testEnv { Name := "test" }
      (testWorld true networkCreateHandlers)).1.1.RequestUUID = "" ∧
    ((testClient true).CreateNetwork testEnv { Name := "test" }
      (testWorld true networkCreateHandlers)).2.trace.length = 1 :=
  ⟨(create_returns_zero_on_executor_failure testEnv (testClient true)).1 { Name := "test" },
    rfl, rfl, rfl⟩

/-- C25.  For every decoded response the list-backed List operations keep content
and order: `GetServerIsoImageList`, `GetServerNetworkList`, `GetServerIPList` and
`GetServerStorageList` return the decoded list of relations unchanged, and
`GetObjectStorageAccessKeyList`, `GetObjectStorageBucketList` and
`GetPaaSServiceMetrics` return a list of the same length whose element at each
index has as `Properties` the decoded entry at that index.  The operations that
check their identifier do so when it passes the check. -/
theorem list_backed_operations_keep_order {σ : Type} (env : Env σ) (c : Client) :
    (∀ id, env.isValidUUID id = true →
      ReturnsDecodedList env c ({} : ServerIsoImageRelationList) (fun response => response.List)
        (c.GetServerIsoImageList env id)) ∧
    (∀ id, env.isValidUUID id = true →
      ReturnsDecodedList env c ({} : ServerNetworkRelationList) (fun response => response.List)
        (c.GetServerNetworkList env id)) ∧
    (∀ id, id ≠ "" →
      ReturnsDecodedList env c ({} : ServerIPRelationList) (fun response => response.List)
        (c.GetServerIPList env id)) ∧
    (∀ id,
      ReturnsDecodedList env c ({} : ServerStorageRelationList) (fun response => response.List)
        (c.GetServerStorageList env id)) ∧
    WrapsDecodedList env c ({} : ObjectStorageAccessKeyList) (fun response => response.List)
      (fun e : ObjectStorageAccessKey => e.Properties) (c.GetObjectStorageAccessKeyList env) ∧
    WrapsDecodedList env c ({} : ObjectStorageBucketList) (fun response => response.List)
      (fun e : ObjectStorageBucket => e.Properties) (c.GetObjectStorageBucketList env) ∧
    (∀ id, env.isValidUUID id = true →
      WrapsDecodedList env c ({} : PaaSServiceMetrics) (fun response => response.List)
      (fun e : PaaSServiceMetric => e.Properties) (c.GetPaaSServiceMetrics env id)) := by
  refine ⟨?_, ?_, ?_, ?_, ?_, ?_, ?_⟩
  · intro id h
    refine ⟨
      { uri := env.pathJoin [env.apiServerBase, id, "isoimages"], method := MethodGet },
      fun w => ?_⟩
    simp [Client.GetServerIsoImageList, h]
  · intro id h
    refine ⟨
      { uri := env.pathJoin [env.apiServerBase, id, "networks"], method := MethodGet },
      fun w => ?_⟩
    simp [Client.GetServerNetworkList, h]
  · intro id h
    refine ⟨
      { uri := env.pathJoin [env.apiServerBase, id, "ips"], method := MethodGet },
      fun w => ?_⟩
    simp [Client.GetServerIPList, h]
  · intro id
    exact ⟨
      { uri := env.pathJoin [env.apiServerBase, id, "storages"], method := MethodGet },
      fun w => ⟨rfl, rfl, rfl⟩⟩
  · refine ⟨
      { uri := env.pathJoin [env.apiObjectStorageBase, "access_keys"], method := MethodGet },
      fun w => ?_⟩
    simp [Client.GetObjectStorageAccessKeyList, foldl_append_singleton, Function.comp_def]
  · refine ⟨
      { uri := env.pathJoin [env.apiObjectStorageBase, "buckets"], method := MethodGet },
      fun w => ?_⟩
    simp [Client.GetObjectStorageBucketList, foldl_append_singleton, Function.comp_def]
  · intro id h
    refine ⟨
      { uri := env.pathJoin [env.apiPaaSBase, "services", id, "metrics"], method := MethodGet },
      fun w => ?_⟩
    simp [Client.GetPaaSServiceMetrics, h, foldl_append_singleton, Function.comp_def]

/-- C25 at a concrete input: the mux lists two access keys, and
`GetObjectStorageAccessKeyList` returns them in that order; the identifier of the
tests passes the check of `GetServerIsoImageList`. -/
theorem list_backed_operations_keep_order_witness :
    testEnv.isValidUUID dummyUUID = true ∧
    ReturnsDecodedList testEnv (testClient false) ({} : ServerIsoImageRelationList)
      (fun response => response.List) ((testClient false).GetServerIsoImageList testEnv dummyUUID) ∧
    ((testClient false).GetObjectStorageAccessKeyList testEnv
      (testWorld false accessKeyListHandlers)).1.1.map (fun e => e.Properties.AccessKey) =
      ["a1", "a2"] :=
  ⟨by decide,
    (list_backed_operations_keep_order testEnv (testClient false)).1 dummyUUID (by decide),
    rfl⟩

/-- C26.  For every label name: the keep-polling signal of the predicate of
`waitForLabelDeleted` is `isLabelInSlice` of the name and the list of labels
fetched anew by `GetLabelList`, which is true if and only if some element of the
list has `Properties.Label` equal to the name, and false for the empty list; the
error of the predicate is the error of the fetch, unchanged; so, with the poll
loop of the spec, a failed fetch that yields no labels on the first tick ends
the wait with that error. -/
theorem waitForLabelDeleted_predicate_is_isLabelInSlice {σ : Type} (env : Env σ)
    (c : Client) :
    (∀ label, label ≠ "" →
      ∃ targetFunc : World σ → (Bool × Option GoError) × World σ,
        (∀ w, c.waitForLabelDeleted env label w =
          retryWithTimeout env targetFunc c.cfg.requestCheckTimeoutSecs c.cfg.delayInterval
            w) ∧
        ∀ w0,
          (targetFunc w0).1.1 = isLabelInSlice label (c.GetLabelList env w0).1.1 ∧
          (targetFunc w0).1.2 = (c.GetLabelList env w0).1.2 ∧
          (targetFunc w0).2 = (c.GetLabelList env w0).2) ∧
    (∀ (label : String) (list : List Label),
      isLabelInSlice label list = true ↔ ∃ l ∈ list, l.Properties.Label = label) ∧
    (∀ label : String, isLabelInSlice label [] = false) ∧
    (env.retryWithTimeout = retryWithTimeoutSpec →
      ∀ label w err, label ≠ "" →
        (c.GetLabelList env (w.log (Event.retryWithTimeout c.cfg.requestCheckTimeoutSecs
          c.cfg.delayInterval))).1.1 = [] →
        (c.GetLabelList env (w.log (Event.retryWithTimeout c.cfg.requestCheckTimeoutSecs
          c.cfg.delayInterval))).1.2 = some err →
        c.waitForLabelDeleted env label w =
          (some err,
            (c.GetLabelList env (w.log (Event.retryWithTimeout c.cfg.requestCheckTimeoutSecs
              c.cfg.delayInterval))).2)) := by
  refine ⟨?_, ?_, fun _ => rfl, ?_⟩
  · intro label h
    refine ⟨
      (fun w0 =>
        match c.GetLabelList env w0 with
        | ((labels, err), w1) => ((isLabelInSlice label labels, err), w1)),
      fun w => ?_, fun w0 => ⟨rfl, rfl, rfl⟩⟩
    simp only [Client.waitForLabelDeleted, beq_iff_eq, h, ↓reduceIte]
  · intro label list
    induction list with
    | nil => simp [isLabelInSlice]
    | cons b list ih =>
      by_cases hb : b.Properties.Label = label
      · simp [isLabelInSlice, hb]
      · simp [isLabelInSlice, hb, ih]
  · intro henv label w err h hnil herr
    simp only [Client.waitForLabelDeleted, beq_iff_eq, h, ↓reduceIte, retryWithTimeout, henv,
      retryWithTimeoutSpec, retryWithTimeoutSpec.loop]
    generalize c.GetLabelList env (w.log (Event.retryWithTimeout c.cfg.requestCheckTimeoutSecs
      c.cfg.delayInterval)) = g at hnil herr
    obtain ⟨⟨labels, e⟩, w1⟩ := g
    simp only at hnil herr
    subst hnil herr
    simp [isLabelInSlice]

/-- C26 at a concrete input: the predicate for the label `test`, which the mux lists;
and on the failing mux, with the poll loop of the spec, the wait for the label
ends with the error of the fetch after one fetch. -/
theorem waitForLabelDeleted_predicate_is_isLabelInSlice_witness :
    ("test" ≠ "" ∧ specEnv.retryWithTimeout = retryWithTimeoutSpec) ∧
    (∃ targetFunc : World TestBackend → (Bool × Option GoError) × World TestBackend,
      (∀ w, (testClient true).waitForLabelDeleted specEnv "test" w =
        retryWithTimeout specEnv targetFunc (testClient true).cfg.requestCheckTimeoutSecs
          (testClient true).cfg.delayInterval w) ∧
      ∀ w0,
        (targetFunc w0).1.1 =
          isLabelInSlice "test" ((testClient true).GetLabelList specEnv w0).1.1 ∧
        (targetFunc w0).1.2 = ((testClient true).GetLabelList specEnv w0).1.2 ∧
        (targetFunc w0).2 = ((testClient true).GetLabelList specEnv w0).2) ∧
    isLabelInSlice "test"
      ((testClient true).GetLabelList specEnv (testWorld false labelListHandlers)).1.1 = true ∧
    (testClient true).waitForLabelDeleted specEnv "test" (testWorld true labelListHandlers) =
      (some (GoError.requestError 400 "Bad Request"),
        { backend := { isFailed := true, handlers := labelListHandlers, served := 1 },
          trace :=
            [Event.retryWithTimeout 1000000000 100000000,
             Event.execute { uri := "/objects/labels", method := MethodGet }] }) :=
  ⟨⟨by decide, rfl⟩,
    (waitForLabelDeleted_predicate_is_isLabelInSlice specEnv (testClient true)).1 "test"
      (by decide),
    rfl, rfl⟩

/-- C27.  For every name and every two enumerations of the same templates, of which
at most one has `Properties.Name` equal to the name: the loop of
`GetTemplateByName` gives the same result on both, and `GetTemplateByName` returns
the same template and the same error in two worlds whose list fetches return
these two enumerations with the same error.  The order in which the response
map is enumerated does not affect the result. -/
theorem getTemplateByName_independent_of_order {σ : Type} (env : Env σ) (c : Client) :
    (∀ (name : String) (l1 l2 : List Template), l1.Perm l2 →
      l1.countP (fun t => t.Properties.Name == name) ≤ 1 →
      Client.GetTemplateByName.loop name l1 = Client.GetTemplateByName.loop name l2) ∧
    (∀ (name : String) (w w' : World σ),
      (c.GetTemplateList env w).1.2 = (c.GetTemplateList env w').1.2 →
      (c.GetTemplateList env w).1.1.Perm (c.GetTemplateList env w').1.1 →
      (c.GetTemplateList env w).1.1.countP (fun t => t.Properties.Name == name) ≤ 1 →
      (c.GetTemplateByName env name w).1 = (c.GetTemplateByName env name w').1) := by
  refine ⟨getTemplateByName_loop_perm, ?_⟩
  intro name w w' herr hperm hcount
  by_cases hname : name = ""
  · simp [Client.GetTemplateByName, hname]
  · generalize hg : c.GetTemplateList env w = g at herr hperm hcount
    generalize hg' : c.GetTemplateList env w' = g' at herr hperm
    obtain ⟨⟨l1, e1⟩, w1⟩ := g
    obtain ⟨⟨l2, e2⟩, w2⟩ := g'
    simp only at herr hperm hcount
    subst herr
    cases e1 with
    | some e => simp [Client.GetTemplateByName, hname, hg, hg']
    | none =>
      simp only [Client.GetTemplateByName, beq_iff_eq, hname, ↓reduceIte, hg, hg']
      exact getTemplateByName_loop_perm name l1 l2 hperm hcount

/-- C27 at a concrete input: the mux lists the templates `Debian` and `Ubuntu` in
one order or in the other, one template has the name `Ubuntu`, and the search
for `Ubuntu` returns the same result in both cases. -/
theorem getTemplateByName_independent_of_order_witness :
    (((testClient false).GetTemplateList testEnv (testWorld false templateListHandlers)).1.2 =
        ((testClient false).GetTemplateList testEnv
          (testWorld false templateListHandlersSwapped)).1.2 ∧
      ((testClient false).GetTemplateList testEnv
        (testWorld false templateListHandlers)).1.1.Perm
        ((testClient false).GetTemplateList testEnv
          (testWorld false templateListHandlersSwapped)).1.1 ∧
      ((testClient false).GetTemplateList testEnv
        (testWorld false templateListHandlers)).1.1.countP
          (fun t => t.Properties.Name == "Ubuntu") ≤ 1) ∧
    ((testClient false).GetTemplateByName testEnv "Ubuntu"
      (testWorld false templateListHandlers)).1 =
      ((testClient false).GetTemplateByName testEnv "Ubuntu"
        (testWorld false templateListHandlersSwapped)).1 ∧
    ((testClient false).GetTemplateByName testEnv "Ubuntu"
      (testWorld false templateListHandlersSwapped)).1.1.Properties.ObjectUUID = "t2" :=
  ⟨⟨rfl, List.Perm.swap _ _ _, by decide⟩,
    (getTemplateByName_independent_of_order testEnv (testClient false)).2 "Ubuntu"
      (testWorld false templateListHandlers) (testWorld false templateListHandlersSwapped)
      rfl (List.Perm.swap _ _ _) (by decide),
    rfl⟩

/-- C28.  The check of the identifier in `GetObjectStorageAccessKey`,
`DeleteObjectStorageAccessKey` and `waitForObjectStorageAccessKeyDeleted` refuses
the identifiers that are empty or consist of white space only.  For such an
identifier each of the three, in both client modes, returns an error and leaves
the world as it was, so that neither the executor nor a poller is called.  The
delete operation and its poller make the same check: for every other
identifier the poller is the call of `waitFor404Status`, and in synchronous mode
the delete operation, once its DELETE succeeded, returns what that call returns,
so that no error of the check can come after the DELETE was sent. -/
theorem objectStorageAccessKey_blank_id_rejected {σ : Type} (env : Env σ) (c : Client) :
    (∀ id : String,
      (stringsTrimSpace id == "") = true ↔ ∀ ch ∈ id.data, unicodeIsSpace ch = true) ∧
    (∀ id : String, (∀ ch ∈ id.data, unicodeIsSpace ch = true) →
      RejectsWithZero ({} : ObjectStorageAccessKey) (c.GetObjectStorageAccessKey env id) ∧
      Rejects (c.DeleteObjectStorageAccessKey env id) ∧
      Rejects (c.waitForObjectStorageAccessKeyDeleted env id)) ∧
    (∀ id : String, ¬ (∀ ch ∈ id.data, unicodeIsSpace ch = true) →
      (∀ w, c.waitForObjectStorageAccessKeyDeleted env id w =
        c.waitFor404Status env (env.pathJoin [env.apiObjectStorageBase, "access_keys", id])
          MethodGet w) ∧
      (c.cfg.sync = true → ∀ w,
        (Request.executeNil
          { uri := env.pathJoin [env.apiObjectStorageBase, "access_keys", id],
            method := MethodDelete } env c w).1 = none →
        c.DeleteObjectStorageAccessKey env id w =
          c.waitFor404Status env (env.pathJoin [env.apiObjectStorageBase, "access_keys", id])
            MethodGet
            (Request.executeNil
              { uri := env.pathJoin [env.apiObjectStorageBase, "access_keys", id],
                method := MethodDelete } env c w).2)) := by
  refine ⟨stringsTrimSpace_beq_empty_iff, ?_, ?_⟩
  · intro id h
    have hb := (stringsTrimSpace_beq_empty_iff id).mpr h
    refine ⟨fun w => ⟨GoError.errorsNew "'id' is required", ?_⟩,
      fun w => ⟨GoError.errorsNew "'id' is required", ?_⟩,
      fun w => ⟨GoError.errorsNew "'id' is required", ?_⟩⟩
    · simp only [Client.GetObjectStorageAccessKey, hb, ↓reduceIte]
    · simp only [Client.DeleteObjectStorageAccessKey, hb, ↓reduceIte]
    · simp only [Client.waitForObjectStorageAccessKeyDeleted, hb, ↓reduceIte]
  · intro id h
    have hb : (stringsTrimSpace id == "") = false := by
      rw [← Bool.not_eq_true]
      exact fun hb => h ((stringsTrimSpace_beq_empty_iff id).mp hb)
    have hpoll : ∀ w, c.waitForObjectStorageAccessKeyDeleted env id w =
        c.waitFor404Status env (env.pathJoin [env.apiObjectStorageBase, "access_keys", id])
          MethodGet w := by
      intro w
      simp only [Client.waitForObjectStorageAccessKeyDeleted, hb, Bool.false_eq_true,
        ↓reduceIte]
    refine ⟨hpoll, fun hsync w hdel => ?_⟩
    rw [← hpoll]
    generalize hg : Request.executeNil
      { uri := env.pathJoin [env.apiObjectStorageBase, "access_keys", id],
        method := MethodDelete } env c w = g at hdel
    obtain ⟨e, w1⟩ := g
    simp only at hdel
    subst hdel
    simp only [Client.DeleteObjectStorageAccessKey, hb, Bool.false_eq_true, ↓reduceIte, hsync,
      hg]

/-- C28 at a concrete input: the identifier made of a blank and a tab is refused by
the three functions, and the identifier `key-1` is not of that kind. -/
theorem objectStorageAccessKey_blank_id_rejected_witness :
    (∀ ch ∈ (" \t" : String).data, unicodeIsSpace ch = true) ∧
    (RejectsWithZero ({} : ObjectStorageAccessKey)
        ((testClient true).GetObjectStorageAccessKey testEnv " \t") ∧
      Rejects ((testClient true).DeleteObjectStorageAccessKey testEnv " \t") ∧
      Rejects ((testClient true).waitForObjectStorageAccessKeyDeleted testEnv " \t")) ∧
    (testClient true).DeleteObjectStorageAccessKey testEnv " \t" (testWorld false []) =
      (some (GoError.errorsNew "'id' is required"), testWorld false []) ∧
    ¬ (∀ ch ∈ ("key-1" : String).data, unicodeIsSpace ch = true) :=
  ⟨by decide,
    (objectStorageAccessKey_blank_id_rejected testEnv (testClient true)).2.1 " \t" (by decide),
    rfl, by decide⟩

end Gsclient
